import Mathlib

/-!
# libvo/gl_common.c: OpenGL helper functions

A shallow embedding of the helper routines of `libvo/gl_common.c` and the
properties of its natural-language specification.

Conventions of the embedding

* C `int` values are mathematical integers (`Int`); `%` and `/` of C are
  `Int.tmod` and `Int.tdiv` (truncation toward zero).  Signed overflow and
  division by zero are undefined in C: `glUploadTex`, whose arguments come
  from the caller, checks every `int` operation it performs and lists
  `Event.undefined` where the result is not an `int` or the divisor is zero.
* Pointers to functions are natural numbers, `0` being `NULL`.  A call
  through a `NULL` entry is listed as an event with the pointer 0; the run
  of the C program ends there, so a statement about the events after it is
  made only for tables in which the entry is not `NULL`
  (`Event.isFault`).
* Data pointers are integer byte addresses.
* `float` and `double` values are exact rationals: rounding of the binary
  formats is not modelled.
* A C function with effects returns the list of the calls it issues, in
  program order (`Event`).
* Constants and macros of headers that are not part of the sources
  (`img_format.h`, `gl_common.h`) are parameters.
-/

namespace GLCommon

/-! ## OpenGL constants (GL/gl.h) -/

def GL_UNPACK_ROW_LENGTH : Nat := 0x0CF2
def GL_UNPACK_ALIGNMENT : Nat := 0x0CF5
def GL_UNSIGNED_BYTE : Nat := 0x1401
def GL_ALPHA : Nat := 0x1906
def GL_RGB : Nat := 0x1907
def GL_RGBA : Nat := 0x1908
def GL_LUMINANCE : Nat := 0x1909
def GL_BGR : Nat := 0x80E0
def GL_BGRA : Nat := 0x80E1
def GL_UNSIGNED_BYTE_3_3_2 : Nat := 0x8032
def GL_UNSIGNED_SHORT_5_5_5_1 : Nat := 0x8034
def GL_UNSIGNED_BYTE_2_3_3_REV : Nat := 0x8362
def GL_UNSIGNED_SHORT_5_6_5 : Nat := 0x8363
def GL_UNSIGNED_SHORT_5_6_5_REV : Nat := 0x8364
def GL_UNSIGNED_SHORT_1_5_5_5_REV : Nat := 0x8366
def GL_NONE : Nat := 0
def GL_FALSE : Nat := 0
def GL_ZERO : Nat := 0
def GL_TEXTURE_1D : Nat := 0x0DE0
def GL_TEXTURE_2D : Nat := 0x0DE1
def GL_TEXTURE_3D : Nat := 0x806F
def GL_TEXTURE_RECTANGLE : Nat := 0x84F5
def GL_TEXTURE_BORDER_COLOR : Nat := 0x1004
def GL_FLOAT : Nat := 0x1406
def GL_NEAREST : Nat := 0x2600
def GL_LINEAR : Nat := 0x2601
def GL_TEXTURE_MAG_FILTER : Nat := 0x2800
def GL_TEXTURE_MIN_FILTER : Nat := 0x2801
def GL_TEXTURE_WRAP_S : Nat := 0x2802
def GL_TEXTURE_WRAP_T : Nat := 0x2803
def GL_TEXTURE_WRAP_R : Nat := 0x8072
def GL_CLAMP : Nat := 0x2900
def GL_REPEAT : Nat := 0x2901
def GL_CLAMP_TO_EDGE : Nat := 0x812F
def GL_LUMINANCE8 : Nat := 0x8040
def GL_RGBA16 : Nat := 0x805B
def GL_TEXTURE_PRIORITY : Nat := 0x8066
def GL_TEXTURE0 : Nat := 0x84C0
def GL_TEXTURE1 : Nat := 0x84C1
def GL_TEXTURE2 : Nat := 0x84C2
def GL_MAX_TEXTURE_UNITS : Nat := 0x84E2
def GL_REGISTER_COMBINERS_NV : Nat := 0x8522
def GL_VARIABLE_A_NV : Nat := 0x8523
def GL_VARIABLE_B_NV : Nat := 0x8524
def GL_VARIABLE_C_NV : Nat := 0x8525
def GL_VARIABLE_D_NV : Nat := 0x8526
def GL_CONSTANT_COLOR0_NV : Nat := 0x852A
def GL_CONSTANT_COLOR1_NV : Nat := 0x852B
def GL_SPARE0_NV : Nat := 0x852E
def GL_DISCARD_NV : Nat := 0x8530
def GL_UNSIGNED_INVERT_NV : Nat := 0x8537
def GL_HALF_BIAS_NORMAL_NV : Nat := 0x853A
def GL_SIGNED_IDENTITY_NV : Nat := 0x853C
def GL_SCALE_BY_FOUR_NV : Nat := 0x853F
def GL_MAX_GENERAL_COMBINERS_NV : Nat := 0x854D
def GL_NUM_GENERAL_COMBINERS_NV : Nat := 0x854E
def GL_COMBINER0_NV : Nat := 0x8550
def GL_COMBINER1_NV : Nat := 0x8551
def GL_FRAGMENT_SHADER_ATI : Nat := 0x8920
def GL_REG_0_ATI : Nat := 0x8921
def GL_REG_1_ATI : Nat := 0x8922
def GL_REG_2_ATI : Nat := 0x8923
def GL_CON_0_ATI : Nat := 0x8941
def GL_CON_1_ATI : Nat := 0x8942
def GL_ADD_ATI : Nat := 0x8963
def GL_MUL_ATI : Nat := 0x8964
def GL_MAD_ATI : Nat := 0x8968
def GL_NUM_FRAGMENT_REGISTERS_ATI : Nat := 0x896E
def GL_SWIZZLE_STR_ATI : Nat := 0x8976
def GL_4X_BIT_ATI : Nat := 0x00000002
def GL_BIAS_BIT_ATI : Nat := 0x00000008
def GL_FRAGMENT_PROGRAM : Nat := 0x8804
def GL_PROGRAM_ERROR_POSITION : Nat := 0x864B
def GL_PROGRAM_ERROR_STRING : Nat := 0x8874
def GL_PROGRAM_FORMAT_ASCII : Nat := 0x8875

/-! ## Message levels (mp_msg.h) -/

def MSGL_FATAL : Nat := 0
def MSGL_ERR : Nat := 1
def MSGL_V : Nat := 6

/-- Function pointers; `0` is `NULL`. -/
abbrev Ptr := Nat

/-- The global extension function pointers declared at the top of the file
(`GenBuffers` ... `TexImage3D`). -/
inductive FuncId where
  | GenBuffers | DeleteBuffers | BindBuffer | MapBuffer | UnmapBuffer
  | BufferData | CombinerParameterfv | CombinerParameteri | CombinerInput
  | CombinerOutput | BeginFragmentShader | EndFragmentShader | SampleMap
  | ColorFragmentOp2 | ColorFragmentOp3 | SetFragmentShaderConstant
  | ActiveTexture | BindTexture | MultiTexCoord2f | GenPrograms
  | DeletePrograms | BindProgram | ProgramString | GetProgramiv
  | ProgramEnvParameter4f | SwapInterval | TexImage3D
  deriving DecidableEq, Repr

/-- The pieces a fragment program is assembled from: the initial text of
`yuv_prog` and one piece per `snprintf` of a template, with the arguments
passed to it.  A texture character is `none` when the `char` it is read from
was never written. -/
inductive ProgPart where
  | preamble
  | bilin_filt (out_comp in_tex : Char) (rect : Bool)
  | bicub_filt_RECT (in_tex : Char) (texs : Option Int) (out_comp : Char)
  | bicub_filt_2D (in_tex : Char) (texw texh : ℚ) (texs : Option Int)
      (dx dy : ℚ) (out_comp : Char)
  | yuv_prog (ycoef ucoef vcoef offsets : List ℚ)
  | yuv_pow_prog (ycoef ucoef vcoef offsets gamma : List ℚ)
  | yuv_lookup_prog (ycoef ucoef vcoef offsets : List ℚ) (texs : Option Int)
  | yuv_lookup3d_prog (texs : Option Int)
  deriving DecidableEq, Repr

/-- The calls a routine issues, in program order, its log messages and the
bytes it stores into a buffer it uploads.  `extcall f p args`,
`TexImage3D p ..` and `ProgramString p ..` are calls through a table entry
whose value at that moment is `p`; enum and float arguments of `extcall` are
listed as rationals.  A call with `p = 0` is a call through `NULL`: the run
of the C program ends there, and what a trace lists after such an event is
what the routine would go on to issue, not something that happens.
`undefined what` marks an `int` operation whose behaviour C leaves undefined
(a division by zero, a signed overflow); the routine that reaches it lists
nothing after it. -/
inductive Event where
  | glPixelStorei (pname : Nat) (param : Int)
  | glTexSubImage2D (target : Nat) (level xoffset yoffset width height : Int)
      (format type : Nat) (pixels : Int)
  | glGetIntegerv (pname : Nat)
  | glGetString (name : Nat)
  | glTexImage1D (target : Nat) (level internalformat width border : Int)
      (format type : Nat) (pixels : List ℚ)
  | glTexImage2D (target : Nat) (level internalformat width height border : Int)
      (format type : Nat) (pixels : List Int)
  | glTexParameterf (target pname : Nat) (param : ℚ)
  | glTexParameteri (target pname : Nat) (param : Int)
  | glTexParameterfv (target pname : Nat) (params : List ℚ)
  | store (addr : Int) (bytes : List Int)
  | glEnable (cap : Nat)
  | glDisable (cap : Nat)
  | extcall (f : FuncId) (p : Ptr) (args : List ℚ)
  | TexImage3D (p : Ptr) (target : Nat)
      (level internalformat width height depth border : Int)
      (format type : Nat) (pixels : List Int)
  | ProgramString (p : Ptr) (target format : Nat) (prog : List ProgPart)
  | mp_msg (level : Nat) (msg : String)
  | undefined (what : String)
  deriving DecidableEq, Repr

/-- The least value of the C type `int` (32 bits, two's complement). -/
def INT_MIN : Int := -2147483648

/-- The greatest value of the C type `int`. -/
def INT_MAX : Int := 2147483647

/-- The integer `v` is a value of the type `int`; an `int` operation whose
result is not has undefined behaviour. -/
abbrev inInt (v : Int) : Prop := INT_MIN ≤ v ∧ v ≤ INT_MAX

/-! ## glAdjustAlignment -/

/-- The local `gl_alignment` of `glAdjustAlignment`. -/
def gl_alignment (stride : Int) : Int :=
  if stride.tmod 8 = 0 then 8
  else if stride.tmod 4 = 0 then 4
  else if stride.tmod 2 = 0 then 2
  else 1

/-- `glAdjustAlignment`: sets `GL_UNPACK_ALIGNMENT` to fit the stride. -/
def glAdjustAlignment (stride : Int) : List Event :=
  [Event.glPixelStorei GL_UNPACK_ALIGNMENT (gl_alignment stride)]

/-! ## glFindFormat -/

/-- The declarations of `img_format.h` used by `glFindFormat`: the header is
not part of the sources, so its constants and macros are parameters. -/
structure ImgFormatH where
  IMGFMT_RGB24 : Nat
  IMGFMT_RGBA : Nat
  IMGFMT_YV12 : Nat
  IMGFMT_Y800 : Nat
  IMGFMT_Y8 : Nat
  IMGFMT_RGB15 : Nat
  IMGFMT_RGB16 : Nat
  IMGFMT_BGR15 : Nat
  IMGFMT_BGR16 : Nat
  IMGFMT_BGR24 : Nat
  IMGFMT_BGRA : Nat
  IMGFMT_IS_BGR : Nat → Bool
  IMGFMT_BGR_DEPTH : Nat → Int
  IMGFMT_RGB_DEPTH : Nat → Int

/-- The four outputs of `glFindFormat` and its return value. -/
structure FindFormat where
  supported : Int
  bpp : Int
  gl_texfmt : Int
  gl_format : Nat
  gl_type : Nat
  deriving DecidableEq, Repr

/-- `glFindFormat`.  The `switch` is the chain of its case labels in source
order; `IMGFMT_YV12` clears `supported` and falls through into the
`IMGFMT_Y800`/`IMGFMT_Y8` case. -/
def glFindFormat (H : ImgFormatH) (fmt : Nat) : FindFormat :=
  let bpp : Int :=
    if H.IMGFMT_IS_BGR fmt then H.IMGFMT_BGR_DEPTH fmt else H.IMGFMT_RGB_DEPTH fmt
  let gl_texfmt : Int := 3
  if fmt = H.IMGFMT_RGB24 then
    ⟨1, bpp, gl_texfmt, GL_RGB, GL_UNSIGNED_BYTE⟩
  else if fmt = H.IMGFMT_RGBA then
    ⟨1, bpp, 4, GL_RGBA, GL_UNSIGNED_BYTE⟩
  else if fmt = H.IMGFMT_YV12 then
    ⟨0, 8, 1, GL_LUMINANCE, GL_UNSIGNED_BYTE⟩
  else if fmt = H.IMGFMT_Y800 ∨ fmt = H.IMGFMT_Y8 then
    ⟨1, 8, 1, GL_LUMINANCE, GL_UNSIGNED_BYTE⟩
  else if fmt = H.IMGFMT_RGB15 then
    ⟨1, bpp, gl_texfmt, GL_RGBA, GL_UNSIGNED_SHORT_1_5_5_5_REV⟩
  else if fmt = H.IMGFMT_RGB16 then
    ⟨1, bpp, gl_texfmt, GL_RGB, GL_UNSIGNED_SHORT_5_6_5_REV⟩
  else if fmt = H.IMGFMT_BGR15 then
    ⟨1, bpp, gl_texfmt, GL_BGRA, GL_UNSIGNED_SHORT_1_5_5_5_REV⟩
  else if fmt = H.IMGFMT_BGR16 then
    ⟨1, bpp, gl_texfmt, GL_RGB, GL_UNSIGNED_SHORT_5_6_5⟩
  else if fmt = H.IMGFMT_BGR24 then
    ⟨1, bpp, gl_texfmt, GL_BGR, GL_UNSIGNED_BYTE⟩
  else if fmt = H.IMGFMT_BGRA then
    ⟨1, bpp, 4, GL_BGRA, GL_UNSIGNED_BYTE⟩
  else
    ⟨0, bpp, 4, GL_RGBA, GL_UNSIGNED_BYTE⟩

/-- The case labels of the `switch` of `glFindFormat`, in source order. -/
def ImgFormatH.caseLabels (H : ImgFormatH) : List Nat :=
  [H.IMGFMT_RGB24, H.IMGFMT_RGBA, H.IMGFMT_YV12, H.IMGFMT_Y800, H.IMGFMT_Y8,
   H.IMGFMT_RGB15, H.IMGFMT_RGB16, H.IMGFMT_BGR15, H.IMGFMT_BGR16,
   H.IMGFMT_BGR24, H.IMGFMT_BGRA]

/-- The supported set of the specification. -/
def ImgFormatH.supportedSet (H : ImgFormatH) : List Nat :=
  [H.IMGFMT_RGB24, H.IMGFMT_RGBA, H.IMGFMT_Y800, H.IMGFMT_Y8,
   H.IMGFMT_RGB15, H.IMGFMT_RGB16, H.IMGFMT_BGR15, H.IMGFMT_BGR16,
   H.IMGFMT_BGR24, H.IMGFMT_BGRA]

/-- The bit depth the header macros report for a format identifier. -/
def ImgFormatH.depth (H : ImgFormatH) (fmt : Nat) : Int :=
  if H.IMGFMT_IS_BGR fmt then H.IMGFMT_BGR_DEPTH fmt else H.IMGFMT_RGB_DEPTH fmt

/-- What a header has to satisfy: the case labels are pairwise distinct (a
C compiler rejects the `switch` otherwise) and the depth macros report the
known bit depth of the RGB/BGR formats. -/
structure ImgFormatH.WellFormed (H : ImgFormatH) : Prop where
  distinct : H.caseLabels.Nodup
  rgb15 : H.depth H.IMGFMT_RGB15 = 15
  rgb16 : H.depth H.IMGFMT_RGB16 = 16
  rgb24 : H.depth H.IMGFMT_RGB24 = 24
  rgba : H.depth H.IMGFMT_RGBA = 32
  bgr15 : H.depth H.IMGFMT_BGR15 = 15
  bgr16 : H.depth H.IMGFMT_BGR16 = 16
  bgr24 : H.depth H.IMGFMT_BGR24 = 24
  bgra : H.depth H.IMGFMT_BGRA = 32

/-- The known bit depth of a supported format, as the specification lists
it: 8 for Y800 and Y8, and 15, 16, 24, 32 for the RGB/BGR formats. -/
def ImgFormatH.knownDepth (H : ImgFormatH) (fmt : Nat) : Int :=
  if fmt = H.IMGFMT_Y800 ∨ fmt = H.IMGFMT_Y8 then 8
  else if fmt = H.IMGFMT_RGB15 ∨ fmt = H.IMGFMT_BGR15 then 15
  else if fmt = H.IMGFMT_RGB16 ∨ fmt = H.IMGFMT_BGR16 then 16
  else if fmt = H.IMGFMT_RGB24 ∨ fmt = H.IMGFMT_BGR24 then 24
  else 32

/-- Modelled from the spec: the pixel-format registry (the opaque format
identifiers and the helper predicates is-BGR-ordered and bit-depth-of) is
not part of the sources.  This instance uses the fourcc encoding of the
MPlayer header on a little-endian host: `IMGFMT_RGB|depth`,
`IMGFMT_BGR|depth`, the depth in the low six bits. -/
def mplayerImgFormat : ImgFormatH where
  IMGFMT_RGB24 := 0x52474218
  IMGFMT_RGBA := 0x52474220
  IMGFMT_YV12 := 0x32315659
  IMGFMT_Y800 := 0x30303859
  IMGFMT_Y8 := 0x20203859
  IMGFMT_RGB15 := 0x5247420F
  IMGFMT_RGB16 := 0x52474210
  IMGFMT_BGR15 := 0x4247520F
  IMGFMT_BGR16 := 0x42475210
  IMGFMT_BGR24 := 0x42475218
  IMGFMT_BGRA := 0x42475220
  IMGFMT_IS_BGR := fun fmt => fmt &&& 0xFFFFFF00 == 0x42475200
  IMGFMT_BGR_DEPTH := fun fmt => ((fmt &&& 0x3F : Nat) : Int)
  IMGFMT_RGB_DEPTH := fun fmt => ((fmt &&& 0x3F : Nat) : Int)

/-! ## getFunctions -/

/-- The table of the global extension function pointers. -/
abbrev FuncTable := FuncId → Ptr

/-- `setNull`: the resolver used when none is given. -/
def setNull (_s : String) : Ptr := 0

/-- `extfunc_desc_t`: the pointer to fill, the required extension string
(`none` is `NULL`) and the candidate names up to the terminating `NULL`. -/
structure extfunc_desc_t where
  funcptr : FuncId
  extstr : Option String
  funcnames : List String
  deriving DecidableEq, Repr

/-- The table `extfuncs`, up to its terminating entry. -/
def extfuncs : List extfunc_desc_t := [
  ⟨.GenBuffers, none, ["glGenBuffers", "glGenBuffersARB"]⟩,
  ⟨.DeleteBuffers, none, ["glDeleteBuffers", "glDeleteBuffersARB"]⟩,
  ⟨.BindBuffer, none, ["glBindBuffer", "glBindBufferARB"]⟩,
  ⟨.MapBuffer, none, ["glMapBuffer", "glMapBufferARB"]⟩,
  ⟨.UnmapBuffer, none, ["glUnmapBuffer", "glUnmapBufferARB"]⟩,
  ⟨.BufferData, none, ["glBufferData", "glBufferDataARB"]⟩,
  ⟨.CombinerParameterfv, some "NV_register_combiners",
    ["glCombinerParameterfv", "glCombinerParameterfvNV"]⟩,
  ⟨.CombinerParameteri, some "NV_register_combiners",
    ["glCombinerParameteri", "glCombinerParameteriNV"]⟩,
  ⟨.CombinerInput, some "NV_register_combiners",
    ["glCombinerInput", "glCombinerInputNV"]⟩,
  ⟨.CombinerOutput, some "NV_register_combiners",
    ["glCombinerOutput", "glCombinerOutputNV"]⟩,
  ⟨.BeginFragmentShader, some "ATI_fragment_shader",
    ["glBeginFragmentShaderATI"]⟩,
  ⟨.EndFragmentShader, some "ATI_fragment_shader",
    ["glEndFragmentShaderATI"]⟩,
  ⟨.SampleMap, some "ATI_fragment_shader", ["glSampleMapATI"]⟩,
  ⟨.ColorFragmentOp2, some "ATI_fragment_shader", ["glColorFragmentOp2ATI"]⟩,
  ⟨.ColorFragmentOp3, some "ATI_fragment_shader", ["glColorFragmentOp3ATI"]⟩,
  ⟨.SetFragmentShaderConstant, some "ATI_fragment_shader",
    ["glSetFragmentShaderConstantATI"]⟩,
  ⟨.ActiveTexture, none, ["glActiveTexture", "glActiveTextureARB"]⟩,
  ⟨.BindTexture, none,
    ["glBindTexture", "glBindTextureARB", "glBindTextureEXT"]⟩,
  ⟨.MultiTexCoord2f, none, ["glMultiTexCoord2f", "glMultiTexCoord2fARB"]⟩,
  ⟨.GenPrograms, some "_program",
    ["glGenPrograms", "glGenProgramsARB", "glGenProgramsNV"]⟩,
  ⟨.DeletePrograms, some "_program",
    ["glDeletePrograms", "glDeleteProgramsARB", "glDeleteProgramsNV"]⟩,
  ⟨.BindProgram, some "_program",
    ["glBindProgram", "glBindProgramARB", "glBindProgramNV"]⟩,
  ⟨.ProgramString, some "_program",
    ["glProgramString", "glProgramStringARB", "glProgramStringNV"]⟩,
  ⟨.GetProgramiv, some "_program",
    ["glGetProgramiv", "glGetProgramivARB", "glGetProgramivNV"]⟩,
  ⟨.ProgramEnvParameter4f, some "_program",
    ["glProgramEnvParameter4f", "glProgramEnvParameter4fARB",
     "glProgramEnvParameter4fNV"]⟩,
  ⟨.SwapInterval, some "_swap_control",
    ["glXSwapInterval", "glXSwapIntervalEXT", "glXSwapIntervalSGI",
     "wglSwapInterval", "wglSwapIntervalEXT", "wglSwapIntervalSGI"]⟩,
  ⟨.TexImage3D, none, ["glTexImage3D"]⟩]

/-- `strstr` of the C library on character lists, as a test for non-`NULL`:
the needle is searched at every position of the haystack, the end of the
string included. -/
def strstrChars (haystack needle : List Char) : Bool :=
  match haystack with
  | [] => needle.isEmpty
  | c :: cs => needle.isPrefixOf (c :: cs) || strstrChars cs needle

/-- `strstr(haystack, needle) != NULL`. -/
def strstr (haystack needle : String) : Bool :=
  strstrChars haystack.data needle.data

/-- The inner loop of `getFunctions`,
`for (i = 0; !ptr && dsc->funcnames[i]; i++) ptr = getProcAddress(...)`:
the state is `ptr` and the names passed to the resolver so far. -/
def resolveLoop (getProcAddress : String → Ptr) :
    List String → Ptr → List String → Ptr × List String
  | [], ptr, calls => (ptr, calls)
  | name :: rest, ptr, calls =>
    if ptr ≠ 0 then (ptr, calls)
    else resolveLoop getProcAddress rest (getProcAddress name) (calls ++ [name])

/-- The body of the outer loop of `getFunctions` for one descriptor: the
pointer stored into `*(dsc->funcptr)` and the names passed to the resolver. -/
def resolveEntry (allexts : String) (getProcAddress : String → Ptr)
    (dsc : extfunc_desc_t) : Ptr × List String :=
  match dsc.extstr with
  | none => resolveLoop getProcAddress dsc.funcnames 0 []
  | some extstr =>
    if strstr allexts extstr then resolveLoop getProcAddress dsc.funcnames 0 []
    else (0, [])

/-- The state of `getFunctions`: the function table and the names passed
to the resolver so far. -/
structure Resolved where
  table : FuncTable
  calls : List String

/-- The outer loop of `getFunctions` over a descriptor table. -/
def resolveAll (allexts : String) (getProcAddress : String → Ptr) :
    List extfunc_desc_t → Resolved → Resolved
  | [], st => st
  | dsc :: rest, st =>
    let r := resolveEntry allexts getProcAddress dsc
    resolveAll allexts getProcAddress rest
      ⟨Function.update st.table dsc.funcptr r.1, st.calls ++ r.2⟩

/-- The string `allexts` built by `getFunctions`: the driver string
(`glGetString(GL_EXTENSIONS)`, `none` is `NULL`), a space, and `ext2`. -/
def allexts (extensions ext2 : Option String) : String :=
  (extensions.getD "" ++ " ") ++ ext2.getD ""

/-- `getFunctions`: `extensions` is the result of
`glGetString(GL_EXTENSIONS)`, `getProcAddress` the resolver (`none` is
`NULL`), `tbl` the table before the call.  The result is the table after the
call and the names passed to the resolver; the verbose log message is not
recorded. -/
def getFunctions (extensions : Option String)
    (getProcAddress : Option (String → Ptr)) (ext2 : Option String)
    (tbl : FuncTable) : Resolved :=
  let getProcAddress := getProcAddress.getD setNull
  resolveAll (allexts extensions ext2) getProcAddress extfuncs ⟨tbl, []⟩

/-- The candidates before the first one the resolver answers with
non-`NULL`, followed by that one: the names a first-success search passes
to the resolver. -/
def upToFirstSuccess (resolver : String → Ptr) : List String → List String
  | [] => []
  | name :: rest =>
    if resolver name ≠ 0 then [name] else name :: upToFirstSuccess resolver rest

/-- The entry value the specification describes: `NULL` when the required
extension is no substring of the combined string, else the first non-`NULL`
answer of the resolver over the candidates in listed order, `NULL` when
there is none. -/
def specEntry (combined : String) (resolver : String → Ptr)
    (dsc : extfunc_desc_t) : Ptr :=
  match dsc.extstr with
  | some ext =>
    if ext.data <:+: combined.data then
      ((dsc.funcnames.map resolver).find? (· ≠ 0)).getD 0
    else 0
  | none => ((dsc.funcnames.map resolver).find? (· ≠ 0)).getD 0

/-- The names the specification lets reach the resolver for one entry. -/
def specCalls (combined : String) (resolver : String → Ptr)
    (dsc : extfunc_desc_t) : List String :=
  match dsc.extstr with
  | some ext =>
    if ext.data <:+: combined.data then upToFirstSuccess resolver dsc.funcnames
    else []
  | none => upToFirstSuccess resolver dsc.funcnames

/-! ## glFmt2bpp and glUploadTex -/

/-- `glFmt2bpp`: bytes per pixel of a format/type pair, 0 when the pair is
not handled. -/
def glFmt2bpp (format type : Nat) : Int :=
  if type = GL_UNSIGNED_BYTE_3_3_2 ∨ type = GL_UNSIGNED_BYTE_2_3_3_REV then 1
  else if type = GL_UNSIGNED_SHORT_5_5_5_1 ∨
      type = GL_UNSIGNED_SHORT_1_5_5_5_REV ∨
      type = GL_UNSIGNED_SHORT_5_6_5 ∨
      type = GL_UNSIGNED_SHORT_5_6_5_REV then 2
  else if type ≠ GL_UNSIGNED_BYTE then 0
  else if format = GL_LUMINANCE ∨ format = GL_ALPHA then 1
  else if format = GL_RGB ∨ format = GL_BGR then 3
  else if format = GL_RGBA ∨ format = GL_BGRA then 4
  else 0

/-- The loop of `glUploadTex`,
`for (; y + slice <= y_max; y += slice) { glTexSubImage2D(...); data += stride * slice; }`.
It is entered with a positive `slice` only; the result is the events issued
and the values of `y` and `data` after the loop, `none` when the loop ran
into a signed overflow: of `y + slice` in the condition or of
`stride * slice` in the body.  Addresses are unbounded integers; that the
pointer stays inside the caller's buffer is not modelled. -/
def uploadLoop (target format type : Nat) (x w : Int) (slice : Int)
    (hs : 0 < slice) (stride y_max : Int) (y data : Int) :
    List Event × Option (Int × Int) :=
  if ¬ inInt (y + slice) then ([Event.undefined "y + slice"], none)
  else if y + slice ≤ y_max then
    if ¬ inInt (stride * slice) then
      ([Event.glTexSubImage2D target 0 x y w slice format type data,
        Event.undefined "stride * slice"], none)
    else
      let r := uploadLoop target format type x w slice hs stride y_max
        (y + slice) (data + stride * slice)
      (Event.glTexSubImage2D target 0 x y w slice format type data :: r.1, r.2)
  else ([], some (y, data))
termination_by (y_max - y).toNat
decreasing_by omega

/-- `glUploadTex`: `data` is the address held by the source pointer.  The
`int` computations are checked where the source performs them: `y + h`
before the test of `w` and `h`, `h * stride` and `-stride` for a negative
stride, the division by `glFmt2bpp(format, type)` (undefined for the
divisor 0, the quotient being `Int.tdiv` otherwise), and those of the
loop. -/
def glUploadTex (target format type : Nat) (data stride x y w h slice : Int) :
    List Event :=
  let y_max := y + h
  if ¬ inInt y_max then [Event.undefined "y + h"]
  else if hwh : w ≤ 0 ∨ h ≤ 0 then []
  else
    let slice1 := if slice ≤ 0 then h else slice
    have hs : 0 < slice1 := by
      simp only [slice1]
      split <;> omega
    if stride < 0 ∧ ¬ (inInt (h * stride) ∧ inInt (-stride)) then
      [Event.undefined "h * stride, -stride"]
    else
      let data1 := if stride < 0 then data + h * stride else data
      let stride1 := if stride < 0 then -stride else stride
      glAdjustAlignment stride1 ++
        (if glFmt2bpp format type = 0 then
          [Event.undefined "stride / glFmt2bpp(format, type)"]
         else
          let r := uploadLoop target format type x w slice1 hs stride1 y_max y
            data1
          [Event.glPixelStorei GL_UNPACK_ROW_LENGTH
            (stride1.tdiv (glFmt2bpp format type))] ++
          r.1 ++
          (match r.2 with
           | some (y1, data2) =>
             if y1 < y_max then
               [Event.glTexSubImage2D target 0 x y1 w (y_max - y1) format type
                 data2]
             else []
           | none => []))

/-- A sub-image upload seen as a strip: its first destination row, its
number of rows and its source address. -/
structure Strip where
  row : Int
  rows : Int
  src : Int
  deriving DecidableEq, Repr

/-- The strips uploaded by a sequence of calls, in order. -/
def strips : List Event → List Strip
  | [] => []
  | Event.glTexSubImage2D _ _ _ y _ h _ _ p :: es => ⟨y, h, p⟩ :: strips es
  | _ :: es => strips es

/-- The source address each destination row of a strip is read from when
the rows of the source are `rowBytes` bytes apart: pairs of destination row
and source address. -/
def Strip.reads (rowBytes : Int) (s : Strip) : List (Int × Int) :=
  (List.range s.rows.toNat).map
    (fun i : Nat => (s.row + (i : Int), s.src + (i : Int) * rowBytes))

/-- The uploads the specification describes for a slice height `s` and a
first source address `base`: `h / s` uploads of `s` rows, then one of
`h % s` rows when that is not zero, the upload starting at row `r` reading
at `base + (r - y) * rowBytes`. -/
def sliceUploads (target format type : Nat) (x y w h s base rowBytes : Int) :
    List Event :=
  (List.range (h / s).toNat).map
    (fun i : Nat => Event.glTexSubImage2D target 0 x (y + (i : Int) * s) w s
      format type (base + ((i : Int) * s) * rowBytes)) ++
  (if h % s = 0 then []
   else [Event.glTexSubImage2D target 0 x (y + h / s * s) w (h % s) format type
          (base + (h / s * s) * rowBytes)])

/-- The strips of `sliceUploads`. -/
def sliceStrips (y h s base rowBytes : Int) : List Strip :=
  (List.range (h / s).toNat).map
    (fun i : Nat => (⟨y + (i : Int) * s, s, base + ((i : Int) * s) * rowBytes⟩ : Strip)) ++
  (if h % s = 0 then []
   else [⟨y + h / s * s, h % s, base + (h / s * s) * rowBytes⟩])

/-- The condition under which no `int` computation of `glUploadTex` on a
non-empty rectangle overflows, `s` being the slice height in effect: the
loop condition `y + s <= y_max` is evaluated up to `y = y_max`, the products
`stride * s` and `h * stride` are formed with the stride as passed or
negated. -/
def UploadInRange (stride y h slice : Int) : Prop :=
  INT_MIN ≤ y ∧
  y + h + (if 0 < slice then slice else h) ≤ INT_MAX ∧
  |stride| * (if 0 < slice then slice else h) ≤ INT_MAX ∧
  INT_MIN ≤ h * stride

/-! ## Arithmetic of the conversion tables -/

/-- The functions of the C math library the file calls; they are not part
of the sources and are parameters of the embedding. -/
structure Libm where
  cos : ℚ → ℚ
  sin : ℚ → ℚ
  pow : ℚ → ℚ → ℚ

/-- A rational stand-in for the math library, used to evaluate examples:
`cos` and `sin` are their Taylor polynomials of order two and `pow` is the
integer power of the numerator of the exponent, which is the exact power
when the exponent is an integer. -/
def ratLibm : Libm where
  cos := fun x => 1 - x * x / 2
  sin := fun x => x
  pow := fun x e => x ^ e.num

/-- Conversion of a floating-point value to an integer type in C: the
fractional part is discarded (truncation toward zero). -/
def truncate (q : ℚ) : Int :=
  if 0 ≤ q then ⌊q⌋ else ⌈q⌉

/-- The conversion matrix of `glSetupYUVFragprog`: the y, u, v factors and
the constant offset for red, green and blue. -/
structure YuvMatrix where
  ry : ℚ
  ru : ℚ
  rv : ℚ
  rc : ℚ
  gy : ℚ
  gu : ℚ
  gv : ℚ
  gc : ℚ
  by_ : ℚ
  bu : ℚ
  bv : ℚ
  bc : ℚ
  deriving DecidableEq, Repr

/-- The coefficient derivation of `glSetupYUVFragprog` (the assignments to
`ry` ... `bc`, the centring of the contrast included). -/
def yuvMatrix (brightness contrast uvcos uvsin : ℚ) : YuvMatrix :=
  let ry := 1.164 * contrast
  let gy := 1.164 * contrast
  let by_ := 1.164 * contrast
  let ru := 0 * uvcos + 1.596 * uvsin
  let rv := 0 * uvsin + 1.596 * uvcos
  let gu := -0.391 * uvcos + -0.813 * uvsin
  let gv := -0.391 * uvsin + -0.813 * uvcos
  let bu := 2.018 * uvcos + 0 * uvsin
  let bv := 2.018 * uvsin + 0 * uvcos
  let rc := (-16 * ry + (-128) * ru + (-128) * rv) / 255.0 + brightness
  let gc := (-16 * gy + (-128) * gu + (-128) * gv) / 255.0 + brightness
  let bc := (-16 * by_ + (-128) * bu + (-128) * bv) / 255.0 + brightness
  let rc := rc + (0.5 - contrast / 2.0)
  let gc := gc + (0.5 - contrast / 2.0)
  let bc := bc + (0.5 - contrast / 2.0)
  ⟨ry, ru, rv, rc, gy, gu, gv, gc, by_, bu, bv, bc⟩

/-- The value `uvcos` of `glSetupYUVConversion`. -/
def uvcos (M : Libm) (hue saturation : ℚ) : ℚ := saturation * M.cos hue

/-- The value `uvsin` of `glSetupYUVConversion`. -/
def uvsin (M : Libm) (hue saturation : ℚ) : ℚ := saturation * M.sin hue

/-- The body of the loop of `gen_gamma_map`: the byte stored in `map[i]`;
`gamma` is the parameter before it is inverted. -/
def gammaEntry (M : Libm) (size : Int) (gamma : ℚ) (i : Nat) : Int :=
  let gamma := 1.0 / gamma
  let tmp : ℚ := (i : ℚ) / ((size : ℚ) - 1.0)
  let tmp := M.pow tmp gamma
  let tmp := if tmp > 1.0 then 1.0 else tmp
  let tmp := if tmp < 0.0 then 0.0 else tmp
  truncate (255 * tmp)

/-- `gen_gamma_map`: the bytes `map[0]` ... `map[size - 1]` it writes. -/
def gen_gamma_map (M : Libm) (size : Int) (gamma : ℚ) : List Int :=
  (List.range size.toNat).map (gammaEntry M size gamma)

/-- The value clamped to the interval from `lo` to `hi`. -/
def clamp (q lo hi : ℚ) : ℚ := max lo (min q hi)

/-- The nearest integer, halves rounded up. -/
def roundNearest (q : ℚ) : Int := ⌊q + 1 / 2⌋

/-! ## YUV to RGB conversion setup -/

/-- The declarations of `gl_common.h` used by the conversion setup: the
header is not part of the sources, so its constants and macros are
parameters. -/
structure YuvH where
  YUV_CONVERSION_COMBINERS : Int
  YUV_CONVERSION_FRAGMENT : Int
  YUV_CONVERSION_FRAGMENT_POW : Int
  YUV_CONVERSION_FRAGMENT_LOOKUP : Int
  YUV_CONVERSION_COMBINERS_ATI : Int
  YUV_CONVERSION_FRAGMENT_LOOKUP3D : Int
  YUV_SCALER_BILIN : Int
  YUV_SCALER_BICUB : Int
  YUV_CONVERSION : Int → Int
  YUV_LUM_SCALER : Int → Int
  YUV_CHROM_SCALER : Int → Int

/-- Modelled from the spec: the conversion type is the conversion method
and the two scalers packed into a small integer; the header that packs them
is not part of the sources.  This instance uses the packing of the MPlayer
header: the method in bits 0 to 3, the luminance scaler in bits 8 to 11, the
chrominance scaler in bits 12 to 15. -/
def mplayerYuvH : YuvH where
  YUV_CONVERSION_COMBINERS := 1
  YUV_CONVERSION_FRAGMENT := 2
  YUV_CONVERSION_FRAGMENT_POW := 3
  YUV_CONVERSION_FRAGMENT_LOOKUP := 4
  YUV_CONVERSION_COMBINERS_ATI := 5
  YUV_CONVERSION_FRAGMENT_LOOKUP3D := 6
  YUV_SCALER_BILIN := 0
  YUV_SCALER_BICUB := 1
  YUV_CONVERSION := fun t => t % 16
  YUV_LUM_SCALER := fun t => (t / 256) % 16
  YUV_CHROM_SCALER := fun t => (t / 4096) % 16

/-- What the routines read from their surroundings: the answers of the
driver to `glGetIntegerv` for implementation limits, the error position it
reports after a program was submitted, the verbosity test `mp_msg_test` and
the address `malloc` returns for `lookup_data`. -/
structure Env where
  getIntegerv : Nat → Int
  errorPosition : List ProgPart → Int
  mp_msg_test : Nat → Bool
  lookup_data : Int

/-- `fillUVcoeff`: the vectors `ucoef` and `vcoef`. -/
def fillUVcoeff (uvcos uvsin : ℚ) : List ℚ × List ℚ :=
  let ucoef : List ℚ :=
    [0 * uvcos + 1.403 * uvsin, -0.344 * uvcos + -0.714 * uvsin,
     1.770 * uvcos + 0 * uvsin, 0]
  let vcoef : List ℚ :=
    [0 * uvsin + 1.403 * uvcos, -0.344 * uvsin + -0.714 * uvcos,
     1.770 * uvsin + 0 * uvcos, 0]
  (ucoef.map (fun c => c * 0.25 + 0.5), vcoef.map (fun c => c * 0.25 + 0.5))

/-- `glSetupYUVCombiners`. -/
def glSetupYUVCombiners (tbl : FuncTable) (env : Env) (uvcos uvsin : ℚ) :
    List Event :=
  if tbl .CombinerInput = 0 ∨ tbl .CombinerOutput = 0 ∨
      tbl .CombinerParameterfv = 0 ∨ tbl .CombinerParameteri = 0 then
    [Event.mp_msg MSGL_FATAL "[gl] Combiner functions missing!\n"]
  else
    let coef := fillUVcoeff uvcos uvsin
    let input := fun (args : List Nat) =>
      Event.extcall .CombinerInput (tbl .CombinerInput) (args.map (fun a => (a : ℚ)))
    let output := fun (args : List Nat) =>
      Event.extcall .CombinerOutput (tbl .CombinerOutput) (args.map (fun a => (a : ℚ)))
    [Event.glGetIntegerv GL_MAX_GENERAL_COMBINERS_NV] ++
    (if env.getIntegerv GL_MAX_GENERAL_COMBINERS_NV < 2 then
      [Event.mp_msg MSGL_ERR
        "[gl] 2 general combiners needed for YUV combiner support (found %i)\n"]
     else []) ++
    [Event.glGetIntegerv GL_MAX_TEXTURE_UNITS] ++
    (if env.getIntegerv GL_MAX_TEXTURE_UNITS < 3 then
      [Event.mp_msg MSGL_ERR
        "[gl] 3 texture units needed for YUV combiner support (found %i)\n"]
     else []) ++
    [Event.extcall .CombinerParameterfv (tbl .CombinerParameterfv)
       ((GL_CONSTANT_COLOR0_NV : ℚ) :: coef.1),
     Event.extcall .CombinerParameterfv (tbl .CombinerParameterfv)
       ((GL_CONSTANT_COLOR1_NV : ℚ) :: coef.2),
     input [GL_COMBINER0_NV, GL_RGB, GL_VARIABLE_A_NV, GL_TEXTURE1,
       GL_HALF_BIAS_NORMAL_NV, GL_RGB],
     input [GL_COMBINER0_NV, GL_RGB, GL_VARIABLE_B_NV, GL_CONSTANT_COLOR0_NV,
       GL_HALF_BIAS_NORMAL_NV, GL_RGB],
     input [GL_COMBINER0_NV, GL_RGB, GL_VARIABLE_C_NV, GL_TEXTURE2,
       GL_HALF_BIAS_NORMAL_NV, GL_RGB],
     input [GL_COMBINER0_NV, GL_RGB, GL_VARIABLE_D_NV, GL_CONSTANT_COLOR1_NV,
       GL_HALF_BIAS_NORMAL_NV, GL_RGB],
     output [GL_COMBINER0_NV, GL_RGB, GL_DISCARD_NV, GL_DISCARD_NV,
       GL_SPARE0_NV, GL_SCALE_BY_FOUR_NV, GL_NONE, GL_FALSE, GL_FALSE,
       GL_FALSE],
     input [GL_COMBINER1_NV, GL_RGB, GL_VARIABLE_A_NV, GL_SPARE0_NV,
       GL_SIGNED_IDENTITY_NV, GL_RGB],
     input [GL_COMBINER1_NV, GL_RGB, GL_VARIABLE_B_NV, GL_ZERO,
       GL_UNSIGNED_INVERT_NV, GL_RGB],
     input [GL_COMBINER1_NV, GL_RGB, GL_VARIABLE_C_NV, GL_TEXTURE0,
       GL_SIGNED_IDENTITY_NV, GL_RGB],
     input [GL_COMBINER1_NV, GL_RGB, GL_VARIABLE_D_NV, GL_ZERO,
       GL_UNSIGNED_INVERT_NV, GL_RGB],
     output [GL_COMBINER1_NV, GL_RGB, GL_DISCARD_NV, GL_DISCARD_NV,
       GL_SPARE0_NV, GL_NONE, GL_NONE, GL_FALSE, GL_FALSE, GL_FALSE],
     Event.extcall .CombinerParameteri (tbl .CombinerParameteri)
       [(GL_NUM_GENERAL_COMBINERS_NV : ℚ), 2]]

/-- `glSetupYUVCombinersATI`. -/
def glSetupYUVCombinersATI (tbl : FuncTable) (env : Env) (uvcos uvsin : ℚ) :
    List Event :=
  if tbl .BeginFragmentShader = 0 ∨ tbl .EndFragmentShader = 0 ∨
      tbl .SetFragmentShaderConstant = 0 ∨ tbl .SampleMap = 0 ∨
      tbl .ColorFragmentOp2 = 0 ∨ tbl .ColorFragmentOp3 = 0 then
    [Event.mp_msg MSGL_FATAL "[gl] Combiner (ATI) functions missing!\n"]
  else
    let coef := fillUVcoeff uvcos uvsin
    let call := fun (f : FuncId) (args : List Nat) =>
      Event.extcall f (tbl f) (args.map (fun a => (a : ℚ)))
    [Event.glGetIntegerv GL_NUM_FRAGMENT_REGISTERS_ATI] ++
    (if env.getIntegerv GL_NUM_FRAGMENT_REGISTERS_ATI < 3 then
      [Event.mp_msg MSGL_ERR
        "[gl] 3 registers needed for YUV combiner (ATI) support (found %i)\n"]
     else []) ++
    [Event.glGetIntegerv GL_MAX_TEXTURE_UNITS] ++
    (if env.getIntegerv GL_MAX_TEXTURE_UNITS < 3 then
      [Event.mp_msg MSGL_ERR
        "[gl] 3 texture units needed for YUV combiner (ATI) support (found %i)\n"]
     else []) ++
    [call .BeginFragmentShader [],
     Event.extcall .SetFragmentShaderConstant (tbl .SetFragmentShaderConstant)
       ((GL_CON_0_ATI : ℚ) :: coef.1),
     Event.extcall .SetFragmentShaderConstant (tbl .SetFragmentShaderConstant)
       ((GL_CON_1_ATI : ℚ) :: coef.2),
     call .SampleMap [GL_REG_0_ATI, GL_TEXTURE0, GL_SWIZZLE_STR_ATI],
     call .SampleMap [GL_REG_1_ATI, GL_TEXTURE1, GL_SWIZZLE_STR_ATI],
     call .SampleMap [GL_REG_2_ATI, GL_TEXTURE2, GL_SWIZZLE_STR_ATI],
     call .ColorFragmentOp2 [GL_MUL_ATI, GL_REG_1_ATI, GL_NONE, GL_NONE,
       GL_REG_1_ATI, GL_NONE, GL_BIAS_BIT_ATI,
       GL_CON_0_ATI, GL_NONE, GL_BIAS_BIT_ATI],
     call .ColorFragmentOp3 [GL_MAD_ATI, GL_REG_2_ATI, GL_NONE, GL_4X_BIT_ATI,
       GL_REG_2_ATI, GL_NONE, GL_BIAS_BIT_ATI,
       GL_CON_1_ATI, GL_NONE, GL_BIAS_BIT_ATI,
       GL_REG_1_ATI, GL_NONE, GL_NONE],
     call .ColorFragmentOp2 [GL_ADD_ATI, GL_REG_0_ATI, GL_NONE, GL_NONE,
       GL_REG_0_ATI, GL_NONE, GL_NONE,
       GL_REG_2_ATI, GL_NONE, GL_NONE],
     call .EndFragmentShader []]

/-- `store_weights`: the four values written at `dst`. -/
def store_weights (x : ℚ) : List ℚ :=
  let w0 := (((-1 * x + 3) * x - 3) * x + 1) / 6
  let w1 := (((3 * x - 6) * x + 0) * x + 4) / 6
  let w2 := (((-3 * x + 3) * x + 3) * x + 1) / 6
  let w3 := (((1 * x + 0) * x + 0) * x + 0) / 6
  [1 + x - w1 / (w0 + w1), 1 - x + w3 / (w2 + w3), w0 + w1, 0]

def LOOKUP_BSPLINE_RES : Nat := 2 * 1024

/-- The array `tex` of `gen_spline_lookup_tex` as a list of entries of four
values: the loop over all entries, then the two stores that overwrite the
first and the last entry. -/
def spline_tex : List (List ℚ) :=
  let tex := (List.range LOOKUP_BSPLINE_RES).map
    (fun i : Nat => store_weights (((i : ℚ) + 0.5) / LOOKUP_BSPLINE_RES))
  let tex := tex.set 0 (store_weights 0)
  tex.set (LOOKUP_BSPLINE_RES - 1) (store_weights 1)

/-- `gen_spline_lookup_tex`; `unit` is the texture unit as an enum value.
`ActiveTexture` is called without a test of the table entry: with a `NULL`
entry the first event of the list is a call through `NULL`, at which the run
ends. -/
def gen_spline_lookup_tex (tbl : FuncTable) (unit : ℚ) : List Event :=
  [Event.extcall .ActiveTexture (tbl .ActiveTexture) [unit],
   Event.glTexImage1D GL_TEXTURE_1D 0 GL_RGBA16 LOOKUP_BSPLINE_RES 0 GL_RGBA
     GL_FLOAT spline_tex.flatten,
   Event.glTexParameterf GL_TEXTURE_1D GL_TEXTURE_PRIORITY 1.0,
   Event.glTexParameteri GL_TEXTURE_1D GL_TEXTURE_MIN_FILTER GL_NEAREST,
   Event.glTexParameteri GL_TEXTURE_1D GL_TEXTURE_MAG_FILTER GL_NEAREST,
   Event.glTexParameteri GL_TEXTURE_1D GL_TEXTURE_WRAP_S GL_REPEAT,
   Event.extcall .ActiveTexture (tbl .ActiveTexture) [(GL_TEXTURE0 : ℚ)]]

/-- The result of a routine that may claim a texture unit: the calls issued,
the unit counter `*texu` and the character `texs[0]` afterwards (`none`
while it was never written). -/
structure TexSetup where
  events : List Event
  texu : Int
  texs : Option Int
  deriving DecidableEq, Repr

/-- `create_scaler_textures`; `'0'` is the character code 48. -/
def create_scaler_textures (H : YuvH) (tbl : FuncTable) (scaler : Int)
    (texu : Int) (texs : Option Int) : TexSetup :=
  if scaler = H.YUV_SCALER_BILIN then ⟨[], texu, texs⟩
  else if scaler = H.YUV_SCALER_BICUB then
    ⟨gen_spline_lookup_tex tbl ((GL_TEXTURE0 : ℚ) + (texu : ℚ)), texu + 1,
     some (texu + 48)⟩
  else ⟨[Event.mp_msg MSGL_ERR "[gl] unknown scaler type %i\n"], texu, texs⟩

/-- The three bytes `gen_yuv2rgb_map` stores for one sample `(y, u, v)`. -/
def yuv2rgb_texel (M : Libm)
    (brightness contrast uvcos uvsin rgamma ggamma bgamma y u v : ℚ) :
    List Int :=
  let u_ := uvcos * u + uvsin * v
  let v_ := uvcos * v + uvsin * u
  let r := 1.164 * y + 1.596 * v_
  let g := 1.164 * y - 0.391 * u_ - 0.813 * v_
  let b := 1.164 * y + 2.018 * u_
  let r := M.pow (contrast * (r - 0.5) + 0.5 + brightness) (1.0 / rgamma)
  let g := M.pow (contrast * (g - 0.5) + 0.5 + brightness) (1.0 / ggamma)
  let b := M.pow (contrast * (b - 0.5) + 0.5 + brightness) (1.0 / bgamma)
  let r := if r > 1 then 1 else r
  let r := if r < 0 then 0 else r
  let g := if g > 1 then 1 else g
  let g := if g < 0 then 0 else g
  let b := if b > 1 then 1 else b
  let b := if b < 0 then 0 else b
  [truncate (255 * r), truncate (255 * g), truncate (255 * b)]

/-- The values `-1, 0, ..., size` a loop counter of `gen_yuv2rgb_map` takes. -/
def mapIndices (size : Int) : List Int :=
  (List.range (size + 2).toNat).map (fun k : Nat => (k : Int) - 1)

/-- The increment applied to a coordinate of `gen_yuv2rgb_map` after the
iteration with counter `k`. -/
def mapStep (size : Int) (step : ℚ) (k : Int) : ℚ :=
  if k = -1 ∨ k = size - 1 then step / 2 else step

/-- The innermost loop of `gen_yuv2rgb_map` (counter `k`, coordinate `y`)
over the remaining counter values. -/
def yuv2rgb_yloop (M : Libm)
    (brightness contrast uvcos uvsin rgamma ggamma bgamma : ℚ) (size : Int)
    (step u v : ℚ) : List Int → ℚ → List Int
  | [], _ => []
  | k :: ks, y =>
    yuv2rgb_texel M brightness contrast uvcos uvsin rgamma ggamma bgamma y u v ++
    yuv2rgb_yloop M brightness contrast uvcos uvsin rgamma ggamma bgamma size
      step u v ks (y + mapStep size step k)

/-- The middle loop of `gen_yuv2rgb_map` (counter `j`, coordinate `u`). -/
def yuv2rgb_uloop (M : Libm)
    (brightness contrast uvcos uvsin rgamma ggamma bgamma : ℚ) (size : Int)
    (step v : ℚ) : List Int → ℚ → List Int
  | [], _ => []
  | j :: js, u =>
    yuv2rgb_yloop M brightness contrast uvcos uvsin rgamma ggamma bgamma size
      step u v (mapIndices size) (-(16.0 / 255.0)) ++
    yuv2rgb_uloop M brightness contrast uvcos uvsin rgamma ggamma bgamma size
      step v js (u + mapStep size step j)

/-- The outer loop of `gen_yuv2rgb_map` (counter `i`, coordinate `v`). -/
def yuv2rgb_vloop (M : Libm)
    (brightness contrast uvcos uvsin rgamma ggamma bgamma : ℚ) (size : Int)
    (step : ℚ) : List Int → ℚ → List Int
  | [], _ => []
  | i :: is, v =>
    yuv2rgb_uloop M brightness contrast uvcos uvsin rgamma ggamma bgamma size
      step v (mapIndices size) (-0.5) ++
    yuv2rgb_vloop M brightness contrast uvcos uvsin rgamma ggamma bgamma size
      step is (v + mapStep size step i)

/-- `gen_yuv2rgb_map`: the bytes written through `map`, in order. -/
def gen_yuv2rgb_map (M : Libm) (size : Int)
    (brightness contrast uvcos uvsin rgamma ggamma bgamma : ℚ) : List Int :=
  let step : ℚ := 1.0 / (size : ℚ)
  yuv2rgb_vloop M brightness contrast uvcos uvsin rgamma ggamma bgamma size
    step (mapIndices size) (-0.5)

/-- `glCreateClearTex`; `init` is the buffer of `w * h` bytes filled with
`val`. -/
def glCreateClearTex (target fmt : Nat) (filter : Int) (w h val : Int) :
    List Event :=
  let fval : ℚ := (val : ℚ) / 255.0
  let border : List ℚ := [fval, fval, fval, fval]
  let clrfmt : Nat := if fmt = GL_ALPHA then GL_ALPHA else GL_LUMINANCE
  let init : List Int := List.replicate (w * h).toNat val
  glAdjustAlignment w ++
  [Event.glPixelStorei GL_UNPACK_ROW_LENGTH w,
   Event.glTexImage2D target 0 fmt w h 0 clrfmt GL_UNSIGNED_BYTE init,
   Event.glTexParameterf target GL_TEXTURE_PRIORITY 1.0,
   Event.glTexParameteri target GL_TEXTURE_MIN_FILTER filter,
   Event.glTexParameteri target GL_TEXTURE_MAG_FILTER filter,
   Event.glTexParameteri target GL_TEXTURE_WRAP_S GL_CLAMP_TO_EDGE,
   Event.glTexParameteri target GL_TEXTURE_WRAP_T GL_CLAMP_TO_EDGE,
   Event.glTexParameterfv target GL_TEXTURE_BORDER_COLOR border]

def LOOKUP_RES : Int := 512
def LOOKUP_3DRES : Int := 32

/-- `create_conv_textures`.  The three gamma maps are stored into the buffer
at `env.lookup_data` before it is uploaded.  `TexImage3D` is tested before
it is used, `ActiveTexture` is not: with a `NULL` entry the first event of
a lookup method is a call through `NULL`, at which the run ends.  The
arguments of the one call of `glUploadTex` are constants for which it
reaches no undefined operation. -/
def create_conv_textures (H : YuvH) (tbl : FuncTable) (env : Env) (M : Libm)
    (conv : Int) (texu : Int) (texs : Option Int)
    (brightness contrast uvcos uvsin rgamma ggamma bgamma : ℚ) : TexSetup :=
  if conv = H.YUV_CONVERSION_FRAGMENT ∨ conv = H.YUV_CONVERSION_FRAGMENT_POW then
    ⟨[], texu, texs⟩
  else if conv = H.YUV_CONVERSION_FRAGMENT_LOOKUP then
    ⟨[Event.extcall .ActiveTexture (tbl .ActiveTexture)
        [(GL_TEXTURE0 : ℚ) + (texu : ℚ)],
      Event.store env.lookup_data (gen_gamma_map M LOOKUP_RES rgamma),
      Event.store (env.lookup_data + LOOKUP_RES)
        (gen_gamma_map M LOOKUP_RES ggamma),
      Event.store (env.lookup_data + 2 * LOOKUP_RES)
        (gen_gamma_map M LOOKUP_RES bgamma)] ++
     glCreateClearTex GL_TEXTURE_2D GL_LUMINANCE8 GL_LINEAR LOOKUP_RES 4 0 ++
     glUploadTex GL_TEXTURE_2D GL_LUMINANCE GL_UNSIGNED_BYTE env.lookup_data
       LOOKUP_RES 0 0 LOOKUP_RES 4 0 ++
     [Event.extcall .ActiveTexture (tbl .ActiveTexture) [(GL_TEXTURE0 : ℚ)]],
     texu + 1, some (texu + 48)⟩
  else if conv = H.YUV_CONVERSION_FRAGMENT_LOOKUP3D then
    let sz : Int := LOOKUP_3DRES + 2
    if tbl .TexImage3D = 0 then
      ⟨[Event.mp_msg MSGL_ERR "[gl] Missing 3D texture function!\n"], texu, texs⟩
    else
      ⟨[Event.extcall .ActiveTexture (tbl .ActiveTexture)
          [(GL_TEXTURE0 : ℚ) + (texu : ℚ)]] ++
       glAdjustAlignment sz ++
       [Event.glPixelStorei GL_UNPACK_ROW_LENGTH 0,
        Event.TexImage3D (tbl .TexImage3D) GL_TEXTURE_3D 0 3 sz sz sz 1 GL_RGB
          GL_UNSIGNED_BYTE
          (gen_yuv2rgb_map M LOOKUP_3DRES brightness contrast uvcos uvsin
            rgamma ggamma bgamma),
        Event.glTexParameterf GL_TEXTURE_3D GL_TEXTURE_PRIORITY 1.0,
        Event.glTexParameteri GL_TEXTURE_3D GL_TEXTURE_MIN_FILTER GL_LINEAR,
        Event.glTexParameteri GL_TEXTURE_3D GL_TEXTURE_MAG_FILTER GL_LINEAR,
        Event.glTexParameteri GL_TEXTURE_3D GL_TEXTURE_WRAP_S GL_CLAMP,
        Event.glTexParameteri GL_TEXTURE_3D GL_TEXTURE_WRAP_T GL_CLAMP,
        Event.glTexParameteri GL_TEXTURE_3D GL_TEXTURE_WRAP_R GL_CLAMP,
        Event.extcall .ActiveTexture (tbl .ActiveTexture) [(GL_TEXTURE0 : ℚ)]],
       texu + 1, some (texu + 48)⟩
  else ⟨[Event.mp_msg MSGL_ERR "[gl] unknown conversion type %i\n"], texu, texs⟩

/-- `add_scaler`: the piece appended to the program text (nothing for an
unknown scaler).  The size of the text buffer is not modelled. -/
def add_scaler (H : YuvH) (scaler : Int) (texs : Option Int)
    (in_tex out_comp : Char) (rect : Bool) (texw texh : Int) : List ProgPart :=
  if scaler = H.YUV_SCALER_BILIN then [ProgPart.bilin_filt out_comp in_tex rect]
  else if scaler = H.YUV_SCALER_BICUB then
    if rect then [ProgPart.bicub_filt_RECT in_tex texs out_comp]
    else
      [ProgPart.bicub_filt_2D in_tex (texw : ℚ) (texh : ℚ) texs
        (1.0 / (texw : ℚ)) (1.0 / (texh : ℚ)) out_comp]
  else []

/-- The table `progstats`: the pairs of queries `cur`, `max`. -/
def progstats : List (Nat × Nat) :=
  [(0x88A0, 0x88A1), (0x88A2, 0x88A3), (0x88A4, 0x88A5), (0x88A6, 0x88A7),
   (0x88A8, 0x88A9), (0x88AA, 0x88AB), (0x88AC, 0x88AD), (0x88AE, 0x88AF),
   (0x8805, 0x880B), (0x8806, 0x880C), (0x8807, 0x880D), (0x8808, 0x880E),
   (0x8809, 0x880F), (0x880A, 0x8810)]

/-- `loadGPUProgram`: the calls issued and the return value. -/
def loadGPUProgram (tbl : FuncTable) (env : Env) (target : Nat)
    (prog : List ProgPart) : List Event × Int :=
  if tbl .ProgramString = 0 then
    ([Event.mp_msg MSGL_ERR "[gl] Missing GPU program function\n"], 0)
  else
    let submit : List Event :=
      [Event.ProgramString (tbl .ProgramString) target GL_PROGRAM_FORMAT_ASCII
         prog,
       Event.glGetIntegerv GL_PROGRAM_ERROR_POSITION]
    let err := env.errorPosition prog
    if err ≠ -1 then
      (submit ++
        [Event.glGetString GL_PROGRAM_ERROR_STRING,
         Event.mp_msg MSGL_ERR
           ("[gl] Error compiling fragment program, make sure your card supports\n" ++
            "[gl]   GL_ARB_fragment_program (use glxinfo to check).\n" ++
            "[gl]   Error message:\n  %s at %.10s\n")], 0)
    else if tbl .GetProgramiv = 0 ∨ env.mp_msg_test MSGL_V = false then
      (submit, 1)
    else
      (submit ++ [Event.mp_msg MSGL_V "[gl] Program statistics:\n"] ++
        (progstats.map (fun s =>
          [Event.extcall .GetProgramiv (tbl .GetProgramiv)
             [(target : ℚ), (s.1 : ℚ)],
           Event.extcall .GetProgramiv (tbl .GetProgramiv)
             [(target : ℚ), (s.2 : ℚ)],
           Event.mp_msg MSGL_V "[gl]   %s: %i/%i\n"])).flatten, 1)

/-- The text appended to the program for the conversion method by
`glSetupYUVFragprog`, and the message logged for an unknown method. -/
def conv_prog (H : YuvH) (conv : Int) (m : YuvMatrix)
    (rgamma bgamma : ℚ) (conv_texs : Option Int) :
    List ProgPart × List Event :=
  let ycoef := [m.ry, m.gy, m.by_]
  let ucoef := [m.ru, m.gu, m.bu]
  let vcoef := [m.rv, m.gv, m.bv]
  let offsets := [m.rc, m.gc, m.bc]
  if conv = H.YUV_CONVERSION_FRAGMENT then
    ([ProgPart.yuv_prog ycoef ucoef vcoef offsets], [])
  else if conv = H.YUV_CONVERSION_FRAGMENT_POW then
    ([ProgPart.yuv_pow_prog ycoef ucoef vcoef offsets
        [1.0 / rgamma, 1.0 / bgamma, 1.0 / bgamma]], [])
  else if conv = H.YUV_CONVERSION_FRAGMENT_LOOKUP then
    ([ProgPart.yuv_lookup_prog ycoef ucoef vcoef offsets conv_texs], [])
  else if conv = H.YUV_CONVERSION_FRAGMENT_LOOKUP3D then
    ([ProgPart.yuv_lookup3d_prog conv_texs], [])
  else ([], [Event.mp_msg MSGL_ERR "[gl] unknown conversion type %i\n"])

/-- `glSetupYUVFragprog`. -/
def glSetupYUVFragprog (H : YuvH) (tbl : FuncTable) (env : Env) (M : Libm)
    (brightness contrast uvcos uvsin rgamma ggamma bgamma : ℚ) (type : Int)
    (rect : Bool) (texw texh : Int) : List Event :=
  let cur_texu : Int := 3
  let lum := create_scaler_textures H tbl (H.YUV_LUM_SCALER type) cur_texu none
  let chrom : TexSetup :=
    if H.YUV_CHROM_SCALER type = H.YUV_LUM_SCALER type then
      ⟨[], lum.texu, lum.texs⟩
    else create_scaler_textures H tbl (H.YUV_CHROM_SCALER type) lum.texu none
  let conv := create_conv_textures H tbl env M (H.YUV_CONVERSION type)
    chrom.texu none brightness contrast uvcos uvsin rgamma ggamma bgamma
  let units : List Event :=
    [Event.glGetIntegerv GL_MAX_TEXTURE_UNITS] ++
    (if env.getIntegerv GL_MAX_TEXTURE_UNITS < conv.texu then
      [Event.mp_msg MSGL_ERR
        "[gl] %i texture units needed for this type of YUV fragment support (found %i)\n"]
     else [])
  let setup := lum.events ++ chrom.events ++ conv.events ++ units
  if tbl .ProgramString = 0 then
    setup ++ [Event.mp_msg MSGL_FATAL "[gl] ProgramString function missing!\n"]
  else
    let scalers : List ProgPart :=
      add_scaler H (H.YUV_LUM_SCALER type) lum.texs '0' 'r' rect texw texh ++
      add_scaler H (H.YUV_CHROM_SCALER type) chrom.texs '1' 'g' rect
        (texw.tdiv 2) (texh.tdiv 2) ++
      add_scaler H (H.YUV_CHROM_SCALER type) chrom.texs '2' 'b' rect
        (texw.tdiv 2) (texh.tdiv 2)
    let m := yuvMatrix brightness contrast uvcos uvsin
    let cp := conv_prog H (H.YUV_CONVERSION type) m rgamma bgamma conv.texs
    let yuv_prog : List ProgPart := [ProgPart.preamble] ++ scalers ++ cp.1
    setup ++ cp.2 ++
      [Event.mp_msg MSGL_V "[gl] generated fragment program:\n%s\n"] ++
      (loadGPUProgram tbl env GL_FRAGMENT_PROGRAM yuv_prog).1

/-- `glSetupYUVConversion`. -/
def glSetupYUVConversion (H : YuvH) (tbl : FuncTable) (env : Env) (M : Libm)
    (target : Nat) (type : Int)
    (brightness contrast hue saturation rgamma ggamma bgamma : ℚ)
    (texw texh : Int) : List Event :=
  let conv := H.YUV_CONVERSION type
  if conv = H.YUV_CONVERSION_COMBINERS then
    glSetupYUVCombiners tbl env (uvcos M hue saturation) (uvsin M hue saturation)
  else if conv = H.YUV_CONVERSION_COMBINERS_ATI then
    glSetupYUVCombinersATI tbl env (uvcos M hue saturation)
      (uvsin M hue saturation)
  else if conv = H.YUV_CONVERSION_FRAGMENT_LOOKUP ∨
      conv = H.YUV_CONVERSION_FRAGMENT_LOOKUP3D ∨
      conv = H.YUV_CONVERSION_FRAGMENT ∨
      conv = H.YUV_CONVERSION_FRAGMENT_POW then
    glSetupYUVFragprog H tbl env M brightness contrast
      (uvcos M hue saturation) (uvsin M hue saturation) rgamma ggamma bgamma
      type (target = GL_TEXTURE_RECTANGLE) texw texh
  else [Event.mp_msg MSGL_ERR "[gl] unknown conversion type %i\n"]

/-- The events of a trace that act on the OpenGL context: everything but
log messages and stores into a local buffer. -/
def Event.isGL : Event → Bool
  | .mp_msg _ _ => false
  | .store _ _ => false
  | _ => true

/-- The value of the table entry an event calls through, `none` for an
event that is no call through the function table. -/
def Event.entryPtr : Event → Option Ptr
  | .extcall _ p _ => some p
  | .TexImage3D p _ _ _ _ _ _ _ _ _ _ => some p
  | .ProgramString p _ _ _ => some p
  | _ => none

/-- The events that submit a program to the GPU program-compilation entry
point. -/
def Event.isProgramString : Event → Bool
  | .ProgramString _ _ _ _ => true
  | _ => false

/-- The events that define the image of a lookup texture: the 1D spline
table, the 2D gamma table and the 3D conversion cube. -/
def Event.isLookupTexture : Event → Bool
  | .glTexImage1D _ _ _ _ _ _ _ _ => true
  | .glTexImage2D _ _ _ _ _ _ _ _ _ => true
  | .TexImage3D _ _ _ _ _ _ _ _ _ _ _ => true
  | _ => false

/-- The events at which the run of the C program ends: a call through a
`NULL` table entry and an `int` operation with undefined behaviour. -/
def Event.isFault : Event → Bool
  | .undefined _ => true
  | .extcall _ p _ => decide (p = 0)
  | .TexImage3D p _ _ _ _ _ _ _ _ _ _ => decide (p = 0)
  | .ProgramString p _ _ _ => decide (p = 0)
  | _ => false

/-- The error messages of a trace: the messages of level `MSGL_FATAL` or
`MSGL_ERR`. -/
def Event.isError : Event → Bool
  | .mp_msg level _ => decide (level ≤ MSGL_ERR)
  | _ => false

/-- The first step of `glSetupYUVFragprog`: `create_scaler_textures` for the
luminance scaler, starting from `cur_texu = 3`. -/
def lum_setup (H : YuvH) (tbl : FuncTable) (type : Int) : TexSetup :=
  create_scaler_textures H tbl (H.YUV_LUM_SCALER type) 3 none

/-- The second step of `glSetupYUVFragprog`: the chrominance scaler copies
the luminance character when both scalers are equal and calls
`create_scaler_textures` otherwise. -/
def chrom_setup (H : YuvH) (tbl : FuncTable) (type : Int) : TexSetup :=
  if H.YUV_CHROM_SCALER type = H.YUV_LUM_SCALER type then
    ⟨[], (lum_setup H tbl type).texu, (lum_setup H tbl type).texs⟩
  else
    create_scaler_textures H tbl (H.YUV_CHROM_SCALER type)
      (lum_setup H tbl type).texu none

/-- The third step of `glSetupYUVFragprog`: `create_conv_textures`. -/
def conv_setup (H : YuvH) (tbl : FuncTable) (env : Env) (M : Libm)
    (brightness contrast uvcos uvsin rgamma ggamma bgamma : ℚ) (type : Int) :
    TexSetup :=
  create_conv_textures H tbl env M (H.YUV_CONVERSION type)
    (chrom_setup H tbl type).texu none brightness contrast uvcos uvsin rgamma
    ggamma bgamma

/-- The program text `yuv_prog` that `glSetupYUVFragprog` has assembled when
it calls `loadGPUProgram`. -/
def fragprog_text (H : YuvH) (tbl : FuncTable) (env : Env) (M : Libm)
    (brightness contrast uvcos uvsin rgamma ggamma bgamma : ℚ) (type : Int)
    (rect : Bool) (texw texh : Int) : List ProgPart :=
  [ProgPart.preamble] ++
    (add_scaler H (H.YUV_LUM_SCALER type) (lum_setup H tbl type).texs '0' 'r'
        rect texw texh ++
      add_scaler H (H.YUV_CHROM_SCALER type) (chrom_setup H tbl type).texs '1'
        'g' rect (texw.tdiv 2) (texh.tdiv 2) ++
      add_scaler H (H.YUV_CHROM_SCALER type) (chrom_setup H tbl type).texs '2'
        'b' rect (texw.tdiv 2) (texh.tdiv 2)) ++
    (conv_prog H (H.YUV_CONVERSION type)
      (yuvMatrix brightness contrast uvcos uvsin) rgamma bgamma
      (conv_setup H tbl env M brightness contrast uvcos uvsin rgamma ggamma
        bgamma type).texs).1

/-- The hue and saturation transform of the chroma pair in
`gen_yuv2rgb_map`: the values `u_` and `v_`. -/
def uv_transform (uvcos uvsin u v : ℚ) : ℚ × ℚ :=
  (uvcos * u + uvsin * v, uvcos * v + uvsin * u)

/-- `glEnableYUVConversion`. -/
def glEnableYUVConversion (H : YuvH) (tbl : FuncTable) (target : Nat)
    (type : Int) : List Event :=
  if type ≤ 0 then []
  else
    let conv := H.YUV_CONVERSION type
    let active := fun (unit : Nat) =>
      Event.extcall .ActiveTexture (tbl .ActiveTexture) [(unit : ℚ)]
    if conv = H.YUV_CONVERSION_COMBINERS then
      [active GL_TEXTURE1, Event.glEnable target,
       active GL_TEXTURE2, Event.glEnable target,
       active GL_TEXTURE0, Event.glEnable GL_REGISTER_COMBINERS_NV]
    else if conv = H.YUV_CONVERSION_COMBINERS_ATI then
      [active GL_TEXTURE1, Event.glEnable target,
       active GL_TEXTURE2, Event.glEnable target,
       active GL_TEXTURE0, Event.glEnable GL_FRAGMENT_SHADER_ATI]
    else if conv = H.YUV_CONVERSION_FRAGMENT_LOOKUP3D ∨
        conv = H.YUV_CONVERSION_FRAGMENT_LOOKUP ∨
        conv = H.YUV_CONVERSION_FRAGMENT_POW ∨
        conv = H.YUV_CONVERSION_FRAGMENT then
      [Event.glEnable GL_FRAGMENT_PROGRAM]
    else []

/-- `glDisableYUVConversion`. -/
def glDisableYUVConversion (H : YuvH) (tbl : FuncTable) (target : Nat)
    (type : Int) : List Event :=
  if type ≤ 0 then []
  else
    let conv := H.YUV_CONVERSION type
    let active := fun (unit : Nat) =>
      Event.extcall .ActiveTexture (tbl .ActiveTexture) [(unit : ℚ)]
    if conv = H.YUV_CONVERSION_COMBINERS then
      [active GL_TEXTURE1, Event.glDisable target,
       active GL_TEXTURE2, Event.glDisable target,
       active GL_TEXTURE0, Event.glDisable GL_REGISTER_COMBINERS_NV]
    else if conv = H.YUV_CONVERSION_COMBINERS_ATI then
      [active GL_TEXTURE1, Event.glDisable target,
       active GL_TEXTURE2, Event.glDisable target,
       active GL_TEXTURE0, Event.glDisable GL_FRAGMENT_SHADER_ATI]
    else if conv = H.YUV_CONVERSION_FRAGMENT_LOOKUP3D ∨
        conv = H.YUV_CONVERSION_FRAGMENT_LOOKUP ∨
        conv = H.YUV_CONVERSION_FRAGMENT_POW ∨
        conv = H.YUV_CONVERSION_FRAGMENT then
      [Event.glDisable GL_FRAGMENT_PROGRAM]
    else []

/-- What the header has to satisfy: the case labels of the `switch`
statements over the conversion method are pairwise distinct, and so are the
two scaler codes (a C compiler rejects the `switch` otherwise). -/
structure YuvH.WellFormed (H : YuvH) : Prop where
  conversions :
    [H.YUV_CONVERSION_COMBINERS, H.YUV_CONVERSION_COMBINERS_ATI,
     H.YUV_CONVERSION_FRAGMENT_LOOKUP, H.YUV_CONVERSION_FRAGMENT_LOOKUP3D,
     H.YUV_CONVERSION_FRAGMENT, H.YUV_CONVERSION_FRAGMENT_POW].Nodup
  scalers : H.YUV_SCALER_BILIN ≠ H.YUV_SCALER_BICUB

/-- The program an event submits, if it submits one. -/
def Event.program? : Event → Option (List ProgPart)
  | .ProgramString _ _ _ prog => some prog
  | _ => none

/-- The vector substituted for `PARAM gamma` in a piece of program text, if
the piece has that parameter. -/
def ProgPart.gamma? : ProgPart → Option (List ℚ)
  | .yuv_pow_prog _ _ _ _ gamma => some gamma
  | _ => none

/-- A function table with a valid stub (the pointer 1) for the listed
entries and `NULL` for all others. -/
def stubTable (present : List FuncId) : FuncTable :=
  fun f => if f ∈ present then 1 else 0

/-- An environment for examples: every limit the driver reports is 8, every
submitted program is accepted (error position -1), the log is not verbose
and `lookup_data` is at address 0. -/
def plainEnv : Env where
  getIntegerv := fun _ => 8
  errorPosition := fun _ => -1
  mp_msg_test := fun _ => false
  lookup_data := 0

/-! ## Sampling grids, coefficient ranges and spline weights -/

/-- The values the coordinate variable of a loop of `gen_yuv2rgb_map` holds
in the successive iterations over the counter values `ks`, starting from
`c`: the value is used by the iteration, then incremented by `mapStep`. -/
def mapCoords (size : Int) (step : ℚ) : List Int → ℚ → List ℚ
  | [], _ => []
  | k :: ks, c => c :: mapCoords size step ks (c + mapStep size step k)

/-- The sample coordinate of the specification at counter value `k` for an
axis with lower edge `e`: the lower edge at `k = -1`, the upper edge `e + 1`
at `k = size`, and the centre of cell `k` in between. -/
def sampleCoord (e : ℚ) (size k : Int) : ℚ :=
  if k = -1 then e
  else if k = size then e + 1
  else e + ((k : ℚ) + 1 / 2) * (1 / (size : ℚ))

/-- One instruction `MAD dst.rgb, s, b, c` of a fragment program whose first
operand is the replicated scalar `s`: `s * b + c` in every component. -/
def MAD (s : ℚ) (b c : List ℚ) : List ℚ :=
  List.zipWith (fun bi ci => s * bi + ci) b c

/-- The three `MAD` instructions shared by `yuv_prog_template`,
`yuv_pow_prog_template` and `yuv_lookup_prog_template`, applied to the
sample `yuv = (y, u, v)`: `yuv.rrrr * ycoef + offsets`, then
`yuv.gggg * ucoef + res`, then `yuv.bbbb * vcoef + res`. -/
def yuv_prog_mad (ycoef ucoef vcoef offsets : List ℚ) (y u v : ℚ) : List ℚ :=
  let res := MAD y ycoef offsets
  let res := MAD u ucoef res
  MAD v vcoef res

/-- The colour the matrix yields for a sample: the parameter vectors are
filled as `glSetupYUVFragprog` passes them to the templates. -/
def YuvMatrix.apply (m : YuvMatrix) (y u v : ℚ) : List ℚ :=
  yuv_prog_mad [m.ry, m.gy, m.by_] [m.ru, m.gu, m.bu] [m.rv, m.gv, m.bv]
    [m.rc, m.gc, m.bc] y u v

/-- The vectors `ucoef` and `vcoef` of `fillUVcoeff` before its final loop
rescales them. -/
def fillUVcoeff_raw (uvcos uvsin : ℚ) : List ℚ × List ℚ :=
  ([0 * uvcos + 1.403 * uvsin, -0.344 * uvcos + -0.714 * uvsin,
    1.770 * uvcos + 0 * uvsin, 0],
   [0 * uvsin + 1.403 * uvcos, -0.344 * uvsin + -0.714 * uvcos,
    1.770 * uvsin + 0 * uvcos, 0])

/-- The local `w0` of `store_weights`. -/
def spline_w0 (x : ℚ) : ℚ := (((-1 * x + 3) * x - 3) * x + 1) / 6

/-- The local `w1` of `store_weights`. -/
def spline_w1 (x : ℚ) : ℚ := (((3 * x - 6) * x + 0) * x + 4) / 6

/-- The local `w2` of `store_weights`. -/
def spline_w2 (x : ℚ) : ℚ := (((-3 * x + 3) * x + 3) * x + 1) / 6

/-- The local `w3` of `store_weights`. -/
def spline_w3 (x : ℚ) : ℚ := (((1 * x + 0) * x + 0) * x + 0) / 6

end GLCommon

/-! # Theorems -/

namespace GLCommon

/-! ## Integer helpers -/

theorem tmod_eq_zero_iff_dvd (a b : Int) : a.tmod b = 0 ↔ b ∣ a :=
  ⟨Int.dvd_of_tmod_eq_zero, Int.tmod_eq_zero_of_dvd⟩

theorem gl_alignment_eq (stride : Int) :
    gl_alignment stride =
      if (8 : Int) ∣ stride then 8 else if (4 : Int) ∣ stride then 4
      else if (2 : Int) ∣ stride then 2 else 1 := by
  simp only [gl_alignment, tmod_eq_zero_iff_dvd]

/-! ## glAdjustAlignment -/

/-- C4: for every integer stride `glAdjustAlignment` sets the unpack
alignment to 8 when `stride % 8 == 0`, else 4 when `stride % 4 == 0`, else 2
when `stride % 2 == 0`, else 1; the value is a power of two not exceeding 8
that divides the stride, and every power of two not exceeding 8 that divides
the stride is at most the value (24 gives 8, 20 gives 4, 18 gives 2, 17
gives 1). -/
theorem glAdjustAlignment_largest_power_of_two (stride : Int) :
    glAdjustAlignment stride =
      [Event.glPixelStorei GL_UNPACK_ALIGNMENT (gl_alignment stride)] ∧
    gl_alignment stride =
      (if stride % 8 = 0 then 8 else if stride % 4 = 0 then 4
       else if stride % 2 = 0 then 2 else 1) ∧
    (∃ k : Nat, gl_alignment stride = 2 ^ k ∧ (2 : Int) ^ k ≤ 8) ∧
    gl_alignment stride ∣ stride ∧
    (∀ k : Nat, (2 : Int) ^ k ≤ 8 → (2 : Int) ^ k ∣ stride →
      (2 : Int) ^ k ≤ gl_alignment stride) ∧
    gl_alignment 24 = 8 ∧ gl_alignment 20 = 4 ∧ gl_alignment 18 = 2 ∧
    gl_alignment 17 = 1 := by
  refine ⟨rfl, ?_, ?_, ?_, ?_, by decide, by decide, by decide, by decide⟩
  · rw [gl_alignment_eq]
    simp only [Int.emod_emod_of_dvd, Int.dvd_iff_emod_eq_zero]
  · rw [gl_alignment_eq]
    split_ifs
    · exact ⟨3, by norm_num, by norm_num⟩
    · exact ⟨2, by norm_num, by norm_num⟩
    · exact ⟨1, by norm_num, by norm_num⟩
    · exact ⟨0, by norm_num, by norm_num⟩
  · rw [gl_alignment_eq]
    split_ifs with h8 h4 h2
    · exact h8
    · exact h4
    · exact h2
    · exact one_dvd _
  · intro k hk hdvd
    have hk3 : k ≤ 3 := by
      by_contra hlt
      have h4 : 4 ≤ k := by omega
      have : (2 : Int) ^ 4 ≤ 2 ^ k := pow_le_pow_right₀ (by norm_num) h4
      norm_num at this
      omega
    rw [gl_alignment_eq]
    interval_cases k <;> norm_num at hdvd ⊢ <;> split_ifs <;> omega

/-! ## glFindFormat -/

/-- C2: `glFindFormat` returns 1 exactly for the formats of the supported set
RGB24, RGBA, Y800, Y8, RGB15, RGB16, BGR15, BGR16, BGR24, BGRA, and for each
of them the reported bpp is the known bit depth of the format: 8 for Y800 and
Y8, and 15, 16, 24, 32 for the RGB/BGR formats of that depth. -/
theorem glFindFormat_supported_set (H : ImgFormatH) (hH : H.WellFormed)
    (fmt : Nat) :
    ((glFindFormat H fmt).supported = 1 ↔ fmt ∈ H.supportedSet) ∧
    (fmt ∈ H.supportedSet → (glFindFormat H fmt).bpp = H.knownDepth fmt) := by
  obtain ⟨hd, h1, h2, h3, h4, h5, h6, h7, h8⟩ := hH
  simp only [ImgFormatH.depth] at h1 h2 h3 h4 h5 h6 h7 h8
  simp only [ImgFormatH.caseLabels, List.nodup_cons, List.mem_cons,
    List.mem_singleton, not_or, List.not_mem_nil, not_false_eq_true,
    List.nodup_nil, and_true] at hd
  obtain ⟨d1, d2, d3, d4, d5, d6, d7, d8, d9, d10⟩ := hd
  simp only [ImgFormatH.knownDepth, ImgFormatH.supportedSet, List.mem_cons,
    List.mem_singleton, List.not_mem_nil, or_false]
  by_cases c1 : fmt = H.IMGFMT_RGB24
  · simp only [glFindFormat, if_pos c1]
    subst c1
    simp [d1, h3]
  by_cases c2 : fmt = H.IMGFMT_RGBA
  · simp only [glFindFormat, if_neg c1, if_pos c2]
    subst c2
    simp [c1, d2, h4]
  by_cases c3 : fmt = H.IMGFMT_YV12
  · simp only [glFindFormat, if_neg c1, if_neg c2, if_pos c3]
    subst c3
    simp [c1, c2, d3]
  by_cases c4 : fmt = H.IMGFMT_Y800 ∨ fmt = H.IMGFMT_Y8
  · simp only [glFindFormat, if_neg c1, if_neg c2, if_neg c3, if_pos c4]
    rcases c4 with e | e <;> subst e <;>
      simp [c1, c2, c3, d4, d5]
  have c4n := not_or.mp c4
  by_cases c5 : fmt = H.IMGFMT_RGB15
  · simp only [glFindFormat, if_neg c1, if_neg c2, if_neg c3, if_neg c4,
      if_pos c5]
    subst c5
    simp [c1, c2, c3, c4n.1, c4n.2, d6, h1]
  by_cases c6 : fmt = H.IMGFMT_RGB16
  · simp only [glFindFormat, if_neg c1, if_neg c2, if_neg c3, if_neg c4,
      if_neg c5, if_pos c6]
    subst c6
    simp [c1, c2, c3, c4n.1, c4n.2, c5, d7, h2]
  by_cases c7 : fmt = H.IMGFMT_BGR15
  · simp only [glFindFormat, if_neg c1, if_neg c2, if_neg c3, if_neg c4,
      if_neg c5, if_neg c6, if_pos c7]
    subst c7
    simp [c1, c2, c3, c4n.1, c4n.2, c5, c6, d8, h5]
  by_cases c8 : fmt = H.IMGFMT_BGR16
  · simp only [glFindFormat, if_neg c1, if_neg c2, if_neg c3, if_neg c4,
      if_neg c5, if_neg c6, if_neg c7, if_pos c8]
    subst c8
    simp [c1, c2, c3, c4n.1, c4n.2, c5, c6, c7, d9, h6]
  by_cases c9 : fmt = H.IMGFMT_BGR24
  · simp only [glFindFormat, if_neg c1, if_neg c2, if_neg c3, if_neg c4,
      if_neg c5, if_neg c6, if_neg c7, if_neg c8, if_pos c9]
    subst c9
    simp [c1, c2, c3, c4n.1, c4n.2, c5, c6, c7, c8, d10, h7]
  by_cases c10 : fmt = H.IMGFMT_BGRA
  · simp only [glFindFormat, if_neg c1, if_neg c2, if_neg c3, if_neg c4,
      if_neg c5, if_neg c6, if_neg c7, if_neg c8, if_neg c9, if_pos c10]
    subst c10
    simp [c1, c2, c3, c4n.1, c4n.2, c5, c6, c7, c8, c9, h8]
  simp only [glFindFormat, if_neg c1, if_neg c2, if_neg c3, if_neg c4,
      if_neg c5, if_neg c6, if_neg c7, if_neg c8, if_neg c9, if_neg c10]
  simp [c1, c2, c3, c4n.1, c4n.2, c5, c6, c7, c8, c9, c10]

/-- The theorem `glFindFormat_supported_set` applies to the MPlayer header:
there BGR15 is supported with 15 bits per pixel. -/
theorem glFindFormat_supported_set_witness :
    ((glFindFormat mplayerImgFormat 0x4247520F).supported = 1 ↔
      0x4247520F ∈ mplayerImgFormat.supportedSet) ∧
    (0x4247520F ∈ mplayerImgFormat.supportedSet →
      (glFindFormat mplayerImgFormat 0x4247520F).bpp =
        mplayerImgFormat.knownDepth 0x4247520F) :=
  glFindFormat_supported_set mplayerImgFormat (by constructor <;> decide)
    0x4247520F

/-- C3 (counterexample): for YV12, for which `glFindFormat` returns 0, the
outputs are the 8-bit luminance settings and not the 4-byte RGBA fallback;
for the unknown identifier 0 the reported bpp is 0, not 32. -/
theorem glFindFormat_unsupported_is_not_rgba32 :
    glFindFormat mplayerImgFormat mplayerImgFormat.IMGFMT_YV12 =
      ⟨0, 8, 1, GL_LUMINANCE, GL_UNSIGNED_BYTE⟩ ∧
    glFindFormat mplayerImgFormat mplayerImgFormat.IMGFMT_YV12 ≠
      ⟨0, 32, 4, GL_RGBA, GL_UNSIGNED_BYTE⟩ ∧
    (glFindFormat mplayerImgFormat 0).supported = 0 ∧
    (glFindFormat mplayerImgFormat 0).bpp ≠ 32 := by
  decide

/-- C3 (amended): when `glFindFormat` returns 0 the format is either YV12,
and the outputs are the 8-bit luminance settings (bpp 8, internal format 1,
`GL_LUMINANCE`, `GL_UNSIGNED_BYTE`), or an identifier that is none of the
case labels, and the outputs are internal format 4, `GL_RGBA`,
`GL_UNSIGNED_BYTE` with the bpp the depth macros report for the identifier. -/
theorem glFindFormat_unsupported_outputs (H : ImgFormatH) (fmt : Nat)
    (h0 : (glFindFormat H fmt).supported = 0) :
    (fmt = H.IMGFMT_YV12 ∧
      glFindFormat H fmt = ⟨0, 8, 1, GL_LUMINANCE, GL_UNSIGNED_BYTE⟩) ∨
    (fmt ∉ H.caseLabels ∧
      glFindFormat H fmt = ⟨0, H.depth fmt, 4, GL_RGBA, GL_UNSIGNED_BYTE⟩) := by
  by_cases c1 : fmt = H.IMGFMT_RGB24
  · simp [glFindFormat, if_pos c1] at h0
  by_cases c2 : fmt = H.IMGFMT_RGBA
  · simp [glFindFormat, if_neg c1, if_pos c2] at h0
  by_cases c3 : fmt = H.IMGFMT_YV12
  · left
    refine ⟨c3, ?_⟩
    simp only [glFindFormat, if_neg c1, if_neg c2, if_pos c3]
  by_cases c4 : fmt = H.IMGFMT_Y800 ∨ fmt = H.IMGFMT_Y8
  · simp [glFindFormat, if_neg c1, if_neg c2, if_neg c3, if_pos c4] at h0
  by_cases c5 : fmt = H.IMGFMT_RGB15
  · simp [glFindFormat, if_neg c1, if_neg c2, if_neg c3, if_neg c4, if_pos c5] at h0
  by_cases c6 : fmt = H.IMGFMT_RGB16
  · simp [glFindFormat, if_neg c1, if_neg c2, if_neg c3, if_neg c4, if_neg c5,
      if_pos c6] at h0
  by_cases c7 : fmt = H.IMGFMT_BGR15
  · simp [glFindFormat, if_neg c1, if_neg c2, if_neg c3, if_neg c4, if_neg c5,
      if_neg c6, if_pos c7] at h0
  by_cases c8 : fmt = H.IMGFMT_BGR16
  · simp [glFindFormat, if_neg c1, if_neg c2, if_neg c3, if_neg c4, if_neg c5,
      if_neg c6, if_neg c7, if_pos c8] at h0
  by_cases c9 : fmt = H.IMGFMT_BGR24
  · simp [glFindFormat, if_neg c1, if_neg c2, if_neg c3, if_neg c4, if_neg c5,
      if_neg c6, if_neg c7, if_neg c8, if_pos c9] at h0
  by_cases c10 : fmt = H.IMGFMT_BGRA
  · simp [glFindFormat, if_neg c1, if_neg c2, if_neg c3, if_neg c4, if_neg c5,
      if_neg c6, if_neg c7, if_neg c8, if_neg c9, if_pos c10] at h0
  right
  have c4n := not_or.mp c4
  refine ⟨?_, ?_⟩
  · simp [ImgFormatH.caseLabels, c1, c2, c3, c4n.1, c4n.2, c5, c6, c7, c8, c9,
      c10]
  · simp only [glFindFormat, ImgFormatH.depth, if_neg c1, if_neg c2, if_neg c3,
      if_neg c4, if_neg c5, if_neg c6, if_neg c7, if_neg c8, if_neg c9,
      if_neg c10]

/-- The theorem `glFindFormat_unsupported_outputs` applies to the unknown
identifier 0 of the MPlayer header. -/
theorem glFindFormat_unsupported_outputs_witness :
    (glFindFormat mplayerImgFormat 0).supported = 0 ∧
    ((0 = mplayerImgFormat.IMGFMT_YV12 ∧
      glFindFormat mplayerImgFormat 0 =
        ⟨0, 8, 1, GL_LUMINANCE, GL_UNSIGNED_BYTE⟩) ∨
    (0 ∉ mplayerImgFormat.caseLabels ∧
      glFindFormat mplayerImgFormat 0 =
        ⟨0, mplayerImgFormat.depth 0, 4, GL_RGBA, GL_UNSIGNED_BYTE⟩)) :=
  ⟨by decide, glFindFormat_unsupported_outputs mplayerImgFormat 0 (by decide)⟩

/-! ## getFunctions -/

theorem strstrChars_iff_infix (haystack needle : List Char) :
    strstrChars haystack needle = true ↔ needle <:+: haystack := by
  induction haystack with
  | nil =>
    simp [strstrChars, List.isEmpty_iff]
  | cons c cs ih =>
    simp only [strstrChars, Bool.or_eq_true, ih, List.isPrefixOf_iff_prefix,
      List.infix_cons_iff]

theorem resolveLoop_eq (gpa : String → Ptr) (names : List String) :
    ∀ (ptr : Ptr) (calls : List String),
      resolveLoop gpa names ptr calls =
        if ptr ≠ 0 then (ptr, calls)
        else (((names.map gpa).find? (· ≠ 0)).getD 0,
              calls ++ upToFirstSuccess gpa names) := by
  induction names with
  | nil =>
    intro ptr calls
    by_cases h : ptr = 0 <;> simp [resolveLoop, upToFirstSuccess, h]
  | cons n rest ih =>
    intro ptr calls
    by_cases h : ptr = 0
    · subst h
      simp only [resolveLoop, ne_eq, not_true_eq_false, if_false, ih]
      by_cases hn : gpa n = 0
      · simp [hn, upToFirstSuccess]
      · simp [hn, upToFirstSuccess]
    · simp [resolveLoop, h]

theorem resolveEntry_eq_spec (a : String) (gpa : String → Ptr)
    (dsc : extfunc_desc_t) :
    resolveEntry a gpa dsc = (specEntry a gpa dsc, specCalls a gpa dsc) := by
  unfold resolveEntry specEntry specCalls
  cases dsc.extstr with
  | none => simp [resolveLoop_eq]
  | some ext =>
    simp only [strstr, strstrChars_iff_infix]
    by_cases h : ext.data <:+: a.data <;> simp [h, resolveLoop_eq]

theorem resolveAll_calls (a : String) (gpa : String → Ptr)
    (l : List extfunc_desc_t) :
    ∀ st : Resolved, (resolveAll a gpa l st).calls =
      st.calls ++ (l.map (fun d => (resolveEntry a gpa d).2)).flatten := by
  induction l with
  | nil => intro st; simp [resolveAll]
  | cons d rest ih => intro st; simp [resolveAll, ih]

theorem resolveAll_table_not_mem (a : String) (gpa : String → Ptr)
    (l : List extfunc_desc_t) :
    ∀ (st : Resolved) (f : FuncId), f ∉ l.map (·.funcptr) →
      (resolveAll a gpa l st).table f = st.table f := by
  induction l with
  | nil => intro st f _; simp [resolveAll]
  | cons d rest ih =>
    intro st f hf
    simp only [List.map_cons, List.mem_cons, not_or] at hf
    simp only [resolveAll]
    rw [ih _ f hf.2]
    exact Function.update_noteq hf.1 _ _

theorem resolveAll_table_mem (a : String) (gpa : String → Ptr)
    (l : List extfunc_desc_t) :
    (l.map (·.funcptr)).Nodup → ∀ (st : Resolved), ∀ d ∈ l,
      (resolveAll a gpa l st).table d.funcptr = (resolveEntry a gpa d).1 := by
  induction l with
  | nil => intro _ st d hd; simp at hd
  | cons e rest ih =>
    intro hnd st d hd
    simp only [List.map_cons, List.nodup_cons] at hnd
    simp only [resolveAll]
    rcases List.mem_cons.mp hd with h | h
    · subst h
      rw [resolveAll_table_not_mem a gpa rest _ _ hnd.1]
      exact Function.update_same _ _ _
    · exact ih hnd.2 _ d h

theorem extfuncs_funcptr_nodup : (extfuncs.map (·.funcptr)).Nodup := by
  decide

/-- C1: after `getFunctions(resolver, ext2)` every entry of the
extension-function table holds `NULL` if the entry has a required-extension
string that is no substring of the combined extension string (driver string,
a space, `ext2`), and otherwise the first non-`NULL` value the resolver
returns over the candidate names in listed order, `NULL` if there is none;
entries without a required extension are always attempted, and the names
passed to the resolver are, entry by entry, the candidates up to and
including the first success only.  Every function pointer has an entry. -/
theorem getFunctions_entries (extensions ext2 : Option String)
    (resolver : String → Ptr) (tbl : FuncTable) :
    (∀ dsc ∈ extfuncs,
      (getFunctions extensions (some resolver) ext2 tbl).table dsc.funcptr =
        specEntry (extensions.getD "" ++ " " ++ ext2.getD "") resolver dsc) ∧
    (getFunctions extensions (some resolver) ext2 tbl).calls =
      (extfuncs.map
        (specCalls (extensions.getD "" ++ " " ++ ext2.getD "") resolver)).flatten ∧
    (∀ dsc ∈ extfuncs, dsc.extstr = none →
      (getFunctions extensions (some resolver) ext2 tbl).table dsc.funcptr =
        ((dsc.funcnames.map resolver).find? (· ≠ 0)).getD 0) ∧
    (∀ f : FuncId, ∃ dsc ∈ extfuncs, dsc.funcptr = f) := by
  have key : ∀ dsc ∈ extfuncs,
      (getFunctions extensions (some resolver) ext2 tbl).table dsc.funcptr =
        specEntry (extensions.getD "" ++ " " ++ ext2.getD "") resolver dsc := by
    intro dsc hd
    simp only [getFunctions, Option.getD_some, allexts]
    rw [resolveAll_table_mem _ _ _ extfuncs_funcptr_nodup _ dsc hd,
      resolveEntry_eq_spec]
  refine ⟨key, ?_, ?_, ?_⟩
  · simp only [getFunctions, Option.getD_some, allexts, resolveAll_calls,
      List.nil_append, resolveEntry_eq_spec]
  · intro dsc hd hnone
    rw [key dsc hd]
    simp [specEntry, hnone]
  · intro f
    cases f <;> decide

/-! ## glUploadTex -/

theorem uploadLoop_iterations (target format type : Nat) (x w slice : Int)
    (hs : 0 < slice) (stride y_max : Int) (hmul : inInt (stride * slice))
    (n : Nat) :
    ∀ y data : Int, INT_MIN ≤ y → y + (n + 1) * slice ≤ INT_MAX →
      y + n * slice ≤ y_max → y_max < y + (n + 1) * slice →
      uploadLoop target format type x w slice hs stride y_max y data =
        ((List.range n).map (fun i : Nat =>
            Event.glTexSubImage2D target 0 x (y + (i : Int) * slice) w slice
              format type (data + ((i : Int) * slice) * stride)),
         some (y + n * slice, data + (n * slice) * stride)) := by
  induction n with
  | zero =>
    intro y data hy hmax _ h2
    have hin : inInt (y + slice) := ⟨by omega, by simpa using hmax⟩
    have hexit : ¬ (y + slice ≤ y_max) := by
      have : y_max < y + slice := by simpa using h2
      omega
    rw [uploadLoop, if_neg (not_not.mpr hin), if_neg hexit]
    simp
  | succ n ih =>
    intro y data hy hmax h1 h2
    push_cast at h1 h2 hmax
    have hn : 0 ≤ (n : Int) * slice := by positivity
    have hin : inInt (y + slice) := ⟨by omega, by nlinarith⟩
    have hstep : y + slice ≤ y_max := by nlinarith
    rw [uploadLoop, if_neg (not_not.mpr hin), if_pos hstep,
      if_neg (not_not.mpr hmul),
      ih (y + slice) (data + stride * slice) (by omega) (by linarith)
        (by linarith) (by linarith)]
    simp only [List.range_succ_eq_map, List.map_cons, List.map_map]
    refine Prod.ext ?_ ?_
    · simp only [Nat.cast_zero, zero_mul, add_zero, List.cons.injEq, true_and]
      apply List.map_congr_left
      intro i _
      simp only [Function.comp, Nat.cast_succ]
      congr 1 <;> ring
    · simp only [Nat.cast_succ, Option.some.injEq, Prod.mk.injEq]
      constructor <;> ring

theorem uploadLoop_eq_sliceUploads (target format type : Nat)
    (x y w h s base stride : Int) (hs : 0 < s) (hh : 0 < h)
    (hy : INT_MIN ≤ y) (hmax : y + h + s ≤ INT_MAX)
    (hmul : inInt (stride * s)) :
    (uploadLoop target format type x w s hs stride (y + h) y base).1 ++
      (match (uploadLoop target format type x w s hs stride (y + h) y base).2
        with
       | some (y1, data2) =>
         if y1 < y + h then
           [Event.glTexSubImage2D target 0 x y1 w (y + h - y1) format type
             data2]
         else []
       | none => []) =
    sliceUploads target format type x y w h s base stride := by
  have hq : 0 ≤ h / s := Int.ediv_nonneg hh.le hs.le
  have hdm : s * (h / s) + h % s = h := Int.ediv_add_emod h s
  have hm0 : 0 ≤ h % s := Int.emod_nonneg h hs.ne'
  have hm1 : h % s < s := Int.emod_lt_of_pos h hs
  have hn : (((h / s).toNat : Nat) : Int) = h / s := Int.toNat_of_nonneg hq
  rw [uploadLoop_iterations target format type x w s hs stride (y + h) hmul
    (h / s).toNat y base hy (by rw [hn]; nlinarith) (by rw [hn]; nlinarith)
    (by rw [hn]; nlinarith)]
  simp only [sliceUploads, hn]
  congr 1
  by_cases hz : h % s = 0
  · have : ¬ (y + h / s * s < y + h) := by nlinarith
    rw [if_neg this, if_pos hz]
  · have : y + h / s * s < y + h := by
      have : 0 < h % s := lt_of_le_of_ne hm0 (Ne.symm hz)
      nlinarith
    rw [if_pos this, if_neg hz]
    congr 2
    ring_nf
    linarith

theorem glUploadTex_eq_sliceUploads (target format type : Nat)
    (data stride x y w h slice : Int) (hw : 0 < w) (hh : 0 < h)
    (hfmt : glFmt2bpp format type ≠ 0)
    (hr : UploadInRange stride y h slice) :
    glUploadTex target format type data stride x y w h slice =
      glAdjustAlignment |stride| ++
        [Event.glPixelStorei GL_UNPACK_ROW_LENGTH
          (|stride|.tdiv (glFmt2bpp format type))] ++
        sliceUploads target format type x y w h
          (if 0 < slice then slice else h)
          (if stride < 0 then data + h * stride else data) |stride| := by
  obtain ⟨hy, hmax, hmul, hneg⟩ := hr
  have hwh : ¬ (w ≤ 0 ∨ h ≤ 0) := by omega
  have hs1 : (if slice ≤ 0 then h else slice) = (if 0 < slice then slice else h) := by
    split_ifs <;> omega
  have hspos : 0 < (if 0 < slice then slice else h) := by split_ifs <;> omega
  have habs : (if stride < 0 then -stride else stride) = |stride| := by
    split_ifs with hneg
    · exact (abs_of_neg hneg).symm
    · exact (abs_of_nonneg (not_lt.mp hneg)).symm
  have habs0 : 0 ≤ |stride| := abs_nonneg stride
  have hyh : inInt (y + h) := ⟨by omega, by omega⟩
  have habs1 : |stride| ≤ INT_MAX := by nlinarith
  have hmin : INT_MIN ≤ 0 := by decide
  have hstr : ¬ (stride < 0 ∧ ¬ (inInt (h * stride) ∧ inInt (-stride))) := by
    rintro ⟨hlt, hno⟩
    apply hno
    have h1 : h * stride ≤ 0 := by nlinarith
    have h2 : -stride = |stride| := (abs_of_neg hlt).symm
    have hmax0 : 0 ≤ INT_MAX := by decide
    exact ⟨⟨hneg, by omega⟩, ⟨by omega, by omega⟩⟩
  have hmul' : inInt (|stride| * (if 0 < slice then slice else h)) :=
    ⟨by have := mul_nonneg habs0 hspos.le; omega, hmul⟩
  simp only [glUploadTex, if_neg (not_not.mpr hyh), dif_neg hwh, if_neg hstr,
    if_neg hfmt, List.append_assoc]
  simp only [hs1, habs]
  rw [← uploadLoop_eq_sliceUploads target format type x y w h _ _ |stride|
    hspos hh hy hmax hmul']

theorem strips_append (a b : List Event) :
    strips (a ++ b) = strips a ++ strips b := by
  induction a with
  | nil => rfl
  | cons e rest ih => cases e <;> simp [strips, ih]

theorem strips_map_upload (target format type : Nat) (x w : Int)
    (fy fh fp : Nat → Int) (l : List Nat) :
    strips (l.map (fun i : Nat =>
      Event.glTexSubImage2D target 0 x (fy i) w (fh i) format type (fp i))) =
    l.map (fun i : Nat => (⟨fy i, fh i, fp i⟩ : Strip)) := by
  induction l with
  | nil => rfl
  | cons a rest ih => simp [strips, ih]

theorem strips_sliceUploads (target format type : Nat)
    (x y w h s base rowBytes : Int) :
    strips (sliceUploads target format type x y w h s base rowBytes) =
      sliceStrips y h s base rowBytes := by
  simp only [sliceUploads, sliceStrips, strips_append, strips_map_upload]
  split_ifs <;> simp [strips]

theorem sliceUploads_no_fault (target format type : Nat)
    (x y w h s base rowBytes : Int) :
    ∀ e ∈ sliceUploads target format type x y w h s base rowBytes,
      e.isFault = false := by
  intro e he
  simp only [sliceUploads, List.mem_append, List.mem_map] at he
  rcases he with ⟨i, _, rfl⟩ | he
  · rfl
  · by_cases hz : h % s = 0
    · simp [hz] at he
    · rw [if_neg hz, List.mem_singleton] at he
      subst he
      rfl

theorem glUploadTex_no_fault (target format type : Nat)
    (data stride x y w h slice : Int) (hw : 0 < w) (hh : 0 < h)
    (hfmt : glFmt2bpp format type ≠ 0)
    (hr : UploadInRange stride y h slice) :
    ∀ e ∈ glUploadTex target format type data stride x y w h slice,
      e.isFault = false := by
  intro e he
  rw [glUploadTex_eq_sliceUploads target format type data stride x y w h slice
    hw hh hfmt hr] at he
  simp only [List.mem_append, glAdjustAlignment, List.mem_singleton] at he
  rcases he with (rfl | rfl) | he
  · rfl
  · rfl
  · exact sliceUploads_no_fault _ _ _ _ _ _ _ _ _ _ e he


/-- C6 (the code at the failing input): with `data = 1000`, `stride = -12`
and `h = 4` the rows of the image are at 1000, 988, 976 and 964, the last
row being at `data + (h - 1) * stride = 964`; the single upload starts
reading at `data + h * stride = 952`, and the destination rows 0, 1, 2, 3
are read from 952, 964, 976, 988, not from 964, 976, 988, 1000. -/
theorem glUploadTex_negative_stride_rows :
    (strips (glUploadTex 0 GL_RGB GL_UNSIGNED_BYTE 1000 (-12) 0 0 4 4 0)).map
        (Strip.reads 12) =
      [[(0, 952), (1, 964), (2, 976), (3, 988)]] ∧
    (List.range 4).map
        (fun i : Nat => ((i : Int), (1000 : Int) + (4 - 1 - (i : Int)) * (-12))) =
      [(0, 964), (1, 976), (2, 988), (3, 1000)] := by
  have hstrips :
      strips (glUploadTex 0 GL_RGB GL_UNSIGNED_BYTE 1000 (-12) 0 0 4 4 0) =
        sliceStrips 0 4 4 952 12 := by
    rw [glUploadTex_eq_sliceUploads _ _ _ _ _ _ _ _ _ _ (by norm_num)
      (by norm_num) (by decide)
      ⟨by decide, by decide, by norm_num [INT_MAX], by decide⟩,
      strips_append, strips_append, strips_sliceUploads]
    simp [glAdjustAlignment, strips]
  rw [hstrips]
  constructor <;> decide

/-! ## The conversion matrix and the gamma map -/

/-- C7: for the neutral adjustment (brightness 0, contrast 1, hue 0,
saturation 1, a math library with `cos 0 = 1` and `sin 0 = 0`) `uvcos` is 1
and `uvsin` is 0, and the matrix is `ry = gy = by = 1.164`, `ru = 0`,
`rv = 1.596`, `gu = -0.391`, `gv = -0.813`, `bu = 2.018`, `bv = 0`, each
offset being `(-16 * 1.164 - 128 * (u coefficient + v coefficient)) / 255`
of its channel, without a brightness or contrast term. -/
theorem yuvMatrix_neutral (M : Libm) (hcos : M.cos 0 = 1) (hsin : M.sin 0 = 0) :
    uvcos M 0 1 = 1 ∧ uvsin M 0 1 = 0 ∧
    yuvMatrix 0 1 (uvcos M 0 1) (uvsin M 0 1) =
      { ry := 1.164, ru := 0, rv := 1.596,
        rc := (-16 * 1.164 - 128 * (0 + 1.596)) / 255,
        gy := 1.164, gu := -0.391, gv := -0.813,
        gc := (-16 * 1.164 - 128 * (-0.391 + -0.813)) / 255,
        by_ := 1.164, bu := 2.018, bv := 0,
        bc := (-16 * 1.164 - 128 * (2.018 + 0)) / 255 } := by
  have hc : uvcos M 0 1 = 1 := by simp [uvcos, hcos]
  have hs : uvsin M 0 1 = 0 := by simp [uvsin, hsin]
  refine ⟨hc, hs, ?_⟩
  rw [hc, hs]
  simp only [yuvMatrix]
  norm_num

/-- The theorem `yuvMatrix_neutral` applies to the rational stand-in of the
math library. -/
theorem yuvMatrix_neutral_witness :
    ratLibm.cos 0 = 1 ∧ ratLibm.sin 0 = 0 ∧
    uvcos ratLibm 0 1 = 1 ∧ uvsin ratLibm 0 1 = 0 ∧
    yuvMatrix 0 1 (uvcos ratLibm 0 1) (uvsin ratLibm 0 1) =
      { ry := 1.164, ru := 0, rv := 1.596,
        rc := (-16 * 1.164 - 128 * (0 + 1.596)) / 255,
        gy := 1.164, gu := -0.391, gv := -0.813,
        gc := (-16 * 1.164 - 128 * (-0.391 + -0.813)) / 255,
        by_ := 1.164, bu := 2.018, bv := 0,
        bc := (-16 * 1.164 - 128 * (2.018 + 0)) / 255 } :=
  ⟨by norm_num [ratLibm], by norm_num [ratLibm],
   yuvMatrix_neutral ratLibm (by norm_num [ratLibm]) (by norm_num [ratLibm])⟩

theorem truncate_of_nonneg (q : ℚ) (hq : 0 ≤ q) : truncate q = ⌊q⌋ := by
  simp [truncate, hq]

theorem gammaEntry_eq_floor (M : Libm) (size : Int) (gamma : ℚ) (i : Nat) :
    gammaEntry M size gamma i =
      ⌊255 * clamp (M.pow ((i : ℚ) / ((size : ℚ) - 1)) (1 / gamma)) 0 1⌋ := by
  have e1 : (1.0 : ℚ) = 1 := by norm_num
  have e0 : (0.0 : ℚ) = 0 := by norm_num
  simp only [gammaEntry, clamp, e1, e0, gt_iff_lt]
  generalize M.pow ((i : ℚ) / ((size : ℚ) - 1)) (1 / gamma) = p
  by_cases h1 : 1 < p
  · have h0 : ¬ ((1 : ℚ) < 0) := by norm_num
    rw [if_pos h1, if_neg h0, min_eq_right h1.le, max_eq_right (by norm_num)]
    exact truncate_of_nonneg _ (by norm_num)
  · rw [if_neg h1, min_eq_left (not_lt.mp h1)]
    by_cases h0 : p < 0
    · rw [if_pos h0, max_eq_left h0.le]
      simp [truncate]
    · rw [if_neg h0, max_eq_right (not_lt.mp h0)]
      exact truncate_of_nonneg _ (by have := not_lt.mp h0; positivity)

theorem gen_gamma_map_getElem (M : Libm) (size : Int) (gamma : ℚ) (i : Nat)
    (hi : (i : Int) < size) :
    (gen_gamma_map M size gamma)[i]? = some (gammaEntry M size gamma i) := by
  have hlt : i < size.toNat := by omega
  simp [gen_gamma_map, List.getElem?_map, List.getElem?_range hlt]

/-- C8 (counterexample): with `size = 5` and `gamma = 1` the entry 1 is
`255 * 0.25 = 63.75` converted to a byte, which is 63, while the value
rounded to the nearest integer is 64. -/
theorem gen_gamma_map_truncates :
    (gen_gamma_map ratLibm 5 1)[1]? = some 63 ∧
    roundNearest
      (255 * clamp (ratLibm.pow (((1 : Nat) : ℚ) / (((5 : Int) : ℚ) - 1)) (1 / 1))
        0 1) = 64 := by
  constructor
  · rw [gen_gamma_map_getElem ratLibm 5 1 1 (by norm_num), gammaEntry_eq_floor]
    simp only [ratLibm, clamp]
    norm_num
  · simp only [ratLibm, clamp, roundNearest]
    norm_num

/-- C8 (amended): for every size at least 2, every positive gamma and every
`i` below the size, `gen_gamma_map` stores in `map[i]` the value
`255 * clamp((i / (size - 1)) ^ (1 / gamma), 0, 1)` rounded down to an
integer (the fractional part is discarded), and it writes `size` bytes. -/
theorem gen_gamma_map_floor (M : Libm) (size : Int) (gamma : ℚ) (i : Nat)
    (_hsize : 2 ≤ size) (_hgamma : 0 < gamma) (hi : (i : Int) < size) :
    (gen_gamma_map M size gamma)[i]? =
      some ⌊255 * clamp (M.pow ((i : ℚ) / ((size : ℚ) - 1)) (1 / gamma)) 0 1⌋ ∧
    ((gen_gamma_map M size gamma).length : Int) = size := by
  constructor
  · rw [gen_gamma_map_getElem M size gamma i hi, gammaEntry_eq_floor]
  · simp only [gen_gamma_map, List.length_map, List.length_range]
    omega

/-- The theorem `gen_gamma_map_floor` applies to the table of 512 entries
with gamma 1 at index 100. -/
theorem gen_gamma_map_floor_witness :
    (2 : Int) ≤ 512 ∧ (0 : ℚ) < 1 ∧ ((100 : Nat) : Int) < 512 ∧
    ((gen_gamma_map ratLibm 512 1)[100]? =
      some ⌊255 * clamp (ratLibm.pow (((100 : Nat) : ℚ) / (((512 : Int) : ℚ) - 1))
        (1 / 1)) 0 1⌋ ∧
    ((gen_gamma_map ratLibm 512 1).length : Int) = 512) :=
  ⟨by norm_num, by norm_num, by norm_num,
   gen_gamma_map_floor ratLibm 512 1 100 (by norm_num) (by norm_num)
     (by norm_num)⟩

theorem gammaEntry_gamma_one (M : Libm) (hpow : ∀ x : ℚ, M.pow x 1 = x)
    (size : Int) (i : Nat) :
    gammaEntry M size 1 i = ⌊255 * clamp ((i : ℚ) / ((size : ℚ) - 1)) 0 1⌋ := by
  rw [gammaEntry_eq_floor, show ((1 : ℚ) / 1) = 1 by norm_num, hpow]

theorem clamp_mono (a b : ℚ) (hab : a ≤ b) : clamp a 0 1 ≤ clamp b 0 1 := by
  unfold clamp
  exact max_le_max le_rfl (min_le_min hab le_rfl)

theorem gammaEntry_mono (M : Libm) (hpow : ∀ x : ℚ, M.pow x 1 = x)
    (size : Int) (hsize : 2 ≤ size) (i j : Nat) (hij : i ≤ j) :
    gammaEntry M size 1 i ≤ gammaEntry M size 1 j := by
  rw [gammaEntry_gamma_one M hpow, gammaEntry_gamma_one M hpow]
  have hpos : (0 : ℚ) < (size : ℚ) - 1 := by
    have : (2 : ℚ) ≤ (size : ℚ) := by exact_mod_cast hsize
    linarith
  have hq : (i : ℚ) / ((size : ℚ) - 1) ≤ (j : ℚ) / ((size : ℚ) - 1) :=
    div_le_div_of_nonneg_right (by exact_mod_cast hij) hpos.le
  exact Int.floor_mono (mul_le_mul_of_nonneg_left (clamp_mono _ _ hq) (by norm_num))

/-- C9: for gamma = 1 (a math library with `pow(x, 1) = x`) and every size
at least 2 the table written by `gen_gamma_map` is monotonic non-decreasing
in the index, with `map[0] = 0` and `map[size - 1] = 255`. -/
theorem gen_gamma_map_gamma_one (M : Libm) (hpow : ∀ x : ℚ, M.pow x 1 = x)
    (size : Int) (hsize : 2 ≤ size) :
    (∀ (i j : Nat) (a b : Int), i ≤ j →
      (gen_gamma_map M size 1)[i]? = some a →
      (gen_gamma_map M size 1)[j]? = some b → a ≤ b) ∧
    (gen_gamma_map M size 1)[0]? = some 0 ∧
    (gen_gamma_map M size 1)[(size - 1).toNat]? = some 255 := by
  have hlen : (gen_gamma_map M size 1).length = size.toNat := by
    simp [gen_gamma_map]
  refine ⟨?_, ?_, ?_⟩
  · intro i j a b hij ha hb
    have hj : j < size.toNat := by
      rw [← hlen]
      exact (List.getElem?_eq_some_iff.mp hb).1
    have hi : i < size.toNat := lt_of_le_of_lt hij hj
    rw [gen_gamma_map_getElem M size 1 i (by omega)] at ha
    rw [gen_gamma_map_getElem M size 1 j (by omega)] at hb
    cases ha
    cases hb
    exact gammaEntry_mono M hpow size hsize i j hij
  · rw [gen_gamma_map_getElem M size 1 0 (by omega), gammaEntry_gamma_one M hpow]
    simp [clamp]
  · rw [gen_gamma_map_getElem M size 1 _ (by omega), gammaEntry_gamma_one M hpow]
    have hcast : (((size - 1).toNat : Nat) : ℚ) = (size : ℚ) - 1 := by
      have h : (((size - 1).toNat : Nat) : Int) = size - 1 :=
        Int.toNat_of_nonneg (by omega)
      have h2 := congrArg (fun z : Int => (z : ℚ)) h
      simpa using h2
    have hpos : (size : ℚ) - 1 ≠ 0 := by
      have : (2 : ℚ) ≤ (size : ℚ) := by exact_mod_cast hsize
      intro h0
      linarith
    rw [hcast, div_self hpos]
    simp [clamp]

/-- The theorem `gen_gamma_map_gamma_one` applies to the rational stand-in
of the math library and the table of 512 entries. -/
theorem gen_gamma_map_gamma_one_witness :
    (∀ x : ℚ, ratLibm.pow x 1 = x) ∧ (2 : Int) ≤ 512 ∧
    ((∀ (i j : Nat) (a b : Int), i ≤ j →
      (gen_gamma_map ratLibm 512 1)[i]? = some a →
      (gen_gamma_map ratLibm 512 1)[j]? = some b → a ≤ b) ∧
    (gen_gamma_map ratLibm 512 1)[0]? = some 0 ∧
    (gen_gamma_map ratLibm 512 1)[((512 : Int) - 1).toNat]? = some 255) :=
  ⟨fun x => by simp [ratLibm], by norm_num,
   gen_gamma_map_gamma_one ratLibm (fun x => by simp [ratLibm]) 512
     (by norm_num)⟩

/-! ## Missing combiner functions -/

theorem find_ne_zero_of_null (resolver : String → Ptr)
    (hnull : ∀ s, resolver s = 0) (names : List String) :
    ((names.map resolver).find? (· ≠ 0)).getD 0 = 0 := by
  induction names with
  | nil => rfl
  | cons n rest ih => simpa [List.find?, hnull n] using ih

theorem specEntry_of_null (a : String) (resolver : String → Ptr)
    (hnull : ∀ s, resolver s = 0) (dsc : extfunc_desc_t) :
    specEntry a resolver dsc = 0 := by
  unfold specEntry
  cases dsc.extstr with
  | none => exact find_ne_zero_of_null resolver hnull _
  | some ext =>
    by_cases h : ext.data <:+: a.data
    · simpa [h] using find_ne_zero_of_null resolver hnull _
    · simp [h]

theorem extfuncs_covers (f : FuncId) : ∃ dsc ∈ extfuncs, dsc.funcptr = f := by
  cases f <;> decide

theorem resolveAll_table_of_null (a : String) (resolver : String → Ptr)
    (hnull : ∀ s, resolver s = 0) (tbl : FuncTable) (f : FuncId) :
    (resolveAll a resolver extfuncs ⟨tbl, []⟩).table f = 0 := by
  obtain ⟨dsc, hmem, rfl⟩ := extfuncs_covers f
  rw [resolveAll_table_mem _ _ _ extfuncs_funcptr_nodup _ dsc hmem,
    resolveEntry_eq_spec]
  exact specEntry_of_null a resolver hnull dsc

theorem glSetupYUVCombiners_missing (tbl : FuncTable) (env : Env)
    (uvcos uvsin : ℚ)
    (h : tbl .CombinerInput = 0 ∨ tbl .CombinerOutput = 0 ∨
      tbl .CombinerParameterfv = 0 ∨ tbl .CombinerParameteri = 0) :
    glSetupYUVCombiners tbl env uvcos uvsin =
      [Event.mp_msg MSGL_FATAL "[gl] Combiner functions missing!\n"] := by
  simp only [glSetupYUVCombiners, if_pos h]

theorem glSetupYUVCombinersATI_missing (tbl : FuncTable) (env : Env)
    (uvcos uvsin : ℚ)
    (h : tbl .BeginFragmentShader = 0 ∨ tbl .EndFragmentShader = 0 ∨
      tbl .SetFragmentShaderConstant = 0 ∨ tbl .SampleMap = 0 ∨
      tbl .ColorFragmentOp2 = 0 ∨ tbl .ColorFragmentOp3 = 0) :
    glSetupYUVCombinersATI tbl env uvcos uvsin =
      [Event.mp_msg MSGL_FATAL "[gl] Combiner (ATI) functions missing!\n"] := by
  simp only [glSetupYUVCombinersATI, if_pos h]

/-- C10: if one of `CombinerInput`, `CombinerOutput`, `CombinerParameterfv`,
`CombinerParameteri` is `NULL`, `glSetupYUVCombiners` logs the fatal message
and does nothing else; likewise `glSetupYUVCombinersATI` when one of its six
entries is `NULL`.  After `getFunctions` with a resolver that always returns
`NULL`, `glSetupYUVConversion` for either combiner method (the two methods
having different codes) logs that message only: no call reaches the OpenGL
context. -/
theorem glSetupYUVCombiners_no_partial_setup (H : YuvH)
    (hne : H.YUV_CONVERSION_COMBINERS ≠ H.YUV_CONVERSION_COMBINERS_ATI)
    (tbl : FuncTable) (env : Env) (M : Libm) (uvcos uvsin : ℚ) :
    ((tbl .CombinerInput = 0 ∨ tbl .CombinerOutput = 0 ∨
        tbl .CombinerParameterfv = 0 ∨ tbl .CombinerParameteri = 0) →
      glSetupYUVCombiners tbl env uvcos uvsin =
        [Event.mp_msg MSGL_FATAL "[gl] Combiner functions missing!\n"]) ∧
    ((tbl .BeginFragmentShader = 0 ∨ tbl .EndFragmentShader = 0 ∨
        tbl .SetFragmentShaderConstant = 0 ∨ tbl .SampleMap = 0 ∨
        tbl .ColorFragmentOp2 = 0 ∨ tbl .ColorFragmentOp3 = 0) →
      glSetupYUVCombinersATI tbl env uvcos uvsin =
        [Event.mp_msg MSGL_FATAL "[gl] Combiner (ATI) functions missing!\n"]) ∧
    (∀ (extensions ext2 : Option String) (resolver : String → Ptr)
        (target : Nat) (type : Int)
        (brightness contrast hue saturation rgamma ggamma bgamma : ℚ)
        (texw texh : Int),
      (∀ s, resolver s = 0) →
      (H.YUV_CONVERSION type = H.YUV_CONVERSION_COMBINERS →
        glSetupYUVConversion H
            (getFunctions extensions (some resolver) ext2 tbl).table env M
            target type brightness contrast hue saturation rgamma ggamma bgamma
            texw texh =
          [Event.mp_msg MSGL_FATAL "[gl] Combiner functions missing!\n"]) ∧
      (H.YUV_CONVERSION type = H.YUV_CONVERSION_COMBINERS_ATI →
        glSetupYUVConversion H
            (getFunctions extensions (some resolver) ext2 tbl).table env M
            target type brightness contrast hue saturation rgamma ggamma bgamma
            texw texh =
          [Event.mp_msg MSGL_FATAL "[gl] Combiner (ATI) functions missing!\n"]) ∧
      ((H.YUV_CONVERSION type = H.YUV_CONVERSION_COMBINERS ∨
          H.YUV_CONVERSION type = H.YUV_CONVERSION_COMBINERS_ATI) →
        (glSetupYUVConversion H
            (getFunctions extensions (some resolver) ext2 tbl).table env M
            target type brightness contrast hue saturation rgamma ggamma bgamma
            texw texh).filter Event.isGL = [])) := by
  refine ⟨glSetupYUVCombiners_missing tbl env uvcos uvsin,
    glSetupYUVCombinersATI_missing tbl env uvcos uvsin, ?_⟩
  intro extensions ext2 resolver target type brightness contrast hue saturation
    rgamma ggamma bgamma texw texh hnull
  have htbl : ∀ f, (getFunctions extensions (some resolver) ext2 tbl).table f = 0 := by
    intro f
    simp only [getFunctions, Option.getD_some]
    exact resolveAll_table_of_null _ resolver hnull tbl f
  have hA : H.YUV_CONVERSION type = H.YUV_CONVERSION_COMBINERS →
      glSetupYUVConversion H
          (getFunctions extensions (some resolver) ext2 tbl).table env M
          target type brightness contrast hue saturation rgamma ggamma bgamma
          texw texh =
        [Event.mp_msg MSGL_FATAL "[gl] Combiner functions missing!\n"] := by
    intro hc
    simp only [glSetupYUVConversion, if_pos hc]
    exact glSetupYUVCombiners_missing _ _ _ _ (Or.inl (htbl _))
  have hB : H.YUV_CONVERSION type = H.YUV_CONVERSION_COMBINERS_ATI →
      glSetupYUVConversion H
          (getFunctions extensions (some resolver) ext2 tbl).table env M
          target type brightness contrast hue saturation rgamma ggamma bgamma
          texw texh =
        [Event.mp_msg MSGL_FATAL "[gl] Combiner (ATI) functions missing!\n"] := by
    intro hc
    have hc1 : ¬ H.YUV_CONVERSION type = H.YUV_CONVERSION_COMBINERS := by
      rw [hc]
      exact fun h => hne h.symm
    simp only [glSetupYUVConversion, if_neg hc1, if_pos hc]
    exact glSetupYUVCombinersATI_missing _ _ _ _ (Or.inl (htbl _))
  refine ⟨hA, hB, ?_⟩
  rintro (hc | hc)
  · rw [hA hc]
    rfl
  · rw [hB hc]
    rfl

/-- The theorem `glSetupYUVCombiners_no_partial_setup` applies to the
MPlayer type codes, the table left by a resolver that always returns `NULL`
and the types 1 (combiners) and 5 (ATI combiners). -/
theorem glSetupYUVCombiners_no_partial_setup_witness :
    mplayerYuvH.YUV_CONVERSION_COMBINERS ≠ mplayerYuvH.YUV_CONVERSION_COMBINERS_ATI ∧
    glSetupYUVCombiners (fun _ => 0) ⟨fun _ => 8, fun _ => -1, fun _ => false, 0⟩
        1 0 =
      [Event.mp_msg MSGL_FATAL "[gl] Combiner functions missing!\n"] ∧
    glSetupYUVCombinersATI (fun _ => 0)
        ⟨fun _ => 8, fun _ => -1, fun _ => false, 0⟩ 1 0 =
      [Event.mp_msg MSGL_FATAL "[gl] Combiner (ATI) functions missing!\n"] ∧
    (glSetupYUVConversion mplayerYuvH
        (getFunctions none (some (fun _ => 0)) none (fun _ => 0)).table
        ⟨fun _ => 8, fun _ => -1, fun _ => false, 0⟩ ratLibm GL_TEXTURE_2D 1
        0 1 0 1 1 1 1 640 480).filter Event.isGL = [] ∧
    (glSetupYUVConversion mplayerYuvH
        (getFunctions none (some (fun _ => 0)) none (fun _ => 0)).table
        ⟨fun _ => 8, fun _ => -1, fun _ => false, 0⟩ ratLibm GL_TEXTURE_2D 5
        0 1 0 1 1 1 1 640 480).filter Event.isGL = [] :=
  have key := glSetupYUVCombiners_no_partial_setup mplayerYuvH (by decide)
    (fun _ => 0) ⟨fun _ => 8, fun _ => -1, fun _ => false, 0⟩ ratLibm 1 0
  ⟨by decide, key.1 (Or.inl rfl), key.2.1 (Or.inl rfl),
   (key.2.2 none none (fun _ => 0) GL_TEXTURE_2D 1 0 1 0 1 1 1 1 640 480
      (fun _ => rfl)).2.2 (Or.inl (by decide)),
   (key.2.2 none none (fun _ => 0) GL_TEXTURE_2D 5 0 1 0 1 1 1 1 640 480
      (fun _ => rfl)).2.2 (Or.inr (by decide))⟩

/-! ## The fragment program setup -/

theorem glSetupYUVFragprog_eq (H : YuvH) (tbl : FuncTable) (env : Env)
    (M : Libm) (brightness contrast uvcos uvsin rgamma ggamma bgamma : ℚ)
    (type : Int) (rect : Bool) (texw texh : Int) :
    glSetupYUVFragprog H tbl env M brightness contrast uvcos uvsin rgamma
        ggamma bgamma type rect texw texh =
      (lum_setup H tbl type).events ++ (chrom_setup H tbl type).events ++
        (conv_setup H tbl env M brightness contrast uvcos uvsin rgamma ggamma
          bgamma type).events ++
        ([Event.glGetIntegerv GL_MAX_TEXTURE_UNITS] ++
          (if env.getIntegerv GL_MAX_TEXTURE_UNITS <
              (conv_setup H tbl env M brightness contrast uvcos uvsin rgamma
                ggamma bgamma type).texu then
            [Event.mp_msg MSGL_ERR
              "[gl] %i texture units needed for this type of YUV fragment support (found %i)\n"]
           else [])) ++
        (if tbl .ProgramString = 0 then
          [Event.mp_msg MSGL_FATAL "[gl] ProgramString function missing!\n"]
         else
          (conv_prog H (H.YUV_CONVERSION type)
              (yuvMatrix brightness contrast uvcos uvsin) rgamma bgamma
              (conv_setup H tbl env M brightness contrast uvcos uvsin rgamma
                ggamma bgamma type).texs).2 ++
            [Event.mp_msg MSGL_V "[gl] generated fragment program:\n%s\n"] ++
            (loadGPUProgram tbl env GL_FRAGMENT_PROGRAM
              (fragprog_text H tbl env M brightness contrast uvcos uvsin rgamma
                ggamma bgamma type rect texw texh)).1) := by
  by_cases hp : tbl .ProgramString = 0
  · simp only [glSetupYUVFragprog, lum_setup, chrom_setup, conv_setup,
      if_pos hp, List.append_assoc]
  · simp only [glSetupYUVFragprog, lum_setup, chrom_setup, conv_setup,
      fragprog_text, if_neg hp, List.append_assoc]

/-! ## loadGPUProgram -/

/-- C12: `loadGPUProgram` returns 1 if and only if `ProgramString` is
present and the error position the driver reports for the submitted program
is -1, and 0 otherwise.  Without `ProgramString` it only logs an error and
submits nothing; with it, the program is submitted and the error position is
queried first.  The result is the same for every table with that
`ProgramString` entry and every environment with that error position,
whether `GetProgramiv` is present or not and whatever the verbosity is. -/
theorem loadGPUProgram_result (tbl : FuncTable) (env : Env) (target : Nat)
    (prog : List ProgPart) :
    ((loadGPUProgram tbl env target prog).2 = 1 ↔
      (tbl .ProgramString ≠ 0 ∧ env.errorPosition prog = -1)) ∧
    (¬ (tbl .ProgramString ≠ 0 ∧ env.errorPosition prog = -1) →
      (loadGPUProgram tbl env target prog).2 = 0) ∧
    (tbl .ProgramString = 0 →
      (loadGPUProgram tbl env target prog).1 =
        [Event.mp_msg MSGL_ERR "[gl] Missing GPU program function\n"]) ∧
    (tbl .ProgramString ≠ 0 →
      (loadGPUProgram tbl env target prog).1.take 2 =
        [Event.ProgramString (tbl .ProgramString) target GL_PROGRAM_FORMAT_ASCII
            prog,
          Event.glGetIntegerv GL_PROGRAM_ERROR_POSITION]) ∧
    (∀ (tbl2 : FuncTable) (env2 : Env),
      (tbl2 .ProgramString = 0 ↔ tbl .ProgramString = 0) →
      env2.errorPosition prog = env.errorPosition prog →
      (loadGPUProgram tbl2 env2 target prog).2 =
        (loadGPUProgram tbl env target prog).2) := by
  have hres : ∀ (t : FuncTable) (e : Env),
      (loadGPUProgram t e target prog).2 =
        if t .ProgramString ≠ 0 ∧ e.errorPosition prog = -1 then 1 else 0 := by
    intro t e
    unfold loadGPUProgram
    by_cases hp : t .ProgramString = 0
    · simp [hp]
    · by_cases he : e.errorPosition prog = -1
      · by_cases hg : t .GetProgramiv = 0 ∨ e.mp_msg_test MSGL_V = false
        · simp [hp, he, hg]
        · simp only [if_neg hp, he, ne_eq, not_true_eq_false, if_false,
            if_neg hg, not_false_eq_true, and_self, if_true]
          simp [hp]
      · simp [hp, he]
  refine ⟨?_, ?_, ?_, ?_, ?_⟩
  · rw [hres]
    by_cases h : tbl .ProgramString ≠ 0 ∧ env.errorPosition prog = -1
    · simp [h]
    · simp [h]
  · intro h
    rw [hres, if_neg h]
  · intro hp
    simp only [loadGPUProgram, if_pos hp]
  · intro hp
    unfold loadGPUProgram
    by_cases he : env.errorPosition prog = -1
    · by_cases hg : tbl .GetProgramiv = 0 ∨ env.mp_msg_test MSGL_V = false
      · simp [hp, he, hg]
      · simp only [if_neg hp, he, ne_eq, not_true_eq_false, if_false,
          if_neg hg, List.append_assoc, List.cons_append, List.nil_append,
          List.take_succ_cons, List.take_zero]
    · simp only [if_neg hp, ne_eq, he, not_false_eq_true, if_true,
        List.cons_append, List.nil_append, List.take_succ_cons, List.take_zero]
  · intro tbl2 env2 ht he
    rw [hres, hres, he]
    by_cases hp : tbl .ProgramString = 0
    · simp [hp, ht.mpr hp]
    · have hp2 : ¬ tbl2 .ProgramString = 0 := fun h => hp (ht.mp h)
      simp [hp, hp2]

/-! ## getFunctions: missing resolver, repeated runs -/

/-- C13: when the resolver passed to `getFunctions` is `NULL`, every entry of
the function table is `NULL` afterwards, for every driver extension string,
every extra extension string and every previous table. -/
theorem getFunctions_null_resolver (extensions ext2 : Option String)
    (tbl : FuncTable) (f : FuncId) :
    (getFunctions extensions none ext2 tbl).table f = 0 := by
  simp only [getFunctions, Option.getD_none]
  exact resolveAll_table_of_null _ setNull (fun _ => rfl) tbl f

theorem getFunctions_table_eq (extensions ext2 : Option String)
    (getProcAddress : Option (String → Ptr)) (tbl : FuncTable) (f : FuncId) :
    (getFunctions extensions getProcAddress ext2 tbl).table f =
      specEntry (allexts extensions ext2) (getProcAddress.getD setNull)
        ((extfuncs.find? (fun d => d.funcptr = f)).getD ⟨f, none, []⟩) := by
  obtain ⟨dsc, hmem, rfl⟩ := extfuncs_covers f
  have hfind : extfuncs.find? (fun d => d.funcptr = dsc.funcptr) = some dsc := by
    revert dsc
    decide
  simp only [getFunctions, hfind, Option.getD_some]
  rw [resolveAll_table_mem _ _ _ extfuncs_funcptr_nodup _ dsc hmem,
    resolveEntry_eq_spec]

/-- C14: the table left by `getFunctions` depends only on the resolver and
the two extension strings, not on the previous contents of the table: every
entry is overwritten, so two different previous tables give the same table,
and running `getFunctions` again with the same resolver and strings on its
own result leaves that table unchanged. -/
theorem getFunctions_idempotent (extensions ext2 : Option String)
    (getProcAddress : Option (String → Ptr)) (tbl tbl2 : FuncTable) :
    (getFunctions extensions getProcAddress ext2 tbl).table =
      (getFunctions extensions getProcAddress ext2 tbl2).table ∧
    (getFunctions extensions getProcAddress ext2
        (getFunctions extensions getProcAddress ext2 tbl).table).table =
      (getFunctions extensions getProcAddress ext2 tbl).table ∧
    (getFunctions extensions getProcAddress ext2
        (getFunctions extensions getProcAddress ext2 tbl).table).calls =
      (getFunctions extensions getProcAddress ext2 tbl).calls := by
  refine ⟨?_, ?_, ?_⟩
  · funext f
    rw [getFunctions_table_eq, getFunctions_table_eq]
  · funext f
    rw [getFunctions_table_eq, getFunctions_table_eq]
  · simp only [getFunctions, resolveAll_calls]

/-! ## glEnableYUVConversion and glDisableYUVConversion -/

/-- C19: `glEnableYUVConversion` and `glDisableYUVConversion` issue no call
at all when `type <= 0`, and none when the conversion-method field of `type`
is none of the six conversion methods. -/
theorem glEnableYUVConversion_noop (H : YuvH) (tbl : FuncTable) (target : Nat)
    (type : Int) :
    (type ≤ 0 →
      glEnableYUVConversion H tbl target type = [] ∧
      glDisableYUVConversion H tbl target type = []) ∧
    ((H.YUV_CONVERSION type ≠ H.YUV_CONVERSION_COMBINERS ∧
        H.YUV_CONVERSION type ≠ H.YUV_CONVERSION_COMBINERS_ATI ∧
        H.YUV_CONVERSION type ≠ H.YUV_CONVERSION_FRAGMENT ∧
        H.YUV_CONVERSION type ≠ H.YUV_CONVERSION_FRAGMENT_POW ∧
        H.YUV_CONVERSION type ≠ H.YUV_CONVERSION_FRAGMENT_LOOKUP ∧
        H.YUV_CONVERSION type ≠ H.YUV_CONVERSION_FRAGMENT_LOOKUP3D) →
      glEnableYUVConversion H tbl target type = [] ∧
      glDisableYUVConversion H tbl target type = []) := by
  constructor
  · intro h
    simp only [glEnableYUVConversion, glDisableYUVConversion, if_pos h, and_self]
  · rintro ⟨h1, h2, h3, h4, h5, h6⟩
    have h7 : ¬ (H.YUV_CONVERSION type = H.YUV_CONVERSION_FRAGMENT_LOOKUP3D ∨
        H.YUV_CONVERSION type = H.YUV_CONVERSION_FRAGMENT_LOOKUP ∨
        H.YUV_CONVERSION type = H.YUV_CONVERSION_FRAGMENT_POW ∨
        H.YUV_CONVERSION type = H.YUV_CONVERSION_FRAGMENT) := by
      rintro (h | h | h | h)
      · exact h6 h
      · exact h5 h
      · exact h4 h
      · exact h3 h
    by_cases h : type ≤ 0
    · simp only [glEnableYUVConversion, glDisableYUVConversion, if_pos h,
        and_self]
    · simp only [glEnableYUVConversion, glDisableYUVConversion, if_neg h,
        if_neg h1, if_neg h2, if_neg h7, and_self]

/-! ## The hue and saturation transform -/

theorem yuv2rgb_texel_uv_transform (M : Libm)
    (brightness contrast uvcos uvsin rgamma ggamma bgamma y u v : ℚ) :
    yuv2rgb_texel M brightness contrast uvcos uvsin rgamma ggamma bgamma y u v =
      yuv2rgb_texel M brightness contrast 1 0 rgamma ggamma bgamma y
        (uv_transform uvcos uvsin u v).1 (uv_transform uvcos uvsin u v).2 := by
  simp [yuv2rgb_texel, uv_transform]

/-- C20 (the code at the failing input): with the hue and saturation pair
`uvcos = 3/5`, `uvsin = 4/5` (saturation 1) and the corner sample
`u = v = 1/2` the code computes `(7/10, 7/10)`, whose squared norm 49/50 is
not `(uvcos^2 + uvsin^2) * (u^2 + v^2) = 1/2`; with `uvcos = uvsin = 1` and
`u = v = 1` it computes `(2, 2)`, whose squared norm 8 is not 4. -/
theorem uv_transform_not_norm_scaling :
    uv_transform 1 1 1 1 = (2, 2) ∧
    (uv_transform 1 1 1 1).1 ^ 2 + (uv_transform 1 1 1 1).2 ^ 2 ≠
      ((1 : ℚ) ^ 2 + 1 ^ 2) * (1 ^ 2 + 1 ^ 2) ∧
    uv_transform (3 / 5) (4 / 5) (1 / 2) (1 / 2) = (7 / 10, 7 / 10) ∧
    (uv_transform (3 / 5) (4 / 5) (1 / 2) (1 / 2)).1 ^ 2 +
        (uv_transform (3 / 5) (4 / 5) (1 / 2) (1 / 2)).2 ^ 2 ≠
      ((3 / 5 : ℚ) ^ 2 + (4 / 5) ^ 2) * ((1 / 2) ^ 2 + (1 / 2) ^ 2) := by
  refine ⟨?_, ?_, ?_, ?_⟩
  all_goals
    simp only [uv_transform]
    norm_num

/-- The squared norm of the pair the code computes, for all inputs: it
exceeds `(uvcos^2 + uvsin^2) * (u^2 + v^2)` by `4 * uvcos * uvsin * u * v`,
so the two agree exactly when `uvcos * uvsin * u * v = 0`. -/
theorem uv_transform_norm (uvcos uvsin u v : ℚ) :
    uv_transform uvcos uvsin u v =
      (uvcos * u + uvsin * v, uvcos * v + uvsin * u) ∧
    (uv_transform uvcos uvsin u v).1 ^ 2 + (uv_transform uvcos uvsin u v).2 ^ 2 =
      (uvcos ^ 2 + uvsin ^ 2) * (u ^ 2 + v ^ 2) + 4 * uvcos * uvsin * u * v ∧
    ((uv_transform uvcos uvsin u v).1 ^ 2 + (uv_transform uvcos uvsin u v).2 ^ 2 =
        (uvcos ^ 2 + uvsin ^ 2) * (u ^ 2 + v ^ 2) ↔
      uvcos * uvsin * u * v = 0) := by
  have key : (uv_transform uvcos uvsin u v).1 ^ 2 +
      (uv_transform uvcos uvsin u v).2 ^ 2 =
      (uvcos ^ 2 + uvsin ^ 2) * (u ^ 2 + v ^ 2) + 4 * uvcos * uvsin * u * v := by
    simp only [uv_transform]
    ring
  refine ⟨rfl, key, ?_⟩
  rw [key]
  constructor
  · intro h
    linarith
  · intro h
    linarith

/-! ## Runs that reach no call through NULL and no undefined operation -/

theorem gen_spline_lookup_tex_no_fault (tbl : FuncTable)
    (hat : tbl .ActiveTexture ≠ 0) (unit : ℚ) :
    ∀ e ∈ gen_spline_lookup_tex tbl unit, e.isFault = false := by
  intro e he
  simp only [gen_spline_lookup_tex, List.mem_cons, List.mem_singleton,
    List.not_mem_nil, or_false] at he
  rcases he with rfl | rfl | rfl | rfl | rfl | rfl | rfl <;>
    simp [Event.isFault, hat]

theorem create_scaler_textures_no_fault (H : YuvH) (tbl : FuncTable)
    (hat : tbl .ActiveTexture ≠ 0) (scaler texu : Int) (texs : Option Int) :
    ∀ e ∈ (create_scaler_textures H tbl scaler texu texs).events,
      e.isFault = false := by
  intro e he
  unfold create_scaler_textures at he
  split_ifs at he
  · simp at he
  · exact gen_spline_lookup_tex_no_fault tbl hat _ e he
  · simp only [List.mem_singleton] at he
    subst he
    rfl

theorem chrom_setup_no_fault (H : YuvH) (tbl : FuncTable)
    (hat : tbl .ActiveTexture ≠ 0) (type : Int) :
    ∀ e ∈ (chrom_setup H tbl type).events, e.isFault = false := by
  intro e he
  unfold chrom_setup at he
  split_ifs at he
  · simp at he
  · exact create_scaler_textures_no_fault H tbl hat _ _ _ e he

theorem glCreateClearTex_no_fault (target fmt : Nat) (filter w h val : Int) :
    ∀ e ∈ glCreateClearTex target fmt filter w h val, e.isFault = false := by
  intro e he
  simp only [glCreateClearTex, glAdjustAlignment, List.mem_append,
    List.mem_cons, List.mem_singleton, List.not_mem_nil, or_false] at he
  rcases he with rfl | rfl | rfl | rfl | rfl | rfl | rfl | rfl | rfl <;> rfl

theorem create_conv_textures_no_fault (H : YuvH) (tbl : FuncTable)
    (hat : tbl .ActiveTexture ≠ 0) (env : Env) (M : Libm)
    (conv texu : Int) (texs : Option Int)
    (brightness contrast uvcos uvsin rgamma ggamma bgamma : ℚ) :
    ∀ e ∈ (create_conv_textures H tbl env M conv texu texs brightness contrast
        uvcos uvsin rgamma ggamma bgamma).events, e.isFault = false := by
  intro e he
  unfold create_conv_textures at he
  split_ifs at he with h1 h2 h3 h4
  · simp at he
  · simp only [List.mem_append, List.mem_cons, List.mem_singleton,
      List.not_mem_nil, or_false] at he
    rcases he with (((rfl | rfl | rfl | rfl) | he) | he) | rfl
    · simp [Event.isFault, hat]
    · rfl
    · rfl
    · rfl
    · exact glCreateClearTex_no_fault _ _ _ _ _ _ e he
    · exact glUploadTex_no_fault _ _ _ _ _ _ _ _ _ _ (by decide) (by decide)
        (by decide)
        ⟨by decide, by decide, by norm_num [LOOKUP_RES, INT_MAX], by decide⟩
        e he
    · simp [Event.isFault, hat]
  · simp only [List.mem_singleton] at he
    subst he
    rfl
  · simp only [glAdjustAlignment, List.mem_append, List.mem_cons,
      List.mem_singleton, List.not_mem_nil, or_false] at he
    rcases he with (rfl | rfl) | rfl | rfl | rfl | rfl | rfl | rfl | rfl |
      rfl | rfl
    all_goals first
      | rfl
      | simp [Event.isFault, hat, h4]
  · simp only [List.mem_singleton] at he
    subst he
    rfl

theorem loadGPUProgram_no_fault (tbl : FuncTable) (env : Env) (target : Nat)
    (prog : List ProgPart) :
    ∀ e ∈ (loadGPUProgram tbl env target prog).1, e.isFault = false := by
  intro e he
  unfold loadGPUProgram at he
  by_cases hP : tbl .ProgramString = 0
  · rw [if_pos hP] at he
    simp only [List.mem_singleton] at he
    subst he
    rfl
  · rw [if_neg hP] at he
    by_cases herr : env.errorPosition prog = -1
    · by_cases hg : tbl .GetProgramiv = 0 ∨ env.mp_msg_test MSGL_V = false
      · simp only [herr, ne_eq, not_true_eq_false, if_false, if_pos hg,
          List.mem_cons, List.mem_singleton, List.not_mem_nil, or_false] at he
        rcases he with rfl | rfl
        · simp [Event.isFault, hP]
        · rfl
      · have hg0 : tbl .GetProgramiv ≠ 0 := fun h => hg (Or.inl h)
        simp only [herr, ne_eq, not_true_eq_false, if_false, if_neg hg,
          List.mem_append, List.mem_cons, List.mem_singleton,
          List.not_mem_nil, or_false, List.mem_flatten, List.mem_map] at he
        rcases he with ((rfl | rfl) | rfl) | ⟨l, ⟨s, _, rfl⟩, hl⟩
        · simp [Event.isFault, hP]
        · rfl
        · rfl
        · simp only [List.mem_cons, List.mem_singleton, List.not_mem_nil,
            or_false] at hl
          rcases hl with rfl | rfl | rfl
          · simp [Event.isFault, hg0]
          · simp [Event.isFault, hg0]
          · rfl
    · simp only [ne_eq, herr, not_false_eq_true, if_true, List.mem_append,
        List.mem_cons, List.mem_singleton, List.not_mem_nil, or_false] at he
      rcases he with (rfl | rfl) | rfl | rfl
      · simp [Event.isFault, hP]
      · rfl
      · rfl
      · rfl

theorem conv_prog_no_fault (H : YuvH) (conv : Int) (m : YuvMatrix)
    (rgamma bgamma : ℚ) (texs : Option Int) :
    ∀ e ∈ (conv_prog H conv m rgamma bgamma texs).2, e.isFault = false := by
  intro e he
  unfold conv_prog at he
  simp only at he
  split_ifs at he
  · simp at he
  · simp at he
  · simp at he
  · simp at he
  · simp only [List.mem_singleton] at he
    subst he
    rfl

theorem glSetupYUVFragprog_no_fault (H : YuvH) (tbl : FuncTable)
    (hat : tbl .ActiveTexture ≠ 0) (env : Env) (M : Libm)
    (brightness contrast uvcos uvsin rgamma ggamma bgamma : ℚ) (type : Int)
    (rect : Bool) (texw texh : Int) :
    ∀ e ∈ glSetupYUVFragprog H tbl env M brightness contrast uvcos uvsin rgamma
        ggamma bgamma type rect texw texh, e.isFault = false := by
  intro e he
  rw [glSetupYUVFragprog_eq] at he
  simp only [List.mem_append] at he
  rcases he with (((he | he) | he) | he) | he
  · exact create_scaler_textures_no_fault H tbl hat _ _ _ e he
  · exact chrom_setup_no_fault H tbl hat type e he
  · exact create_conv_textures_no_fault H tbl hat env M _ _ _ _ _ _ _ _ _ _ e he
  · rcases he with he | he
    · simp only [List.mem_singleton] at he
      subst he
      rfl
    · split_ifs at he
      · simp only [List.mem_singleton] at he
        subst he
        rfl
      · simp at he
  · split_ifs at he
    · simp only [List.mem_singleton] at he
      subst he
      rfl
    · simp only [List.mem_append, List.mem_singleton] at he
      rcases he with (he | rfl) | he
      · exact conv_prog_no_fault _ _ _ _ _ _ e he
      · rfl
      · exact loadGPUProgram_no_fault _ _ _ _ e he

/-! ## Texture units of the fragment program -/

theorem gen_spline_lookup_tex_count (tbl : FuncTable) (unit : ℚ) :
    (gen_spline_lookup_tex tbl unit).countP Event.isLookupTexture = 1 := by
  simp [gen_spline_lookup_tex, Event.isLookupTexture, List.countP_cons]

theorem sliceUploads_not_lookup (target format type : Nat)
    (x y w h s base rowBytes : Int) :
    ∀ e ∈ sliceUploads target format type x y w h s base rowBytes,
      e.isLookupTexture = false ∧ e.isProgramString = false ∧
      e.entryPtr = none := by
  intro e he
  simp only [sliceUploads, List.mem_append, List.mem_map] at he
  rcases he with ⟨i, _, rfl⟩ | he
  · exact ⟨rfl, rfl, rfl⟩
  · split_ifs at he
    · simp at he
    · simp only [List.mem_singleton] at he
      subst he
      exact ⟨rfl, rfl, rfl⟩

theorem uploadLoop_events (target format type : Nat) (x w slice : Int)
    (hs : 0 < slice) (stride y_max : Int) (n : Nat) :
    ∀ y data : Int, (y_max - y).toNat ≤ n →
      ∀ e ∈ (uploadLoop target format type x w slice hs stride y_max y data).1,
        e.isLookupTexture = false ∧ e.isProgramString = false ∧
        e.entryPtr = none := by
  induction n with
  | zero =>
    intro y data hn e he
    have h2 : ¬ (y + slice ≤ y_max) := by omega
    by_cases h1 : inInt (y + slice)
    · rw [uploadLoop, if_neg (not_not.mpr h1), if_neg h2] at he
      simp at he
    · rw [uploadLoop, if_pos h1, List.mem_singleton] at he
      subst he
      exact ⟨rfl, rfl, rfl⟩
  | succ n ih =>
    intro y data hn e he
    by_cases h1 : inInt (y + slice)
    · by_cases h2 : y + slice ≤ y_max
      · by_cases h3 : inInt (stride * slice)
        · rw [uploadLoop, if_neg (not_not.mpr h1), if_pos h2,
            if_neg (not_not.mpr h3), List.mem_cons] at he
          rcases he with rfl | he
          · exact ⟨rfl, rfl, rfl⟩
          · exact ih (y + slice) (data + stride * slice) (by omega) e he
        · rw [uploadLoop, if_neg (not_not.mpr h1), if_pos h2, if_pos h3] at he
          simp only [List.mem_cons, List.mem_singleton, List.not_mem_nil,
            or_false] at he
          rcases he with rfl | rfl
          · exact ⟨rfl, rfl, rfl⟩
          · exact ⟨rfl, rfl, rfl⟩
      · rw [uploadLoop, if_neg (not_not.mpr h1), if_neg h2] at he
        simp at he
    · rw [uploadLoop, if_pos h1, List.mem_singleton] at he
      subst he
      exact ⟨rfl, rfl, rfl⟩

theorem glUploadTex_not_lookup (target format type : Nat)
    (data stride x y w h slice : Int) :
    ∀ e ∈ glUploadTex target format type data stride x y w h slice,
      e.isLookupTexture = false ∧ e.isProgramString = false ∧
      e.entryPtr = none := by
  intro e he
  by_cases h1 : inInt (y + h)
  · by_cases h2 : w ≤ 0 ∨ h ≤ 0
    · simp only [glUploadTex, if_neg (not_not.mpr h1), dif_pos h2,
        List.not_mem_nil] at he
    · by_cases h3 : stride < 0 ∧ ¬ (inInt (h * stride) ∧ inInt (-stride))
      · simp only [glUploadTex, if_neg (not_not.mpr h1), dif_neg h2, if_pos h3,
          List.mem_singleton] at he
        subst he
        exact ⟨rfl, rfl, rfl⟩
      · by_cases h4 : glFmt2bpp format type = 0
        · simp only [glUploadTex, if_neg (not_not.mpr h1), dif_neg h2,
            if_neg h3, if_pos h4, glAdjustAlignment, List.mem_append,
            List.mem_singleton] at he
          rcases he with rfl | rfl
          · exact ⟨rfl, rfl, rfl⟩
          · exact ⟨rfl, rfl, rfl⟩
        · simp only [glUploadTex, if_neg (not_not.mpr h1), dif_neg h2,
            if_neg h3, if_neg h4, glAdjustAlignment, List.mem_append,
            List.mem_singleton] at he
          rcases he with rfl | (rfl | he) | he
          · exact ⟨rfl, rfl, rfl⟩
          · exact ⟨rfl, rfl, rfl⟩
          · exact uploadLoop_events _ _ _ _ _ _ _ _ _ _ _ _ (le_refl _) e he
          · split at he
            · split_ifs at he
              · simp only [List.mem_singleton] at he
                subst he
                exact ⟨rfl, rfl, rfl⟩
              · simp at he
            · simp at he
  · simp only [glUploadTex, if_pos h1, List.mem_singleton] at he
    subst he
    exact ⟨rfl, rfl, rfl⟩

theorem glUploadTex_count (target format type : Nat)
    (data stride x y w h slice : Int) :
    (glUploadTex target format type data stride x y w h slice).countP
      Event.isLookupTexture = 0 := by
  rw [List.countP_eq_zero]
  intro e he
  simp [(glUploadTex_not_lookup _ _ _ _ _ _ _ _ _ _ e he).1]

theorem glCreateClearTex_count (target fmt : Nat) (filter w h val : Int) :
    (glCreateClearTex target fmt filter w h val).countP
      Event.isLookupTexture = 1 := by
  simp [glCreateClearTex, glAdjustAlignment, Event.isLookupTexture,
    List.countP_cons]

theorem create_scaler_textures_units (H : YuvH)
    (hsc : H.YUV_SCALER_BILIN ≠ H.YUV_SCALER_BICUB) (tbl : FuncTable)
    (scaler texu : Int) :
    (create_scaler_textures H tbl scaler texu none).texu =
      (if scaler = H.YUV_SCALER_BICUB then texu + 1 else texu) ∧
    (create_scaler_textures H tbl scaler texu none).texs =
      (if scaler = H.YUV_SCALER_BICUB then some (texu + 48) else none) ∧
    (create_scaler_textures H tbl scaler texu none).events.countP
        Event.isLookupTexture =
      (if scaler = H.YUV_SCALER_BICUB then 1 else 0) ∧
    (scaler = H.YUV_SCALER_BICUB →
      (create_scaler_textures H tbl scaler texu none).events.head? =
        some (Event.extcall .ActiveTexture (tbl .ActiveTexture)
          [(GL_TEXTURE0 : ℚ) + (texu : ℚ)])) := by
  by_cases h1 : scaler = H.YUV_SCALER_BILIN
  · have h2 : ¬ scaler = H.YUV_SCALER_BICUB := by
      rw [h1]
      exact hsc
    simp [create_scaler_textures, h1, hsc]
  · by_cases h2 : scaler = H.YUV_SCALER_BICUB
    · simp only [create_scaler_textures, if_neg h1, if_pos h2,
        gen_spline_lookup_tex_count, true_and]
      intro _
      rfl
    · simp [create_scaler_textures, h1, h2, Event.isLookupTexture,
        List.countP_cons]

theorem create_conv_textures_units (H : YuvH) (tbl : FuncTable) (env : Env)
    (M : Libm) (conv texu : Int)
    (brightness contrast uvcos uvsin rgamma ggamma bgamma : ℚ) :
    ((create_conv_textures H tbl env M conv texu none brightness contrast uvcos
          uvsin rgamma ggamma bgamma).events.countP Event.isLookupTexture = 0 ∧
      (create_conv_textures H tbl env M conv texu none brightness contrast uvcos
          uvsin rgamma ggamma bgamma).texu = texu ∧
      (create_conv_textures H tbl env M conv texu none brightness contrast uvcos
          uvsin rgamma ggamma bgamma).texs = none) ∨
    ((create_conv_textures H tbl env M conv texu none brightness contrast uvcos
          uvsin rgamma ggamma bgamma).events.countP Event.isLookupTexture = 1 ∧
      (create_conv_textures H tbl env M conv texu none brightness contrast uvcos
          uvsin rgamma ggamma bgamma).texu = texu + 1 ∧
      (create_conv_textures H tbl env M conv texu none brightness contrast uvcos
          uvsin rgamma ggamma bgamma).texs = some (texu + 48) ∧
      (create_conv_textures H tbl env M conv texu none brightness contrast uvcos
          uvsin rgamma ggamma bgamma).events.head? =
        some (Event.extcall .ActiveTexture (tbl .ActiveTexture)
          [(GL_TEXTURE0 : ℚ) + (texu : ℚ)])) := by
  by_cases h1 : conv = H.YUV_CONVERSION_FRAGMENT ∨
      conv = H.YUV_CONVERSION_FRAGMENT_POW
  · left
    simp [create_conv_textures, if_pos h1]
  · by_cases h2 : conv = H.YUV_CONVERSION_FRAGMENT_LOOKUP
    · right
      simp only [create_conv_textures, if_neg h1, if_pos h2, List.countP_append,
        glCreateClearTex_count, glUploadTex_count, true_and]
      refine ⟨?_, rfl⟩
      simp [Event.isLookupTexture, List.countP_cons]
    · by_cases h3 : conv = H.YUV_CONVERSION_FRAGMENT_LOOKUP3D
      · by_cases h4 : tbl .TexImage3D = 0
        · left
          simp [create_conv_textures, if_neg h1, if_neg h2, if_pos h3,
            if_pos h4, Event.isLookupTexture, List.countP_cons]
        · right
          simp only [create_conv_textures, if_neg h1, if_neg h2, if_pos h3,
            if_neg h4, true_and]
          refine ⟨?_, rfl⟩
          simp [glAdjustAlignment, Event.isLookupTexture, List.countP_cons]
      · left
        simp [create_conv_textures, if_neg h1, if_neg h2, if_neg h3,
          Event.isLookupTexture, List.countP_cons]

theorem chrom_setup_units (H : YuvH)
    (hsc : H.YUV_SCALER_BILIN ≠ H.YUV_SCALER_BICUB) (tbl : FuncTable)
    (type : Int) :
    (chrom_setup H tbl type).texu =
      (if H.YUV_CHROM_SCALER type = H.YUV_SCALER_BICUB ∧
          H.YUV_CHROM_SCALER type ≠ H.YUV_LUM_SCALER type then
        (lum_setup H tbl type).texu + 1
       else (lum_setup H tbl type).texu) ∧
    (chrom_setup H tbl type).events.countP Event.isLookupTexture =
      (if H.YUV_CHROM_SCALER type = H.YUV_SCALER_BICUB ∧
          H.YUV_CHROM_SCALER type ≠ H.YUV_LUM_SCALER type then 1 else 0) ∧
    (H.YUV_CHROM_SCALER type = H.YUV_SCALER_BICUB ∧
        H.YUV_CHROM_SCALER type ≠ H.YUV_LUM_SCALER type →
      (chrom_setup H tbl type).texs = some ((lum_setup H tbl type).texu + 48) ∧
      (chrom_setup H tbl type).events.head? =
        some (Event.extcall .ActiveTexture (tbl .ActiveTexture)
          [(GL_TEXTURE0 : ℚ) + ((lum_setup H tbl type).texu : ℚ)])) ∧
    (H.YUV_CHROM_SCALER type = H.YUV_LUM_SCALER type →
      (chrom_setup H tbl type).texs = (lum_setup H tbl type).texs ∧
      (chrom_setup H tbl type).events = []) := by
  by_cases heq : H.YUV_CHROM_SCALER type = H.YUV_LUM_SCALER type
  · have hno : ¬ (H.YUV_CHROM_SCALER type = H.YUV_SCALER_BICUB ∧
        H.YUV_CHROM_SCALER type ≠ H.YUV_LUM_SCALER type) := fun h => h.2 heq
    simp only [chrom_setup, if_pos heq, if_neg hno, List.countP_nil, true_and]
    exact ⟨fun h => absurd h hno, fun _ => trivial⟩
  · obtain ⟨h1, h2, h3, h4⟩ := create_scaler_textures_units H hsc tbl
      (H.YUV_CHROM_SCALER type) (lum_setup H tbl type).texu
    have hcs : chrom_setup H tbl type =
        create_scaler_textures H tbl (H.YUV_CHROM_SCALER type)
          (lum_setup H tbl type).texu none := by
      simp only [chrom_setup, if_neg heq]
    rw [hcs]
    refine ⟨by rw [h1]; simp [heq], by rw [h3]; simp [heq],
      fun hb => ⟨by rw [h2]; simp [hb.1], h4 hb.1⟩, fun h => absurd h heq⟩

/-- C17: in `glSetupYUVFragprog`, run with a table whose `ActiveTexture`
entry is not `NULL` (the texture setup calls it unguarded) so that the run
reaches no call through `NULL` and no undefined operation, the lookup
textures get the units 3, 4, ... in the order luminance scaler, chrominance
scaler, conversion (bilinear and bicubic having different codes): the
luminance scaler claims unit 3 iff it is
bicubic, the chrominance scaler claims the next unit iff it is bicubic and
differs from the luminance scaler and reuses the luminance character when
both scalers are equal, the conversion claims the next unit iff it generates
a lookup texture.  The claimed units are consecutive from 3, and the final
counter is 3 plus the number of lookup textures generated, at most 5. -/
theorem fragprog_texture_units (H : YuvH)
    (hsc : H.YUV_SCALER_BILIN ≠ H.YUV_SCALER_BICUB) (tbl : FuncTable)
    (hat : tbl .ActiveTexture ≠ 0) (env : Env) (M : Libm)
    (brightness contrast uvcos uvsin rgamma ggamma bgamma : ℚ) (type : Int)
    (rect : Bool) (texw texh : Int) :
    let L := lum_setup H tbl type
    let C := chrom_setup H tbl type
    let V := conv_setup H tbl env M brightness contrast uvcos uvsin rgamma
      ggamma bgamma type
    let lumClaims := H.YUV_LUM_SCALER type = H.YUV_SCALER_BICUB
    let chromClaims := H.YUV_CHROM_SCALER type = H.YUV_SCALER_BICUB ∧
      H.YUV_CHROM_SCALER type ≠ H.YUV_LUM_SCALER type
    let convClaims := 0 < V.events.countP Event.isLookupTexture
    (∀ e ∈ glSetupYUVFragprog H tbl env M brightness contrast uvcos uvsin
        rgamma ggamma bgamma type rect texw texh, e.isFault = false) ∧
    (∃ rest, glSetupYUVFragprog H tbl env M brightness contrast uvcos uvsin
        rgamma ggamma bgamma type rect texw texh =
      L.events ++ C.events ++ V.events ++ rest) ∧
    (L.texu = if lumClaims then 4 else 3) ∧
    (lumClaims → L.texs = some (3 + 48) ∧
      L.events.head? = some (Event.extcall .ActiveTexture (tbl .ActiveTexture)
        [(GL_TEXTURE0 : ℚ) + 3])) ∧
    (C.texu = if chromClaims then L.texu + 1 else L.texu) ∧
    (chromClaims → C.texs = some (L.texu + 48) ∧
      C.events.head? = some (Event.extcall .ActiveTexture (tbl .ActiveTexture)
        [(GL_TEXTURE0 : ℚ) + (L.texu : ℚ)])) ∧
    (H.YUV_CHROM_SCALER type = H.YUV_LUM_SCALER type → C.texs = L.texs) ∧
    (V.texu = if convClaims then C.texu + 1 else C.texu) ∧
    (convClaims → V.texs = some (C.texu + 48) ∧
      V.events.head? = some (Event.extcall .ActiveTexture (tbl .ActiveTexture)
        [(GL_TEXTURE0 : ℚ) + (C.texu : ℚ)])) ∧
    ((if lumClaims then [3] else []) ++ (if chromClaims then [L.texu] else []) ++
        (if convClaims then [C.texu] else []) =
      (List.range (V.texu - 3).toNat).map (fun i : Nat => (3 : Int) + (i : Int))) ∧
    L.events.countP Event.isLookupTexture ≤ 1 ∧
    C.events.countP Event.isLookupTexture ≤ 1 ∧
    V.events.countP Event.isLookupTexture ≤ 1 ∧
    V.texu = 3 + ((L.events ++ C.events ++ V.events).countP
      Event.isLookupTexture : Int) ∧
    V.texu ≤ 5 := by
  intro L C V lumClaims chromClaims convClaims
  obtain ⟨hL1, hL2, hL3, hL4⟩ := create_scaler_textures_units H hsc tbl
    (H.YUV_LUM_SCALER type) 3
  obtain ⟨hC1, hC2, hC3, hC4⟩ := chrom_setup_units H hsc tbl type
  have hV := create_conv_textures_units H tbl env M (H.YUV_CONVERSION type)
    C.texu brightness contrast uvcos uvsin rgamma ggamma bgamma
  change (lum_setup H tbl type).texu = _ at hL1
  change (lum_setup H tbl type).texs = _ at hL2
  change (lum_setup H tbl type).events.countP _ = _ at hL3
  have hboth : ¬ (lumClaims ∧ chromClaims) := by
    rintro ⟨h1, h2, h3⟩
    exact h3 (h2.trans h1.symm)
  have hV' : (V.events.countP Event.isLookupTexture = 0 ∧ V.texu = C.texu ∧
        V.texs = none) ∨
      (V.events.countP Event.isLookupTexture = 1 ∧ V.texu = C.texu + 1 ∧
        V.texs = some (C.texu + 48) ∧
        V.events.head? = some (Event.extcall .ActiveTexture
          (tbl .ActiveTexture) [(GL_TEXTURE0 : ℚ) + (C.texu : ℚ)])) := hV
  have hLu : L.texu = if lumClaims then 4 else 3 := by
    rw [hL1]
    by_cases h : H.YUV_LUM_SCALER type = H.YUV_SCALER_BICUB
    · simp [lumClaims, h]
    · simp [lumClaims, h]
  have hLn : L.events.countP Event.isLookupTexture =
      if lumClaims then 1 else 0 := hL3
  have hCu : C.texu = if chromClaims then L.texu + 1 else L.texu := hC1
  have hCn : C.events.countP Event.isLookupTexture =
      if chromClaims then 1 else 0 := hC2
  have hVu : V.texu = if convClaims then C.texu + 1 else C.texu := by
    rcases hV' with ⟨v1, v2, _⟩ | ⟨v1, v2, _, _⟩
    · have hcc : ¬ convClaims := by
        show ¬ (0 < _)
        rw [v1]
        exact lt_irrefl 0
      rw [if_neg hcc]
      exact v2
    · have hcc : convClaims := by
        show 0 < _
        rw [v1]
        exact Nat.one_pos
      rw [if_pos hcc]
      exact v2
  have hVn : V.events.countP Event.isLookupTexture =
      if convClaims then 1 else 0 := by
    rcases hV' with ⟨v1, _, _⟩ | ⟨v1, _, _, _⟩
    · have hcc : ¬ convClaims := by
        show ¬ (0 < _)
        rw [v1]
        exact lt_irrefl 0
      rw [if_neg hcc]
      exact v1
    · have hcc : convClaims := by
        show 0 < _
        rw [v1]
        exact Nat.one_pos
      rw [if_pos hcc]
      exact v1
  refine ⟨glSetupYUVFragprog_no_fault H tbl hat env M brightness contrast uvcos
      uvsin rgamma ggamma bgamma type rect texw texh,
    ⟨_, by rw [glSetupYUVFragprog_eq]; simp only [List.append_assoc]; rfl⟩,
    hLu, ?_, hC1, hC3, fun h => (hC4 h).1, hVu, ?_, ?_, ?_, ?_, ?_, ?_, ?_⟩
  · intro h
    have h' : H.YUV_LUM_SCALER type = H.YUV_SCALER_BICUB := h
    refine ⟨by rw [hL2]; simp [h'], ?_⟩
    have := hL4 h'
    simpa using this
  · intro h
    rcases hV' with ⟨v1, _, _⟩ | ⟨_, _, v3, v4⟩
    · have h' : 0 < V.events.countP Event.isLookupTexture := h
      rw [v1] at h'
      exact absurd h' (lt_irrefl 0)
    · exact ⟨v3, v4⟩
  · by_cases hl : lumClaims <;> by_cases hc : chromClaims <;>
      by_cases hv : convClaims
    · exact absurd ⟨hl, hc⟩ hboth
    · exact absurd ⟨hl, hc⟩ hboth
    · rw [if_pos hl] at hLu hLn
      rw [if_neg hc] at hCu hCn
      rw [if_pos hv] at hVu hVn
      rw [hLu] at hCu
      rw [hCu] at hVu
      rw [if_pos hl, if_neg hc, if_pos hv, hVu]
      try rw [hCu]
      try rw [hLu]
      decide
    · rw [if_pos hl] at hLu hLn
      rw [if_neg hc] at hCu hCn
      rw [if_neg hv] at hVu hVn
      rw [hLu] at hCu
      rw [hCu] at hVu
      rw [if_pos hl, if_neg hc, if_neg hv, hVu]
      try rw [hCu]
      try rw [hLu]
      decide
    · rw [if_neg hl] at hLu hLn
      rw [if_pos hc] at hCu hCn
      rw [if_pos hv] at hVu hVn
      rw [hLu] at hCu
      rw [hCu] at hVu
      rw [if_neg hl, if_pos hc, if_pos hv, hVu]
      try rw [hCu]
      try rw [hLu]
      decide
    · rw [if_neg hl] at hLu hLn
      rw [if_pos hc] at hCu hCn
      rw [if_neg hv] at hVu hVn
      rw [hLu] at hCu
      rw [hCu] at hVu
      rw [if_neg hl, if_pos hc, if_neg hv, hVu]
      try rw [hCu]
      try rw [hLu]
      decide
    · rw [if_neg hl] at hLu hLn
      rw [if_neg hc] at hCu hCn
      rw [if_pos hv] at hVu hVn
      rw [hLu] at hCu
      rw [hCu] at hVu
      rw [if_neg hl, if_neg hc, if_pos hv, hVu]
      try rw [hCu]
      try rw [hLu]
      decide
    · rw [if_neg hl] at hLu hLn
      rw [if_neg hc] at hCu hCn
      rw [if_neg hv] at hVu hVn
      rw [hLu] at hCu
      rw [hCu] at hVu
      rw [if_neg hl, if_neg hc, if_neg hv, hVu]
      try rw [hCu]
      try rw [hLu]
      decide
  · rw [hLn]; split_ifs <;> omega
  · rw [hCn]; split_ifs <;> omega
  · rw [hVn]; split_ifs <;> omega
  · rw [List.countP_append, List.countP_append]
    by_cases hl : lumClaims <;> by_cases hc : chromClaims <;>
      by_cases hv : convClaims
    · exact absurd ⟨hl, hc⟩ hboth
    · exact absurd ⟨hl, hc⟩ hboth
    · rw [if_pos hl] at hLu hLn
      rw [if_neg hc] at hCu hCn
      rw [if_pos hv] at hVu hVn
      rw [hLu] at hCu
      rw [hCu] at hVu
      rw [hVu, hLn, hCn, hVn]
      norm_num
    · rw [if_pos hl] at hLu hLn
      rw [if_neg hc] at hCu hCn
      rw [if_neg hv] at hVu hVn
      rw [hLu] at hCu
      rw [hCu] at hVu
      rw [hVu, hLn, hCn, hVn]
      norm_num
    · rw [if_neg hl] at hLu hLn
      rw [if_pos hc] at hCu hCn
      rw [if_pos hv] at hVu hVn
      rw [hLu] at hCu
      rw [hCu] at hVu
      rw [hVu, hLn, hCn, hVn]
      norm_num
    · rw [if_neg hl] at hLu hLn
      rw [if_pos hc] at hCu hCn
      rw [if_neg hv] at hVu hVn
      rw [hLu] at hCu
      rw [hCu] at hVu
      rw [hVu, hLn, hCn, hVn]
      norm_num
    · rw [if_neg hl] at hLu hLn
      rw [if_neg hc] at hCu hCn
      rw [if_pos hv] at hVu hVn
      rw [hLu] at hCu
      rw [hCu] at hVu
      rw [hVu, hLn, hCn, hVn]
      norm_num
    · rw [if_neg hl] at hLu hLn
      rw [if_neg hc] at hCu hCn
      rw [if_neg hv] at hVu hVn
      rw [hLu] at hCu
      rw [hCu] at hVu
      rw [hVu, hLn, hCn, hVn]
      norm_num
  · by_cases hl : lumClaims <;> by_cases hc : chromClaims <;>
      by_cases hv : convClaims
    · exact absurd ⟨hl, hc⟩ hboth
    · exact absurd ⟨hl, hc⟩ hboth
    · rw [if_pos hl] at hLu hLn
      rw [if_neg hc] at hCu hCn
      rw [if_pos hv] at hVu hVn
      rw [hLu] at hCu
      rw [hCu] at hVu
      rw [hVu]
      norm_num
    · rw [if_pos hl] at hLu hLn
      rw [if_neg hc] at hCu hCn
      rw [if_neg hv] at hVu hVn
      rw [hLu] at hCu
      rw [hCu] at hVu
      rw [hVu]
      norm_num
    · rw [if_neg hl] at hLu hLn
      rw [if_pos hc] at hCu hCn
      rw [if_pos hv] at hVu hVn
      rw [hLu] at hCu
      rw [hCu] at hVu
      rw [hVu]
      norm_num
    · rw [if_neg hl] at hLu hLn
      rw [if_pos hc] at hCu hCn
      rw [if_neg hv] at hVu hVn
      rw [hLu] at hCu
      rw [hCu] at hVu
      rw [hVu]
      norm_num
    · rw [if_neg hl] at hLu hLn
      rw [if_neg hc] at hCu hCn
      rw [if_pos hv] at hVu hVn
      rw [hLu] at hCu
      rw [hCu] at hVu
      rw [hVu]
      norm_num
    · rw [if_neg hl] at hLu hLn
      rw [if_neg hc] at hCu hCn
      rw [if_neg hv] at hVu hVn
      rw [hLu] at hCu
      rw [hCu] at hVu
      rw [hVu]
      norm_num

/-! ## Program-based setup without extra texture units -/

theorem loadGPUProgram_events (tbl : FuncTable) (env : Env) (target : Nat)
    (prog : List ProgPart) (hP : tbl .ProgramString ≠ 0) :
    (∀ e ∈ (loadGPUProgram tbl env target prog).1, e.entryPtr ≠ some 0) ∧
    (loadGPUProgram tbl env target prog).1.filter Event.isProgramString =
      [Event.ProgramString (tbl .ProgramString) target GL_PROGRAM_FORMAT_ASCII
        prog] := by
  unfold loadGPUProgram
  rw [if_neg hP]
  by_cases he : env.errorPosition prog = -1
  · by_cases hg : tbl .GetProgramiv = 0 ∨ env.mp_msg_test MSGL_V = false
    · simp [he, hg, Event.entryPtr, Event.isProgramString, hP]
    · have hg0 : tbl .GetProgramiv ≠ 0 := fun h => hg (Or.inl h)
      simp only [he, ne_eq, not_true_eq_false, if_false, if_neg hg]
      constructor
      · intro e hmem
        simp only [List.mem_append, List.mem_cons, List.mem_singleton,
          List.not_mem_nil, or_false, List.mem_flatten, List.mem_map] at hmem
        rcases hmem with ((rfl | rfl) | rfl) | ⟨l, ⟨s, _, rfl⟩, hl⟩
        · simpa [Event.entryPtr] using hP
        · simp [Event.entryPtr]
        · simp [Event.entryPtr]
        · simp only [List.mem_cons, List.mem_singleton, List.not_mem_nil,
            or_false] at hl
          rcases hl with rfl | rfl | rfl
          · simpa [Event.entryPtr] using hg0
          · simpa [Event.entryPtr] using hg0
          · simp [Event.entryPtr]
      · simp only [List.filter_append, List.filter_cons, Event.isProgramString,
          List.filter_nil, if_true, Bool.false_eq_true, if_false,
          List.append_nil, List.cons_append, List.nil_append]
        have : (progstats.map (fun s =>
            [Event.extcall .GetProgramiv (tbl .GetProgramiv)
               [(target : ℚ), (s.1 : ℚ)],
             Event.extcall .GetProgramiv (tbl .GetProgramiv)
               [(target : ℚ), (s.2 : ℚ)],
             Event.mp_msg MSGL_V "[gl]   %s: %i/%i\n"])).flatten.filter
              Event.isProgramString = [] := by
          rw [List.filter_eq_nil_iff]
          intro e hmem
          simp only [List.mem_flatten, List.mem_map] at hmem
          obtain ⟨l, ⟨s, _, rfl⟩, hl⟩ := hmem
          simp only [List.mem_cons, List.mem_singleton, List.not_mem_nil,
            or_false] at hl
          rcases hl with rfl | rfl | rfl <;> simp [Event.isProgramString]
        rw [this]
  · simp [he, Event.entryPtr, Event.isProgramString, hP]

theorem lum_setup_bilin (H : YuvH) (tbl : FuncTable) (type : Int)
    (hlum : H.YUV_LUM_SCALER type = H.YUV_SCALER_BILIN) :
    lum_setup H tbl type = ⟨[], 3, none⟩ := by
  simp only [lum_setup, create_scaler_textures, if_pos hlum]

theorem chrom_setup_bilin (H : YuvH) (tbl : FuncTable) (type : Int)
    (hlum : H.YUV_LUM_SCALER type = H.YUV_SCALER_BILIN)
    (hchrom : H.YUV_CHROM_SCALER type = H.YUV_SCALER_BILIN) :
    chrom_setup H tbl type = ⟨[], 3, none⟩ := by
  simp only [chrom_setup, lum_setup_bilin H tbl type hlum, hchrom, hlum,
    if_true]

theorem conv_setup_direct (H : YuvH) (tbl : FuncTable) (env : Env) (M : Libm)
    (brightness contrast uvcos uvsin rgamma ggamma bgamma : ℚ) (type : Int)
    (hconv : H.YUV_CONVERSION type = H.YUV_CONVERSION_FRAGMENT ∨
      H.YUV_CONVERSION type = H.YUV_CONVERSION_FRAGMENT_POW) :
    conv_setup H tbl env M brightness contrast uvcos uvsin rgamma ggamma bgamma
      type = ⟨[], (chrom_setup H tbl type).texu, none⟩ := by
  simp only [conv_setup, create_conv_textures, if_pos hconv]

theorem conv_prog_direct (H : YuvH) (conv : Int) (m : YuvMatrix)
    (rgamma bgamma : ℚ) (texs : Option Int)
    (hconv : conv = H.YUV_CONVERSION_FRAGMENT ∨
      conv = H.YUV_CONVERSION_FRAGMENT_POW) :
    (conv_prog H conv m rgamma bgamma texs).2 = [] ∧
    ((conv_prog H conv m rgamma bgamma texs).1 =
        [ProgPart.yuv_prog [m.ry, m.gy, m.by_] [m.ru, m.gu, m.bu]
          [m.rv, m.gv, m.bv] [m.rc, m.gc, m.bc]] ∨
      (conv_prog H conv m rgamma bgamma texs).1 =
        [ProgPart.yuv_pow_prog [m.ry, m.gy, m.by_] [m.ru, m.gu, m.bu]
          [m.rv, m.gv, m.bv] [m.rc, m.gc, m.bc]
          [1.0 / rgamma, 1.0 / bgamma, 1.0 / bgamma]]) := by
  by_cases h1 : conv = H.YUV_CONVERSION_FRAGMENT
  · simp [conv_prog, if_pos h1]
  · have h2 : conv = H.YUV_CONVERSION_FRAGMENT_POW := hconv.resolve_left h1
    simp [conv_prog, if_neg h1, if_pos h2]

theorem glSetupYUVConversion_fragprog (H : YuvH) (hH : H.WellFormed)
    (tbl : FuncTable) (env : Env) (M : Libm) (target : Nat) (type : Int)
    (brightness contrast hue saturation rgamma ggamma bgamma : ℚ)
    (texw texh : Int)
    (hconv : H.YUV_CONVERSION type = H.YUV_CONVERSION_FRAGMENT_LOOKUP ∨
      H.YUV_CONVERSION type = H.YUV_CONVERSION_FRAGMENT_LOOKUP3D ∨
      H.YUV_CONVERSION type = H.YUV_CONVERSION_FRAGMENT ∨
      H.YUV_CONVERSION type = H.YUV_CONVERSION_FRAGMENT_POW) :
    glSetupYUVConversion H tbl env M target type brightness contrast hue
        saturation rgamma ggamma bgamma texw texh =
      glSetupYUVFragprog H tbl env M brightness contrast
        (uvcos M hue saturation) (uvsin M hue saturation) rgamma ggamma bgamma
        type (target = GL_TEXTURE_RECTANGLE) texw texh := by
  have hd := hH.conversions
  simp only [List.nodup_cons, List.mem_cons, List.mem_singleton, not_or,
    List.not_mem_nil, not_false_eq_true, List.nodup_nil, and_true] at hd
  obtain ⟨⟨a1, a2, a3, a4, a5⟩, ⟨b2, b3, b4, b5⟩, _⟩ := hd
  have h1 : ¬ H.YUV_CONVERSION type = H.YUV_CONVERSION_COMBINERS := by
    rcases hconv with h | h | h | h <;> rw [h]
    · exact fun e => a2 e.symm
    · exact fun e => a3 e.symm
    · exact fun e => a4 e.symm
    · exact fun e => a5 e.symm
  have h2 : ¬ H.YUV_CONVERSION type = H.YUV_CONVERSION_COMBINERS_ATI := by
    rcases hconv with h | h | h | h <;> rw [h]
    · exact fun e => b2 e.symm
    · exact fun e => b3 e.symm
    · exact fun e => b4 e.symm
    · exact fun e => b5 e.symm
  simp only [glSetupYUVConversion, if_neg h1, if_neg h2, if_pos hconv]

theorem loadGPUProgram_success (tbl : FuncTable) (env : Env) (target : Nat)
    (prog : List ProgPart) (hP : tbl .ProgramString ≠ 0)
    (he : env.errorPosition prog = -1) :
    (loadGPUProgram tbl env target prog).2 = 1 ∧
    (loadGPUProgram tbl env target prog).1.countP Event.isError = 0 := by
  unfold loadGPUProgram
  rw [if_neg hP]
  by_cases hg : tbl .GetProgramiv = 0 ∨ env.mp_msg_test MSGL_V = false
  · simp [he, hg, Event.isError, List.countP_cons]
  · simp only [he, ne_eq, not_true_eq_false, if_false, if_neg hg, true_and]
    rw [List.countP_eq_zero]
    intro e hmem
    simp only [List.mem_append, List.mem_cons, List.mem_singleton,
      List.not_mem_nil, or_false, List.mem_flatten, List.mem_map] at hmem
    rcases hmem with ((rfl | rfl) | rfl) | ⟨l, ⟨s, _, rfl⟩, hl⟩
    · simp [Event.isError]
    · simp [Event.isError]
    · simp [Event.isError, MSGL_V, MSGL_ERR]
    · simp only [List.mem_cons, List.mem_singleton, List.not_mem_nil,
        or_false] at hl
      rcases hl with rfl | rfl | rfl <;> simp [Event.isError, MSGL_V, MSGL_ERR]

theorem loadGPUProgram_no_lookup (tbl : FuncTable) (env : Env) (target : Nat)
    (prog : List ProgPart) :
    (loadGPUProgram tbl env target prog).1.countP Event.isLookupTexture = 0 := by
  rw [List.countP_eq_zero]
  intro e hmem
  unfold loadGPUProgram at hmem
  by_cases hP : tbl .ProgramString = 0
  · simp only [if_pos hP, List.mem_singleton] at hmem
    subst hmem
    simp [Event.isLookupTexture]
  · rw [if_neg hP] at hmem
    by_cases he : env.errorPosition prog = -1
    · by_cases hg : tbl .GetProgramiv = 0 ∨ env.mp_msg_test MSGL_V = false
      · simp only [he, ne_eq, not_true_eq_false, if_false, if_pos hg,
          List.mem_cons, List.mem_singleton, List.not_mem_nil, or_false] at hmem
        rcases hmem with rfl | rfl <;> simp [Event.isLookupTexture]
      · simp only [he, ne_eq, not_true_eq_false, if_false, if_neg hg,
          List.mem_append, List.mem_cons, List.mem_singleton, List.not_mem_nil,
          or_false, List.mem_flatten, List.mem_map] at hmem
        rcases hmem with ((rfl | rfl) | rfl) | ⟨l, ⟨s, _, rfl⟩, hl⟩
        · simp [Event.isLookupTexture]
        · simp [Event.isLookupTexture]
        · simp [Event.isLookupTexture]
        · simp only [List.mem_cons, List.mem_singleton, List.not_mem_nil,
            or_false] at hl
          rcases hl with rfl | rfl | rfl <;> simp [Event.isLookupTexture]
    · simp only [ne_eq, he, not_false_eq_true, if_true, List.mem_append,
        List.mem_cons, List.mem_singleton, List.not_mem_nil, or_false] at hmem
      rcases hmem with (rfl | rfl) | (rfl | rfl) <;> simp [Event.isLookupTexture]

theorem fragprog_text_bilinear_direct (H : YuvH) (tbl : FuncTable) (env : Env)
    (M : Libm) (brightness contrast uvcos uvsin rgamma ggamma bgamma : ℚ)
    (type : Int) (rect : Bool) (texw texh : Int)
    (hlum : H.YUV_LUM_SCALER type = H.YUV_SCALER_BILIN)
    (hchrom : H.YUV_CHROM_SCALER type = H.YUV_SCALER_BILIN) :
    fragprog_text H tbl env M brightness contrast uvcos uvsin rgamma ggamma
        bgamma type rect texw texh =
      [ProgPart.preamble, ProgPart.bilin_filt 'r' '0' rect,
        ProgPart.bilin_filt 'g' '1' rect, ProgPart.bilin_filt 'b' '2' rect] ++
      (conv_prog H (H.YUV_CONVERSION type)
        (yuvMatrix brightness contrast uvcos uvsin) rgamma bgamma
        (conv_setup H tbl env M brightness contrast uvcos uvsin rgamma ggamma
          bgamma type).texs).1 := by
  simp only [fragprog_text, add_scaler, if_pos hlum, if_pos hchrom,
    List.cons_append, List.nil_append]

/-- C15: with a function table whose `ProgramString` entry is not `NULL`
(every other entry may be `NULL`), `glSetupYUVConversion` for a program-based
method without extra texture unit (bilinear luminance and chrominance
scalers, direct or pow conversion) calls no `NULL` table entry, generates no
lookup texture, and submits exactly one program through `ProgramString`: the
assembled text of the preamble, three bilinear fetches and the conversion.
When the driver reports error position -1 for it, `loadGPUProgram` returns 1
and, the driver having at least 3 texture units, no error is logged. -/
theorem glSetupYUVConversion_direct_bilinear (H : YuvH) (hH : H.WellFormed)
    (tbl : FuncTable) (hP : tbl .ProgramString ≠ 0) (env : Env) (M : Libm)
    (target : Nat) (type : Int)
    (brightness contrast hue saturation rgamma ggamma bgamma : ℚ)
    (texw texh : Int)
    (hlum : H.YUV_LUM_SCALER type = H.YUV_SCALER_BILIN)
    (hchrom : H.YUV_CHROM_SCALER type = H.YUV_SCALER_BILIN)
    (hconv : H.YUV_CONVERSION type = H.YUV_CONVERSION_FRAGMENT ∨
      H.YUV_CONVERSION type = H.YUV_CONVERSION_FRAGMENT_POW) :
    (∀ e ∈ glSetupYUVConversion H tbl env M target type brightness contrast hue
        saturation rgamma ggamma bgamma texw texh, e.entryPtr ≠ some 0) ∧
    (glSetupYUVConversion H tbl env M target type brightness contrast hue
        saturation rgamma ggamma bgamma texw texh).filter
        Event.isProgramString =
      [Event.ProgramString (tbl .ProgramString) GL_FRAGMENT_PROGRAM
        GL_PROGRAM_FORMAT_ASCII
        (fragprog_text H tbl env M brightness contrast (uvcos M hue saturation)
          (uvsin M hue saturation) rgamma ggamma bgamma type
          (target = GL_TEXTURE_RECTANGLE) texw texh)] ∧
    (glSetupYUVConversion H tbl env M target type brightness contrast hue
        saturation rgamma ggamma bgamma texw texh).countP
        Event.isLookupTexture = 0 ∧
    (fragprog_text H tbl env M brightness contrast (uvcos M hue saturation)
        (uvsin M hue saturation) rgamma ggamma bgamma type
        (target = GL_TEXTURE_RECTANGLE) texw texh).take 4 =
      [ProgPart.preamble,
        ProgPart.bilin_filt 'r' '0' (target = GL_TEXTURE_RECTANGLE),
        ProgPart.bilin_filt 'g' '1' (target = GL_TEXTURE_RECTANGLE),
        ProgPart.bilin_filt 'b' '2' (target = GL_TEXTURE_RECTANGLE)] ∧
    (fragprog_text H tbl env M brightness contrast (uvcos M hue saturation)
        (uvsin M hue saturation) rgamma ggamma bgamma type
        (target = GL_TEXTURE_RECTANGLE) texw texh).length = 5 ∧
    (env.errorPosition
        (fragprog_text H tbl env M brightness contrast (uvcos M hue saturation)
          (uvsin M hue saturation) rgamma ggamma bgamma type
          (target = GL_TEXTURE_RECTANGLE) texw texh) = -1 →
      (loadGPUProgram tbl env GL_FRAGMENT_PROGRAM
        (fragprog_text H tbl env M brightness contrast (uvcos M hue saturation)
          (uvsin M hue saturation) rgamma ggamma bgamma type
          (target = GL_TEXTURE_RECTANGLE) texw texh)).2 = 1 ∧
      (3 ≤ env.getIntegerv GL_MAX_TEXTURE_UNITS →
        (glSetupYUVConversion H tbl env M target type brightness contrast hue
          saturation rgamma ggamma bgamma texw texh).countP
          Event.isError = 0)) := by
  have hconv4 : H.YUV_CONVERSION type = H.YUV_CONVERSION_FRAGMENT_LOOKUP ∨
      H.YUV_CONVERSION type = H.YUV_CONVERSION_FRAGMENT_LOOKUP3D ∨
      H.YUV_CONVERSION type = H.YUV_CONVERSION_FRAGMENT ∨
      H.YUV_CONVERSION type = H.YUV_CONVERSION_FRAGMENT_POW := by
    rcases hconv with h | h
    · exact Or.inr (Or.inr (Or.inl h))
    · exact Or.inr (Or.inr (Or.inr h))
  have hcs := conv_setup_direct H tbl env M brightness contrast
    (uvcos M hue saturation) (uvsin M hue saturation) rgamma ggamma bgamma type
    hconv
  rw [chrom_setup_bilin H tbl type hlum hchrom] at hcs
  have hcp := conv_prog_direct H (H.YUV_CONVERSION type)
    (yuvMatrix brightness contrast (uvcos M hue saturation)
      (uvsin M hue saturation)) rgamma bgamma none hconv
  have hevs : glSetupYUVConversion H tbl env M target type brightness contrast
      hue saturation rgamma ggamma bgamma texw texh =
      [Event.glGetIntegerv GL_MAX_TEXTURE_UNITS] ++
        (if env.getIntegerv GL_MAX_TEXTURE_UNITS < 3 then
          [Event.mp_msg MSGL_ERR
            "[gl] %i texture units needed for this type of YUV fragment support (found %i)\n"]
         else []) ++
        [Event.mp_msg MSGL_V "[gl] generated fragment program:\n%s\n"] ++
        (loadGPUProgram tbl env GL_FRAGMENT_PROGRAM
          (fragprog_text H tbl env M brightness contrast
            (uvcos M hue saturation) (uvsin M hue saturation) rgamma ggamma
            bgamma type (target = GL_TEXTURE_RECTANGLE) texw texh)).1 := by
    rw [glSetupYUVConversion_fragprog H hH _ _ _ _ _ _ _ _ _ _ _ _ _ _ hconv4,
      glSetupYUVFragprog_eq, lum_setup_bilin H tbl type hlum,
      chrom_setup_bilin H tbl type hlum hchrom, hcs, if_neg hP, hcp.1]
    simp only [List.nil_append, List.append_assoc]
  have hload := loadGPUProgram_events tbl env GL_FRAGMENT_PROGRAM
    (fragprog_text H tbl env M brightness contrast (uvcos M hue saturation)
      (uvsin M hue saturation) rgamma ggamma bgamma type
      (target = GL_TEXTURE_RECTANGLE) texw texh) hP
  have htext := fragprog_text_bilinear_direct H tbl env M brightness contrast
    (uvcos M hue saturation) (uvsin M hue saturation) rgamma ggamma bgamma type
    (target = GL_TEXTURE_RECTANGLE) texw texh hlum hchrom
  rw [hcs] at htext
  refine ⟨?_, ?_, ?_, ?_, ?_, ?_⟩
  · intro e hmem
    rw [hevs] at hmem
    simp only [List.mem_append, List.mem_singleton] at hmem
    rcases hmem with ((rfl | hmem) | rfl) | hmem
    · simp [Event.entryPtr]
    · split_ifs at hmem
      · simp only [List.mem_singleton] at hmem
        subst hmem
        simp [Event.entryPtr]
      · simp at hmem
    · simp [Event.entryPtr]
    · exact hload.1 e hmem
  · rw [hevs]
    simp only [List.filter_append, hload.2]
    split_ifs <;> simp [Event.isProgramString]
  · rw [hevs]
    simp only [List.countP_append, loadGPUProgram_no_lookup]
    split_ifs <;> simp [Event.isLookupTexture, List.countP_cons]
  · rw [htext]
    rfl
  · rw [htext]
    rcases hcp.2 with h | h <;> rw [h] <;> rfl
  · intro he
    have hs := loadGPUProgram_success tbl env GL_FRAGMENT_PROGRAM _ hP he
    refine ⟨hs.1, ?_⟩
    intro hunits
    have hno : ¬ env.getIntegerv GL_MAX_TEXTURE_UNITS < 3 := not_lt.mpr hunits
    rw [hevs, if_neg hno]
    simp only [List.countP_append, hs.2]
    simp [Event.isError, List.countP_cons, MSGL_V, MSGL_ERR]

/-! ## Missing capabilities of the program-based methods -/

theorem gen_spline_lookup_tex_no_program (tbl : FuncTable) (unit : ℚ) :
    (gen_spline_lookup_tex tbl unit).filter Event.isProgramString = [] := by
  simp [gen_spline_lookup_tex, Event.isProgramString]

theorem create_scaler_textures_no_program (H : YuvH) (tbl : FuncTable)
    (scaler texu : Int) (texs : Option Int) :
    (create_scaler_textures H tbl scaler texu texs).events.filter
      Event.isProgramString = [] := by
  unfold create_scaler_textures
  split_ifs
  · rfl
  · exact gen_spline_lookup_tex_no_program tbl _
  · rfl

theorem chrom_setup_no_program (H : YuvH) (tbl : FuncTable) (type : Int) :
    (chrom_setup H tbl type).events.filter Event.isProgramString = [] := by
  unfold chrom_setup
  split_ifs
  · rfl
  · exact create_scaler_textures_no_program H tbl _ _ _

theorem glUploadTex_no_program (target format type : Nat)
    (data stride x y w h slice : Int) :
    (glUploadTex target format type data stride x y w h slice).filter
      Event.isProgramString = [] := by
  rw [List.filter_eq_nil_iff]
  intro e he
  simp [(glUploadTex_not_lookup _ _ _ _ _ _ _ _ _ _ e he).2.1]

theorem create_conv_textures_no_program (H : YuvH) (tbl : FuncTable)
    (env : Env) (M : Libm) (conv texu : Int) (texs : Option Int)
    (brightness contrast uvcos uvsin rgamma ggamma bgamma : ℚ) :
    (create_conv_textures H tbl env M conv texu texs brightness contrast uvcos
      uvsin rgamma ggamma bgamma).events.filter Event.isProgramString = [] := by
  unfold create_conv_textures
  split_ifs
  · rfl
  · simp only [List.filter_append, glUploadTex_no_program]
    simp [glCreateClearTex, glAdjustAlignment, Event.isProgramString]
  · rfl
  · simp [glAdjustAlignment, Event.isProgramString]
  · rfl

/-- C11 (counterexample): without `ProgramString` and with a bicubic
luminance scaler (type `2 + 256`), `glSetupYUVFragprog` claims unit 3 and
generates the spline lookup texture before it finds the function missing;
without `TexImage3D` and with the 3D-lookup method (type 6) it still submits
a program, whose texture character was never written.  `ActiveTexture` is
present in both tables and neither run reaches a call through `NULL`. -/
theorem glSetupYUVFragprog_attempts_without_capability :
    (∀ e ∈ glSetupYUVFragprog mplayerYuvH (stubTable [.ActiveTexture]) plainEnv
        ratLibm 0 1 1 0 1 1 1 (2 + 256) false 640 480, e.isFault = false) ∧
    (∀ e ∈ glSetupYUVFragprog mplayerYuvH
        (stubTable [.ActiveTexture, .ProgramString]) plainEnv ratLibm
        0 1 1 0 1 1 1 6 false 640 480, e.isFault = false) ∧
    stubTable [.ActiveTexture] .ProgramString = 0 ∧
    (lum_setup mplayerYuvH (stubTable [.ActiveTexture]) (2 + 256)).texu = 4 ∧
    (glSetupYUVFragprog mplayerYuvH (stubTable [.ActiveTexture]) plainEnv
        ratLibm 0 1 1 0 1 1 1 (2 + 256) false 640 480).countP
      Event.isLookupTexture = 1 ∧
    stubTable [.ActiveTexture, .ProgramString] .TexImage3D = 0 ∧
    (glSetupYUVFragprog mplayerYuvH
        (stubTable [.ActiveTexture, .ProgramString]) plainEnv ratLibm
        0 1 1 0 1 1 1 6 false 640 480).filterMap Event.program? =
      [[ProgPart.preamble, ProgPart.bilin_filt 'r' '0' false,
        ProgPart.bilin_filt 'g' '1' false, ProgPart.bilin_filt 'b' '2' false,
        ProgPart.yuv_lookup3d_prog none]] := by
  decide

/-- C11 (amended): with a table whose `ActiveTexture` entry is not `NULL`
(the texture setup calls it unguarded) the run of `glSetupYUVFragprog`
reaches no call through `NULL` and no undefined operation.  When
`ProgramString` is absent, it then submits no program to the GPU, for every
type, and ends with the fatal message; with bilinear scalers and the direct
or pow conversion it also claims no texture unit and generates no lookup
texture.  When `TexImage3D` is absent and the method is the 3D lookup (the
method codes being distinct), the conversion step only logs an error: it
claims no texture unit and generates no lookup texture. -/
theorem glSetupYUVFragprog_missing_capability (H : YuvH) (tbl : FuncTable)
    (hat : tbl .ActiveTexture ≠ 0) (env : Env) (M : Libm)
    (brightness contrast uvcos uvsin rgamma ggamma bgamma : ℚ) (type : Int)
    (rect : Bool) (texw texh : Int) :
    (∀ e ∈ glSetupYUVFragprog H tbl env M brightness contrast uvcos uvsin
        rgamma ggamma bgamma type rect texw texh, e.isFault = false) ∧
    (tbl .ProgramString = 0 →
      (glSetupYUVFragprog H tbl env M brightness contrast uvcos uvsin rgamma
          ggamma bgamma type rect texw texh).filter Event.isProgramString = [] ∧
      (glSetupYUVFragprog H tbl env M brightness contrast uvcos uvsin rgamma
          ggamma bgamma type rect texw texh).getLast? =
        some (Event.mp_msg MSGL_FATAL "[gl] ProgramString function missing!\n")) ∧
    (tbl .ProgramString = 0 →
      H.YUV_LUM_SCALER type = H.YUV_SCALER_BILIN →
      H.YUV_CHROM_SCALER type = H.YUV_SCALER_BILIN →
      (H.YUV_CONVERSION type = H.YUV_CONVERSION_FRAGMENT ∨
        H.YUV_CONVERSION type = H.YUV_CONVERSION_FRAGMENT_POW) →
      (conv_setup H tbl env M brightness contrast uvcos uvsin rgamma ggamma
          bgamma type).texu = 3 ∧
      (glSetupYUVFragprog H tbl env M brightness contrast uvcos uvsin rgamma
          ggamma bgamma type rect texw texh).countP Event.isLookupTexture = 0) ∧
    (H.WellFormed → tbl .TexImage3D = 0 →
      H.YUV_CONVERSION type = H.YUV_CONVERSION_FRAGMENT_LOOKUP3D →
      conv_setup H tbl env M brightness contrast uvcos uvsin rgamma ggamma
          bgamma type =
        ⟨[Event.mp_msg MSGL_ERR "[gl] Missing 3D texture function!\n"],
         (chrom_setup H tbl type).texu, none⟩) := by
  refine ⟨glSetupYUVFragprog_no_fault H tbl hat env M brightness contrast uvcos
    uvsin rgamma ggamma bgamma type rect texw texh, ?_, ?_, ?_⟩
  · intro hp
    rw [glSetupYUVFragprog_eq, if_pos hp]
    constructor
    · simp only [List.filter_append, lum_setup,
        create_scaler_textures_no_program, chrom_setup_no_program, conv_setup,
        create_conv_textures_no_program, List.nil_append]
      split_ifs <;> simp [Event.isProgramString]
    · rw [List.getLast?_append]
      rfl
  · intro hp hlum hchrom hconv
    have hcs := conv_setup_direct H tbl env M brightness contrast uvcos uvsin
      rgamma ggamma bgamma type hconv
    rw [chrom_setup_bilin H tbl type hlum hchrom] at hcs
    rw [glSetupYUVFragprog_eq, if_pos hp, lum_setup_bilin H tbl type hlum,
      chrom_setup_bilin H tbl type hlum hchrom, hcs]
    refine ⟨rfl, ?_⟩
    simp only [List.nil_append, List.countP_append]
    split_ifs <;> simp [Event.isLookupTexture, List.countP_cons]
  · intro hH h3d hconv
    have hd := hH.conversions
    simp only [List.nodup_cons, List.mem_cons, List.mem_singleton, not_or,
      List.not_mem_nil, not_false_eq_true, List.nodup_nil, and_true] at hd
    obtain ⟨_, _, ⟨c1, _, _⟩, ⟨d1, d2⟩, _⟩ := hd
    have h1 : ¬ (H.YUV_CONVERSION type = H.YUV_CONVERSION_FRAGMENT ∨
        H.YUV_CONVERSION type = H.YUV_CONVERSION_FRAGMENT_POW) := by
      rw [hconv]
      rintro (h | h)
      · exact d1 h
      · exact d2 h
    have h2 : ¬ H.YUV_CONVERSION type = H.YUV_CONVERSION_FRAGMENT_LOOKUP := by
      rw [hconv]
      exact fun h => c1 h.symm
    simp only [conv_setup, create_conv_textures, if_neg h1, if_neg h2,
      if_pos hconv, if_pos h3d]

/-- The theorem `glSetupYUVFragprog_missing_capability` applies to the
MPlayer type codes and a table with `ActiveTexture` only: the direct
bilinear type 2, the type `2 + 256` with a bicubic luminance scaler, and the
3D-lookup type 6. -/
theorem glSetupYUVFragprog_missing_capability_witness :
    stubTable [.ActiveTexture] .ActiveTexture ≠ 0 ∧
    stubTable [.ActiveTexture] .ProgramString = 0 ∧
    stubTable [.ActiveTexture] .TexImage3D = 0 ∧
    (∀ e ∈ glSetupYUVFragprog mplayerYuvH (stubTable [.ActiveTexture]) plainEnv
        ratLibm 0 1 1 0 1 1 1 (2 + 256) false 640 480, e.isFault = false) ∧
    (glSetupYUVFragprog mplayerYuvH (stubTable [.ActiveTexture]) plainEnv
        ratLibm 0 1 1 0 1 1 1 (2 + 256) false 640 480).getLast? =
      some (Event.mp_msg MSGL_FATAL "[gl] ProgramString function missing!\n") ∧
    (glSetupYUVFragprog mplayerYuvH (stubTable [.ActiveTexture]) plainEnv
        ratLibm 0 1 1 0 1 1 1 2 false 640 480).filter Event.isProgramString =
      [] ∧
    (glSetupYUVFragprog mplayerYuvH (stubTable [.ActiveTexture]) plainEnv
        ratLibm 0 1 1 0 1 1 1 2 false 640 480).countP Event.isLookupTexture =
      0 ∧
    conv_setup mplayerYuvH (stubTable [.ActiveTexture]) plainEnv ratLibm
        0 1 1 0 1 1 1 6 =
      ⟨[Event.mp_msg MSGL_ERR "[gl] Missing 3D texture function!\n"],
       (chrom_setup mplayerYuvH (stubTable [.ActiveTexture]) 6).texu, none⟩ :=
  ⟨by decide, by decide, by decide,
   (glSetupYUVFragprog_missing_capability mplayerYuvH
      (stubTable [.ActiveTexture]) (by decide) plainEnv ratLibm
      0 1 1 0 1 1 1 (2 + 256) false 640 480).1,
   ((glSetupYUVFragprog_missing_capability mplayerYuvH
      (stubTable [.ActiveTexture]) (by decide) plainEnv ratLibm
      0 1 1 0 1 1 1 (2 + 256) false 640 480).2.1 (by decide)).2,
   ((glSetupYUVFragprog_missing_capability mplayerYuvH
      (stubTable [.ActiveTexture]) (by decide) plainEnv ratLibm
      0 1 1 0 1 1 1 2 false 640 480).2.1 (by decide)).1,
   ((glSetupYUVFragprog_missing_capability mplayerYuvH
      (stubTable [.ActiveTexture]) (by decide) plainEnv ratLibm
      0 1 1 0 1 1 1 2 false 640 480).2.2.1 (by decide) (by decide)
      (by decide) (by decide)).2,
   (glSetupYUVFragprog_missing_capability mplayerYuvH
      (stubTable [.ActiveTexture]) (by decide) plainEnv ratLibm
      0 1 1 0 1 1 1 6 false 640 480).2.2.2 ⟨by decide, by decide⟩
      (by decide) (by decide)⟩

/-! ## Unknown scaler and conversion values -/

/-- C16 (counterexample): with `ProgramString` present and the type
`2 + 2 * 256` (direct conversion, luminance scaler 2, which is no scaler
code) an error is logged and a program is submitted nevertheless; with the
combiner functions present and the type `1 + 2 * 256` (combiners, the same
unknown scaler) no error is logged at all.  Neither run reaches a call
through `NULL`. -/
theorem glSetupYUVConversion_unknown_scaler_submits :
    (∀ e ∈ glSetupYUVConversion mplayerYuvH (stubTable [.ProgramString])
        plainEnv ratLibm GL_TEXTURE_2D (2 + 2 * 256) 0 1 0 1 1 1 1 640 480,
      e.isFault = false) ∧
    (∀ e ∈ glSetupYUVConversion mplayerYuvH
        (stubTable [.CombinerInput, .CombinerOutput, .CombinerParameterfv,
          .CombinerParameteri]) plainEnv ratLibm GL_TEXTURE_2D (1 + 2 * 256)
        0 1 0 1 1 1 1 640 480, e.isFault = false) ∧
    mplayerYuvH.YUV_LUM_SCALER (2 + 2 * 256) ≠ mplayerYuvH.YUV_SCALER_BILIN ∧
    mplayerYuvH.YUV_LUM_SCALER (2 + 2 * 256) ≠ mplayerYuvH.YUV_SCALER_BICUB ∧
    (glSetupYUVConversion mplayerYuvH (stubTable [.ProgramString]) plainEnv
        ratLibm GL_TEXTURE_2D (2 + 2 * 256) 0 1 0 1 1 1 1 640 480).filterMap
        Event.program? =
      [[ProgPart.preamble, ProgPart.bilin_filt 'g' '1' false,
        ProgPart.bilin_filt 'b' '2' false,
        ProgPart.yuv_prog
          [(yuvMatrix 0 1 (uvcos ratLibm 0 1) (uvsin ratLibm 0 1)).ry,
           (yuvMatrix 0 1 (uvcos ratLibm 0 1) (uvsin ratLibm 0 1)).gy,
           (yuvMatrix 0 1 (uvcos ratLibm 0 1) (uvsin ratLibm 0 1)).by_]
          [(yuvMatrix 0 1 (uvcos ratLibm 0 1) (uvsin ratLibm 0 1)).ru,
           (yuvMatrix 0 1 (uvcos ratLibm 0 1) (uvsin ratLibm 0 1)).gu,
           (yuvMatrix 0 1 (uvcos ratLibm 0 1) (uvsin ratLibm 0 1)).bu]
          [(yuvMatrix 0 1 (uvcos ratLibm 0 1) (uvsin ratLibm 0 1)).rv,
           (yuvMatrix 0 1 (uvcos ratLibm 0 1) (uvsin ratLibm 0 1)).gv,
           (yuvMatrix 0 1 (uvcos ratLibm 0 1) (uvsin ratLibm 0 1)).bv]
          [(yuvMatrix 0 1 (uvcos ratLibm 0 1) (uvsin ratLibm 0 1)).rc,
           (yuvMatrix 0 1 (uvcos ratLibm 0 1) (uvsin ratLibm 0 1)).gc,
           (yuvMatrix 0 1 (uvcos ratLibm 0 1) (uvsin ratLibm 0 1)).bc]]] ∧
    mplayerYuvH.YUV_LUM_SCALER (1 + 2 * 256) ≠ mplayerYuvH.YUV_SCALER_BILIN ∧
    mplayerYuvH.YUV_LUM_SCALER (1 + 2 * 256) ≠ mplayerYuvH.YUV_SCALER_BICUB ∧
    (glSetupYUVConversion mplayerYuvH
        (stubTable [.CombinerInput, .CombinerOutput, .CombinerParameterfv,
          .CombinerParameteri]) plainEnv ratLibm GL_TEXTURE_2D (1 + 2 * 256)
        0 1 0 1 1 1 1 640 480).countP Event.isError = 0 ∧
    (glSetupYUVConversion mplayerYuvH
        (stubTable [.CombinerInput, .CombinerOutput, .CombinerParameterfv,
          .CombinerParameteri]) plainEnv ratLibm GL_TEXTURE_2D (1 + 2 * 256)
        0 1 0 1 1 1 1 640 480).length = 15 := by
  refine ⟨by decide, by decide, by decide, by decide, ?_, by decide, by decide,
    by decide, by decide⟩
  rfl

theorem lum_setup_unknown (H : YuvH) (tbl : FuncTable) (type : Int)
    (h1 : H.YUV_LUM_SCALER type ≠ H.YUV_SCALER_BILIN)
    (h2 : H.YUV_LUM_SCALER type ≠ H.YUV_SCALER_BICUB) :
    lum_setup H tbl type =
      ⟨[Event.mp_msg MSGL_ERR "[gl] unknown scaler type %i\n"], 3, none⟩ := by
  simp only [lum_setup, create_scaler_textures, if_neg h1, if_neg h2]

theorem add_scaler_unknown (H : YuvH) (scaler : Int) (texs : Option Int)
    (in_tex out_comp : Char) (rect : Bool) (texw texh : Int)
    (h1 : scaler ≠ H.YUV_SCALER_BILIN) (h2 : scaler ≠ H.YUV_SCALER_BICUB) :
    add_scaler H scaler texs in_tex out_comp rect texw texh = [] := by
  simp only [add_scaler, if_neg h1, if_neg h2]

/-- C16 (amended): for every type whose conversion-method field is none of
the six methods, `glSetupYUVConversion` logs an error and does nothing else,
so nothing is submitted.  For a program-based method (the method codes being
distinct) and a table whose `ActiveTexture` entry is not `NULL`, the run
reaches no call through `NULL` and no undefined operation, and a luminance
or chrominance scaler value that is no scaler code is logged as an error;
the luminance scaler then claims no texture unit and generates no lookup
texture, and the unknown scaler adds nothing to the program text. -/
theorem glSetupYUVConversion_unknown_values (H : YuvH) (tbl : FuncTable)
    (env : Env) (M : Libm) (target : Nat) (type : Int)
    (brightness contrast hue saturation rgamma ggamma bgamma : ℚ)
    (texw texh : Int) :
    ((H.YUV_CONVERSION type ≠ H.YUV_CONVERSION_COMBINERS ∧
        H.YUV_CONVERSION type ≠ H.YUV_CONVERSION_COMBINERS_ATI ∧
        H.YUV_CONVERSION type ≠ H.YUV_CONVERSION_FRAGMENT ∧
        H.YUV_CONVERSION type ≠ H.YUV_CONVERSION_FRAGMENT_POW ∧
        H.YUV_CONVERSION type ≠ H.YUV_CONVERSION_FRAGMENT_LOOKUP ∧
        H.YUV_CONVERSION type ≠ H.YUV_CONVERSION_FRAGMENT_LOOKUP3D) →
      glSetupYUVConversion H tbl env M target type brightness contrast hue
          saturation rgamma ggamma bgamma texw texh =
        [Event.mp_msg MSGL_ERR "[gl] unknown conversion type %i\n"]) ∧
    (H.WellFormed → tbl .ActiveTexture ≠ 0 →
      (H.YUV_CONVERSION type = H.YUV_CONVERSION_FRAGMENT_LOOKUP ∨
        H.YUV_CONVERSION type = H.YUV_CONVERSION_FRAGMENT_LOOKUP3D ∨
        H.YUV_CONVERSION type = H.YUV_CONVERSION_FRAGMENT ∨
        H.YUV_CONVERSION type = H.YUV_CONVERSION_FRAGMENT_POW) →
      (∀ e ∈ glSetupYUVConversion H tbl env M target type brightness contrast
          hue saturation rgamma ggamma bgamma texw texh, e.isFault = false) ∧
      ((H.YUV_LUM_SCALER type ≠ H.YUV_SCALER_BILIN ∧
          H.YUV_LUM_SCALER type ≠ H.YUV_SCALER_BICUB) →
        Event.mp_msg MSGL_ERR "[gl] unknown scaler type %i\n" ∈
          glSetupYUVConversion H tbl env M target type brightness contrast hue
            saturation rgamma ggamma bgamma texw texh ∧
        lum_setup H tbl type =
          ⟨[Event.mp_msg MSGL_ERR "[gl] unknown scaler type %i\n"], 3, none⟩ ∧
        ∀ texs in_tex out_comp rect w h,
          add_scaler H (H.YUV_LUM_SCALER type) texs in_tex out_comp rect w h =
            []) ∧
      ((H.YUV_CHROM_SCALER type ≠ H.YUV_SCALER_BILIN ∧
          H.YUV_CHROM_SCALER type ≠ H.YUV_SCALER_BICUB) →
        Event.mp_msg MSGL_ERR "[gl] unknown scaler type %i\n" ∈
          glSetupYUVConversion H tbl env M target type brightness contrast hue
            saturation rgamma ggamma bgamma texw texh ∧
        ∀ texs in_tex out_comp rect w h,
          add_scaler H (H.YUV_CHROM_SCALER type) texs in_tex out_comp rect w h =
            [])) := by
  refine ⟨?_, ?_⟩
  · rintro ⟨h1, h2, h3, h4, h5, h6⟩
    have h7 : ¬ (H.YUV_CONVERSION type = H.YUV_CONVERSION_FRAGMENT_LOOKUP ∨
        H.YUV_CONVERSION type = H.YUV_CONVERSION_FRAGMENT_LOOKUP3D ∨
        H.YUV_CONVERSION type = H.YUV_CONVERSION_FRAGMENT ∨
        H.YUV_CONVERSION type = H.YUV_CONVERSION_FRAGMENT_POW) := by
      rintro (h | h | h | h)
      · exact h5 h
      · exact h6 h
      · exact h3 h
      · exact h4 h
    simp only [glSetupYUVConversion, if_neg h1, if_neg h2, if_neg h7]
  · intro hH hat hconv
    have hev := glSetupYUVConversion_fragprog H hH tbl env M target type
      brightness contrast hue saturation rgamma ggamma bgamma texw texh hconv
    refine ⟨by
      rw [hev]
      exact glSetupYUVFragprog_no_fault H tbl hat env M brightness contrast _ _
        rgamma ggamma bgamma type _ texw texh, ?_⟩
    have hlumlog : (H.YUV_LUM_SCALER type ≠ H.YUV_SCALER_BILIN ∧
          H.YUV_LUM_SCALER type ≠ H.YUV_SCALER_BICUB) →
        Event.mp_msg MSGL_ERR "[gl] unknown scaler type %i\n" ∈
          glSetupYUVConversion H tbl env M target type brightness contrast hue
            saturation rgamma ggamma bgamma texw texh := by
      rintro ⟨h1, h2⟩
      rw [hev, glSetupYUVFragprog_eq, lum_setup_unknown H tbl type h1 h2]
      simp
    refine ⟨fun h => ⟨hlumlog h, lum_setup_unknown H tbl type h.1 h.2,
      fun texs in_tex out_comp rect w h' =>
        add_scaler_unknown H _ texs in_tex out_comp rect w h' h.1 h.2⟩, ?_⟩
    rintro ⟨h1, h2⟩
    refine ⟨?_, fun texs in_tex out_comp rect w h' =>
      add_scaler_unknown H _ texs in_tex out_comp rect w h' h1 h2⟩
    by_cases heq : H.YUV_CHROM_SCALER type = H.YUV_LUM_SCALER type
    · exact hlumlog ⟨heq ▸ h1, heq ▸ h2⟩
    · have hcs : chrom_setup H tbl type =
          ⟨[Event.mp_msg MSGL_ERR "[gl] unknown scaler type %i\n"],
            (lum_setup H tbl type).texu, none⟩ := by
        simp only [chrom_setup, if_neg heq, create_scaler_textures, if_neg h1,
          if_neg h2]
      rw [hev, glSetupYUVFragprog_eq, hcs]
      simp

/-- The theorem `glSetupYUVConversion_unknown_values` applies to the MPlayer
type codes and a table with `ActiveTexture` and `ProgramString`: type 7 has
no known conversion method, type `2 + 2 * 256` a direct conversion with an
unknown luminance scaler. -/
theorem glSetupYUVConversion_unknown_values_witness :
    mplayerYuvH.WellFormed ∧
    stubTable [.ActiveTexture, .ProgramString] .ActiveTexture ≠ 0 ∧
    glSetupYUVConversion mplayerYuvH
        (stubTable [.ActiveTexture, .ProgramString]) plainEnv
        ratLibm GL_TEXTURE_2D 7 0 1 0 1 1 1 1 640 480 =
      [Event.mp_msg MSGL_ERR "[gl] unknown conversion type %i\n"] ∧
    (∀ e ∈ glSetupYUVConversion mplayerYuvH
        (stubTable [.ActiveTexture, .ProgramString]) plainEnv ratLibm
        GL_TEXTURE_2D (2 + 2 * 256) 0 1 0 1 1 1 1 640 480,
      e.isFault = false) ∧
    Event.mp_msg MSGL_ERR "[gl] unknown scaler type %i\n" ∈
      glSetupYUVConversion mplayerYuvH
        (stubTable [.ActiveTexture, .ProgramString]) plainEnv
        ratLibm GL_TEXTURE_2D (2 + 2 * 256) 0 1 0 1 1 1 1 640 480 :=
  have key := (glSetupYUVConversion_unknown_values mplayerYuvH
      (stubTable [.ActiveTexture, .ProgramString]) plainEnv ratLibm
      GL_TEXTURE_2D (2 + 2 * 256) 0 1 0 1 1 1 1 640 480).2
      ⟨by decide, by decide⟩ (by decide)
      (Or.inr (Or.inr (Or.inl (by decide))))
  ⟨⟨by decide, by decide⟩, by decide,
   (glSetupYUVConversion_unknown_values mplayerYuvH
      (stubTable [.ActiveTexture, .ProgramString]) plainEnv ratLibm
      GL_TEXTURE_2D 7 0 1 0 1 1 1 1 640 480).1
      ⟨by decide, by decide, by decide, by decide, by decide, by decide⟩,
   key.1, (key.2.1 ⟨by decide, by decide⟩).1⟩

/-! ## The gamma vector of the pow program -/

/-- C18 (the code at the failing input): for the pow method (type 3) with
`rgamma = 1`, `ggamma = 2`, `bgamma = 3` the gamma vector of the submitted
program is `(1, 1/3, 1/3)`: its green component is `1 / bgamma`, not
`1 / ggamma = 1/2`. -/
theorem glSetupYUVConversion_pow_gamma_vector :
    ((glSetupYUVConversion mplayerYuvH (stubTable [.ProgramString]) plainEnv
        ratLibm GL_TEXTURE_2D 3 0 1 0 1 1 2 3 640 480).filterMap
        Event.program?).map (fun p => p.filterMap ProgPart.gamma?) =
      [[[1, 1 / 3, 1 / 3]]] ∧
    ([1, 1 / 3, 1 / 3] : List ℚ) ≠ [1 / 1, 1 / 2, 1 / 3] := by
  have h : ((glSetupYUVConversion mplayerYuvH (stubTable [.ProgramString])
        plainEnv ratLibm GL_TEXTURE_2D 3 0 1 0 1 1 2 3 640 480).filterMap
        Event.program?).map (fun p => p.filterMap ProgPart.gamma?) =
      [[[1.0 / 1, 1.0 / 3, 1.0 / 3]]] := rfl
  rw [h]
  constructor <;> norm_num

/-- The theorem `fragprog_texture_units` applies to the MPlayer type codes
and the type `4 + 256` (1D lookup conversion, bicubic luminance scaler,
bilinear chrominance scaler): the counter ends at 3 plus the number of
lookup textures, which is at most 5. -/
theorem fragprog_texture_units_witness :
    mplayerYuvH.YUV_SCALER_BILIN ≠ mplayerYuvH.YUV_SCALER_BICUB ∧
    stubTable [.ActiveTexture, .ProgramString] .ActiveTexture ≠ 0 ∧
    (conv_setup mplayerYuvH (stubTable [.ActiveTexture, .ProgramString])
        plainEnv ratLibm 0 1 1 0 1 1 1 (4 + 256)).texu =
      3 + (((lum_setup mplayerYuvH
              (stubTable [.ActiveTexture, .ProgramString]) (4 + 256)).events ++
            (chrom_setup mplayerYuvH
              (stubTable [.ActiveTexture, .ProgramString]) (4 + 256)).events ++
            (conv_setup mplayerYuvH (stubTable [.ActiveTexture, .ProgramString])
              plainEnv ratLibm 0 1 1 0 1 1 1 (4 + 256)).events).countP
          Event.isLookupTexture : Int) ∧
    (conv_setup mplayerYuvH (stubTable [.ActiveTexture, .ProgramString])
        plainEnv ratLibm 0 1 1 0 1 1 1 (4 + 256)).texu ≤ 5 :=
  ⟨by decide, by decide,
   (fragprog_texture_units mplayerYuvH (by decide)
      (stubTable [.ActiveTexture, .ProgramString]) (by decide) plainEnv
      ratLibm 0 1 1 0 1 1 1 (4 + 256) false 640 480).2.2.2.2.2.2.2.2.2.2.2.2.2⟩

/-- The theorem `glSetupYUVConversion_direct_bilinear` applies to the
MPlayer type codes, a table with `ProgramString` only and the type 2
(direct conversion, bilinear scalers). -/
theorem glSetupYUVConversion_direct_bilinear_witness :
    mplayerYuvH.WellFormed ∧
    stubTable [.ProgramString] .ProgramString ≠ 0 ∧
    mplayerYuvH.YUV_LUM_SCALER 2 = mplayerYuvH.YUV_SCALER_BILIN ∧
    mplayerYuvH.YUV_CHROM_SCALER 2 = mplayerYuvH.YUV_SCALER_BILIN ∧
    (mplayerYuvH.YUV_CONVERSION 2 = mplayerYuvH.YUV_CONVERSION_FRAGMENT ∨
      mplayerYuvH.YUV_CONVERSION 2 = mplayerYuvH.YUV_CONVERSION_FRAGMENT_POW) ∧
    (∀ e ∈ glSetupYUVConversion mplayerYuvH (stubTable [.ProgramString])
        plainEnv ratLibm GL_TEXTURE_2D 2 0 1 0 1 1 1 1 640 480,
      e.entryPtr ≠ some 0) ∧
    (glSetupYUVConversion mplayerYuvH (stubTable [.ProgramString]) plainEnv
        ratLibm GL_TEXTURE_2D 2 0 1 0 1 1 1 1 640 480).filter
        Event.isProgramString =
      [Event.ProgramString (stubTable [.ProgramString] .ProgramString)
        GL_FRAGMENT_PROGRAM GL_PROGRAM_FORMAT_ASCII
        (fragprog_text mplayerYuvH (stubTable [.ProgramString]) plainEnv
          ratLibm 0 1 (uvcos ratLibm 0 1) (uvsin ratLibm 0 1) 1 1 1 2
          (GL_TEXTURE_2D = GL_TEXTURE_RECTANGLE) 640 480)] :=
  have key := glSetupYUVConversion_direct_bilinear mplayerYuvH
    ⟨by decide, by decide⟩ (stubTable [.ProgramString]) (by decide) plainEnv
    ratLibm GL_TEXTURE_2D 2 0 1 0 1 1 1 1 640 480 (by decide) (by decide)
    (Or.inl (by decide))
  ⟨⟨by decide, by decide⟩, by decide, by decide, by decide,
   Or.inl (by decide), key.1, key.2.1⟩

/-! ## The sampling grid of gen_yuv2rgb_map -/

theorem mapStep_sampleCoord (e : ℚ) (size k : Int) (hsize : 1 ≤ size)
    (hk0 : -1 ≤ k) (hk1 : k < size) :
    sampleCoord e size k + mapStep size (1.0 / (size : ℚ)) k =
      sampleCoord e size (k + 1) := by
  have hs : (size : ℚ) ≠ 0 := by
    have : (size : Int) ≠ 0 := by omega
    exact_mod_cast this
  by_cases h1 : k = -1
  · subst h1
    have h2 : ¬ ((-1 : Int) + 1 = -1) := by decide
    have h3 : ¬ ((-1 : Int) + 1 = size) := by omega
    simp only [sampleCoord, mapStep, if_pos, true_or, if_neg h2, if_neg h3]
    push_cast
    ring
  · by_cases h2 : k = size - 1
    · have h3 : ¬ (k = size) := by omega
      have h4 : ¬ (k + 1 = -1) := by omega
      have h5 : k + 1 = size := by omega
      simp only [sampleCoord, mapStep, if_neg h1, if_neg h3, if_neg h4,
        if_pos h5, if_pos (Or.inr h2)]
      subst h2
      push_cast
      field_simp
      ring
    · have h3 : ¬ (k = size) := by omega
      have h4 : ¬ (k + 1 = -1) := by omega
      have h5 : ¬ (k + 1 = size) := by omega
      have h6 : ¬ (k = -1 ∨ k = size - 1) := by omega
      simp only [sampleCoord, mapStep, if_neg h1, if_neg h3, if_neg h4,
        if_neg h5, if_neg h6]
      push_cast
      ring

theorem mapCoords_range (e : ℚ) (size : Int) (hsize : 1 ≤ size) :
    ∀ (n : Nat) (k0 : Int), -1 ≤ k0 → k0 + n ≤ size + 1 →
      mapCoords size (1.0 / (size : ℚ))
          ((List.range n).map (fun j : Nat => k0 + (j : Int)))
          (sampleCoord e size k0) =
        ((List.range n).map (fun j : Nat => k0 + (j : Int))).map
          (sampleCoord e size) := by
  intro n
  induction n with
  | zero => intro k0 _ _; rfl
  | succ n ih =>
    intro k0 h0 h1
    have hlist : (List.range (n + 1)).map (fun j : Nat => k0 + (j : Int)) =
        k0 :: (List.range n).map (fun j : Nat => (k0 + 1) + (j : Int)) := by
      rw [List.range_succ_eq_map, List.map_cons, List.map_map]
      congr 1
      · simp
      · apply List.map_congr_left
        intro j _
        simp only [Function.comp, Nat.succ_eq_add_one]
        push_cast
        ring
    rw [hlist]
    simp only [mapCoords, List.map_cons]
    push_cast at h1
    by_cases hlast : k0 < size
    · rw [mapStep_sampleCoord e size k0 hsize h0 hlast,
        ih (k0 + 1) (by omega) (by omega)]
    · have hn : n = 0 := by omega
      subst hn
      rfl

theorem mapIndices_eq (size : Int) :
    mapIndices size =
      (List.range (size + 2).toNat).map (fun j : Nat => (-1 : Int) + (j : Int)) := by
  unfold mapIndices
  apply List.map_congr_left
  intro j _
  ring

theorem mapCoords_mapIndices (e : ℚ) (size : Int) (hsize : 1 ≤ size) :
    mapCoords size (1.0 / (size : ℚ)) (mapIndices size) e =
      (mapIndices size).map (sampleCoord e size) := by
  have he : sampleCoord e size (-1) = e := by simp [sampleCoord]
  rw [mapIndices_eq]
  have key := mapCoords_range e size hsize (size + 2).toNat (-1) (by decide)
    (by rw [Int.toNat_of_nonneg (by omega)]; omega)
  rw [he] at key
  exact key

theorem yuv2rgb_yloop_eq (M : Libm)
    (brightness contrast uvcos uvsin rgamma ggamma bgamma : ℚ) (size : Int)
    (step u v : ℚ) (ks : List Int) (y : ℚ) :
    yuv2rgb_yloop M brightness contrast uvcos uvsin rgamma ggamma bgamma size
        step u v ks y =
      (mapCoords size step ks y).flatMap (fun y =>
        yuv2rgb_texel M brightness contrast uvcos uvsin rgamma ggamma bgamma
          y u v) := by
  induction ks generalizing y with
  | nil => rfl
  | cons k ks ih =>
    simp only [yuv2rgb_yloop, mapCoords, List.flatMap_cons, ih]

theorem yuv2rgb_uloop_eq (M : Libm)
    (brightness contrast uvcos uvsin rgamma ggamma bgamma : ℚ) (size : Int)
    (step v : ℚ) (js : List Int) (u : ℚ) :
    yuv2rgb_uloop M brightness contrast uvcos uvsin rgamma ggamma bgamma size
        step v js u =
      (mapCoords size step js u).flatMap (fun u =>
        yuv2rgb_yloop M brightness contrast uvcos uvsin rgamma ggamma bgamma
          size step u v (mapIndices size) (-(16.0 / 255.0))) := by
  induction js generalizing u with
  | nil => rfl
  | cons j js ih =>
    simp only [yuv2rgb_uloop, mapCoords, List.flatMap_cons, ih]

theorem yuv2rgb_vloop_eq (M : Libm)
    (brightness contrast uvcos uvsin rgamma ggamma bgamma : ℚ) (size : Int)
    (step : ℚ) (is : List Int) (v : ℚ) :
    yuv2rgb_vloop M brightness contrast uvcos uvsin rgamma ggamma bgamma size
        step is v =
      (mapCoords size step is v).flatMap (fun v =>
        yuv2rgb_uloop M brightness contrast uvcos uvsin rgamma ggamma bgamma
          size step v (mapIndices size) (-0.5)) := by
  induction is generalizing v with
  | nil => rfl
  | cons i is ih =>
    simp only [yuv2rgb_vloop, mapCoords, List.flatMap_cons, ih]

/-- C21: in `gen_yuv2rgb_map` with `size ≥ 1` and `step = 1 / size`, the
coordinate a loop uses at counter value `k` (from -1 to `size`) is
`sampleCoord e size k`: the lower edge `e` at `k = -1`, `e + (k + 1/2) * step`
for `0 ≤ k ≤ size - 1` and `e + 1` at `k = size`, whatever the start value
`e`.  So the map is the list of texels sampled at these coordinates, with
`e = -16/255` for y and `e = -1/2` for u and v, v outermost and y innermost. -/
theorem gen_yuv2rgb_map_sample_coords (M : Libm) (size : Int)
    (brightness contrast uvcos uvsin rgamma ggamma bgamma : ℚ)
    (hsize : 1 ≤ size) :
    (∀ e : ℚ, mapCoords size (1.0 / (size : ℚ)) (mapIndices size) e =
      (mapIndices size).map (sampleCoord e size)) ∧
    gen_yuv2rgb_map M size brightness contrast uvcos uvsin rgamma ggamma bgamma =
      (mapIndices size).flatMap (fun i =>
        (mapIndices size).flatMap (fun j =>
          (mapIndices size).flatMap (fun k =>
            yuv2rgb_texel M brightness contrast uvcos uvsin rgamma ggamma bgamma
              (sampleCoord (-(16 / 255)) size k)
              (sampleCoord (-(1 / 2)) size j)
              (sampleCoord (-(1 / 2)) size i)))) := by
  refine ⟨fun e => mapCoords_mapIndices e size hsize, ?_⟩
  have hy : (-(16.0 / 255.0) : ℚ) = -(16 / 255) := by norm_num
  have hu : (-0.5 : ℚ) = -(1 / 2) := by norm_num
  simp only [gen_yuv2rgb_map, yuv2rgb_vloop_eq, yuv2rgb_uloop_eq,
    yuv2rgb_yloop_eq, mapCoords_mapIndices _ size hsize, List.flatMap_map,
    hy, hu]

/-- The theorem `gen_yuv2rgb_map_sample_coords` applies at `size = 2`: the
chroma coordinates are -1/2, -1/4, 1/4, 1/2. -/
theorem gen_yuv2rgb_map_sample_coords_witness :
    (1 : Int) ≤ 2 ∧
    mapCoords 2 (1.0 / ((2 : Int) : ℚ)) (mapIndices 2) (-(1 / 2)) =
      (mapIndices 2).map (sampleCoord (-(1 / 2)) 2) :=
  ⟨by decide,
   (gen_yuv2rgb_map_sample_coords ratLibm 2 0 1 1 0 1 1 1 (by decide)).1
     (-(1 / 2))⟩

/-! ## The table of gen_spline_lookup_tex -/

theorem spline_tex_length : spline_tex.length = 2048 := by
  simp [spline_tex, LOOKUP_BSPLINE_RES]

/-- C22: the table `gen_spline_lookup_tex` uploads has 2048 entries of four
components; entry `i` for `0 < i < 2047` is `store_weights ((i + 1/2) / 2048)`,
entry 0 is `store_weights 0 = (1/5, 1, 5/6, 0)` and entry 2047 is
`store_weights 1 = (1, 1/5, 1/6, 0)`. -/
theorem gen_spline_lookup_tex_table (tbl : FuncTable) (unit : ℚ) :
    Event.glTexImage1D GL_TEXTURE_1D 0 GL_RGBA16 2048 0 GL_RGBA GL_FLOAT
        spline_tex.flatten ∈ gen_spline_lookup_tex tbl unit ∧
    spline_tex.length = 2048 ∧
    (∀ e ∈ spline_tex, e.length = 4) ∧
    (∀ i : Nat, 0 < i → i < 2047 →
      spline_tex[i]? = some (store_weights (((i : ℚ) + 1 / 2) / 2048))) ∧
    spline_tex[0]? = some (store_weights 0) ∧
    store_weights 0 = [1 / 5, 1, 5 / 6, 0] ∧
    spline_tex[2047]? = some (store_weights 1) ∧
    store_weights 1 = [1, 1 / 5, 1 / 6, 0] := by
  have hres : LOOKUP_BSPLINE_RES = 2048 := rfl
  refine ⟨?_, spline_tex_length, ?_, ?_, ?_, ?_, ?_, ?_⟩
  · simp only [gen_spline_lookup_tex, hres]
    simp
  · intro e he
    simp only [spline_tex, hres] at he
    rcases List.mem_or_eq_of_mem_set he with he | rfl
    · rcases List.mem_or_eq_of_mem_set he with he | rfl
      · obtain ⟨i, _, rfl⟩ := List.mem_map.mp he
        rfl
      · rfl
    · rfl
  · intro i h0 h1
    simp only [spline_tex, hres]
    rw [List.getElem?_set_ne (by omega), List.getElem?_set_ne (by omega),
      List.getElem?_map, List.getElem?_range (by omega)]
    norm_num
  · simp only [spline_tex, hres]
    rw [List.getElem?_set_ne (by omega), List.getElem?_set_self]
    simp
  · simp only [store_weights]
    norm_num
  · simp only [spline_tex, hres]
    rw [List.getElem?_set_self]
    simp
  · simp only [store_weights]
    norm_num

/-- The theorem `gen_spline_lookup_tex_table` applies at entry 1. -/
theorem gen_spline_lookup_tex_table_witness :
    0 < 1 ∧ 1 < 2047 ∧
    spline_tex[1]? = some (store_weights ((((1 : Nat) : ℚ) + 1 / 2) / 2048)) :=
  ⟨by decide, by decide,
   (gen_spline_lookup_tex_table (stubTable []) 0).2.2.2.1 1 (by decide)
     (by decide)⟩

/-! ## Neutral chroma -/

/-- C23: for every brightness, contrast, `uvcos` and `uvsin` the matrix and
offsets of `glSetupYUVFragprog` map a sample with `U = V = 128/255` to
`R = G = B = 1.164 * contrast * (Y - 16/255) + brightness + 1/2 - contrast/2`;
the luma value `16/255 + 1/(2 * 1.164)` maps to `1/2 + brightness` for every
contrast, and with contrast 0 every luma value maps to `1/2 + brightness`. -/
theorem yuvMatrix_neutral_chroma_grey (brightness contrast uvcos uvsin Y : ℚ) :
    (yuvMatrix brightness contrast uvcos uvsin).apply Y (128 / 255) (128 / 255) =
      List.replicate 3
        (1.164 * contrast * (Y - 16 / 255) + brightness + 1 / 2 - contrast / 2) ∧
    (yuvMatrix brightness contrast uvcos uvsin).apply
        (16 / 255 + 1 / (2 * 1.164)) (128 / 255) (128 / 255) =
      List.replicate 3 (1 / 2 + brightness) ∧
    (yuvMatrix brightness 0 uvcos uvsin).apply Y (128 / 255) (128 / 255) =
      List.replicate 3 (1 / 2 + brightness) := by
  refine ⟨?_, ?_, ?_⟩
  all_goals
    simp only [YuvMatrix.apply, yuv_prog_mad, MAD, yuvMatrix, List.zipWith,
      List.replicate, List.cons.injEq, and_true]
    refine ⟨?_, ?_, ?_⟩ <;> ring

/-! ## The range of fillUVcoeff -/

/-- C24: `fillUVcoeff` stores each raw coefficient `v` as `v * 0.25 + 0.5`,
both vectors have four components and the fourth is exactly 1/2; when
`uvcos ^ 2 + uvsin ^ 2 ≤ 1` every raw coefficient lies in `[-2, 2]` and all
eight stored components lie in `[0, 1]`. -/
theorem fillUVcoeff_range (uvcos uvsin : ℚ) :
    fillUVcoeff uvcos uvsin =
      ((fillUVcoeff_raw uvcos uvsin).1.map (fun v => v * 0.25 + 0.5),
       (fillUVcoeff_raw uvcos uvsin).2.map (fun v => v * 0.25 + 0.5)) ∧
    (fillUVcoeff uvcos uvsin).1.length = 4 ∧
    (fillUVcoeff uvcos uvsin).2.length = 4 ∧
    (fillUVcoeff uvcos uvsin).1[3]? = some (1 / 2) ∧
    (fillUVcoeff uvcos uvsin).2[3]? = some (1 / 2) ∧
    (uvcos ^ 2 + uvsin ^ 2 ≤ 1 →
      (∀ r ∈ (fillUVcoeff_raw uvcos uvsin).1 ++ (fillUVcoeff_raw uvcos uvsin).2,
        -2 ≤ r ∧ r ≤ 2) ∧
      (∀ c ∈ (fillUVcoeff uvcos uvsin).1 ++ (fillUVcoeff uvcos uvsin).2,
        0 ≤ c ∧ c ≤ 1)) := by
  refine ⟨rfl, rfl, rfl, ?_, ?_, ?_⟩
  · simp only [fillUVcoeff, List.map, List.getElem?_cons_succ,
      List.getElem?_cons_zero]
    norm_num
  · simp only [fillUVcoeff, List.map, List.getElem?_cons_succ,
      List.getElem?_cons_zero]
    norm_num
  · intro h
    have hc2 : uvcos ^ 2 ≤ 1 := by nlinarith [sq_nonneg uvsin]
    have hs2 : uvsin ^ 2 ≤ 1 := by nlinarith [sq_nonneg uvcos]
    have hc := abs_le_one_iff_mul_self_le_one.mpr (by nlinarith : uvcos * uvcos ≤ 1)
    have hs := abs_le_one_iff_mul_self_le_one.mpr (by nlinarith : uvsin * uvsin ≤ 1)
    obtain ⟨hc0, hc1⟩ := abs_le.mp hc
    obtain ⟨hs0, hs1⟩ := abs_le.mp hs
    constructor
    · intro r hr
      simp only [fillUVcoeff_raw, List.cons_append, List.nil_append,
        List.mem_cons, List.not_mem_nil, or_false] at hr
      rcases hr with rfl | rfl | rfl | rfl | rfl | rfl | rfl | rfl
      all_goals constructor <;> norm_num <;> linarith
    · intro r hr
      simp only [fillUVcoeff, List.map, List.cons_append, List.nil_append,
        List.mem_cons, List.not_mem_nil, or_false] at hr
      rcases hr with rfl | rfl | rfl | rfl | rfl | rfl | rfl | rfl
      all_goals constructor <;> norm_num <;> linarith

/-- The range statement of `fillUVcoeff_range` applies at `uvcos = 0`,
`uvsin = 1` (hue of a quarter turn at full saturation). -/
theorem fillUVcoeff_range_witness :
    (0 : ℚ) ^ 2 + (1 : ℚ) ^ 2 ≤ 1 ∧
    (∀ r ∈ (fillUVcoeff_raw 0 1).1 ++ (fillUVcoeff_raw 0 1).2, -2 ≤ r ∧ r ≤ 2) ∧
    (∀ c ∈ (fillUVcoeff 0 1).1 ++ (fillUVcoeff 0 1).2, 0 ≤ c ∧ c ≤ 1) :=
  ⟨by norm_num, (fillUVcoeff_range 0 1).2.2.2.2.2 (by norm_num)⟩

/-! ## Bytes per pixel of the formats glFindFormat selects -/

theorem ceil_eighth (d z : Int) (h1 : 8 * (z - 1) < d) (h2 : d ≤ 8 * z) :
    ⌈((d : Int) : ℚ) / 8⌉ = z := by
  rw [Int.ceil_eq_iff]
  have h1q : ((8 * (z - 1) : Int) : ℚ) < (d : ℚ) := by exact_mod_cast h1
  have h2q : ((d : Int) : ℚ) ≤ ((8 * z : Int) : ℚ) := by exact_mod_cast h2
  push_cast at h1q h2q
  constructor
  · linarith
  · linarith

/-- C25: for every format identifier, supported or not, `glFmt2bpp` of the
transfer format and type that `glFindFormat` outputs is one of 1, 2, 3, 4 and
never 0, so the divisor of the row length in `glUploadTex` is not zero; for a
supported format (with a header whose depth helpers report the known depths)
the value is `⌈bpp / 8⌉` for the bpp `glFindFormat` reports. -/
theorem glFmt2bpp_of_glFindFormat (H : ImgFormatH) (fmt : Nat) :
    glFmt2bpp (glFindFormat H fmt).gl_format (glFindFormat H fmt).gl_type ∈
      ([1, 2, 3, 4] : List Int) ∧
    glFmt2bpp (glFindFormat H fmt).gl_format (glFindFormat H fmt).gl_type ≠ 0 ∧
    (H.WellFormed → (glFindFormat H fmt).supported = 1 →
      glFmt2bpp (glFindFormat H fmt).gl_format (glFindFormat H fmt).gl_type =
        ⌈((glFindFormat H fmt).bpp : ℚ) / 8⌉) := by
  by_cases c1 : fmt = H.IMGFMT_RGB24
  · simp only [glFindFormat, if_pos c1]
    refine ⟨by decide, by decide, fun hH _ => ?_⟩
    have hd := hH.rgb24
    rw [← c1] at hd
    simp only [ImgFormatH.depth] at hd
    rw [hd]
    exact (ceil_eighth _ 3 (by decide) (by decide)).symm
  by_cases c2 : fmt = H.IMGFMT_RGBA
  · simp only [glFindFormat, if_neg c1, if_pos c2]
    refine ⟨by decide, by decide, fun hH _ => ?_⟩
    have hd := hH.rgba
    rw [← c2] at hd
    simp only [ImgFormatH.depth] at hd
    rw [hd]
    exact (ceil_eighth _ 4 (by decide) (by decide)).symm
  by_cases c3 : fmt = H.IMGFMT_YV12
  · simp only [glFindFormat, if_neg c1, if_neg c2, if_pos c3]
    refine ⟨by decide, by decide, fun _ h => absurd h (by decide)⟩
  by_cases c4 : fmt = H.IMGFMT_Y800 ∨ fmt = H.IMGFMT_Y8
  · simp only [glFindFormat, if_neg c1, if_neg c2, if_neg c3, if_pos c4]
    refine ⟨by decide, by decide, fun _ _ => ?_⟩
    exact (ceil_eighth 8 1 (by decide) (by decide)).symm
  by_cases c5 : fmt = H.IMGFMT_RGB15
  · simp only [glFindFormat, if_neg c1, if_neg c2, if_neg c3, if_neg c4,
      if_pos c5]
    refine ⟨by decide, by decide, fun hH _ => ?_⟩
    have hd := hH.rgb15
    rw [← c5] at hd
    simp only [ImgFormatH.depth] at hd
    rw [hd]
    exact (ceil_eighth _ 2 (by decide) (by decide)).symm
  by_cases c6 : fmt = H.IMGFMT_RGB16
  · simp only [glFindFormat, if_neg c1, if_neg c2, if_neg c3, if_neg c4,
      if_neg c5, if_pos c6]
    refine ⟨by decide, by decide, fun hH _ => ?_⟩
    have hd := hH.rgb16
    rw [← c6] at hd
    simp only [ImgFormatH.depth] at hd
    rw [hd]
    exact (ceil_eighth _ 2 (by decide) (by decide)).symm
  by_cases c7 : fmt = H.IMGFMT_BGR15
  · simp only [glFindFormat, if_neg c1, if_neg c2, if_neg c3, if_neg c4,
      if_neg c5, if_neg c6, if_pos c7]
    refine ⟨by decide, by decide, fun hH _ => ?_⟩
    have hd := hH.bgr15
    rw [← c7] at hd
    simp only [ImgFormatH.depth] at hd
    rw [hd]
    exact (ceil_eighth _ 2 (by decide) (by decide)).symm
  by_cases c8 : fmt = H.IMGFMT_BGR16
  · simp only [glFindFormat, if_neg c1, if_neg c2, if_neg c3, if_neg c4,
      if_neg c5, if_neg c6, if_neg c7, if_pos c8]
    refine ⟨by decide, by decide, fun hH _ => ?_⟩
    have hd := hH.bgr16
    rw [← c8] at hd
    simp only [ImgFormatH.depth] at hd
    rw [hd]
    exact (ceil_eighth _ 2 (by decide) (by decide)).symm
  by_cases c9 : fmt = H.IMGFMT_BGR24
  · simp only [glFindFormat, if_neg c1, if_neg c2, if_neg c3, if_neg c4,
      if_neg c5, if_neg c6, if_neg c7, if_neg c8, if_pos c9]
    refine ⟨by decide, by decide, fun hH _ => ?_⟩
    have hd := hH.bgr24
    rw [← c9] at hd
    simp only [ImgFormatH.depth] at hd
    rw [hd]
    exact (ceil_eighth _ 3 (by decide) (by decide)).symm
  by_cases c10 : fmt = H.IMGFMT_BGRA
  · simp only [glFindFormat, if_neg c1, if_neg c2, if_neg c3, if_neg c4,
      if_neg c5, if_neg c6, if_neg c7, if_neg c8, if_neg c9, if_pos c10]
    refine ⟨by decide, by decide, fun hH _ => ?_⟩
    have hd := hH.bgra
    rw [← c10] at hd
    simp only [ImgFormatH.depth] at hd
    rw [hd]
    exact (ceil_eighth _ 4 (by decide) (by decide)).symm
  simp only [glFindFormat, if_neg c1, if_neg c2, if_neg c3, if_neg c4,
      if_neg c5, if_neg c6, if_neg c7, if_neg c8, if_neg c9, if_neg c10]
  exact ⟨by decide, by decide, fun _ h => absurd h (by decide)⟩

/-- The theorem `glFmt2bpp_of_glFindFormat` applies to RGB15 of the MPlayer
header: 15 bits per pixel are transferred as 2 bytes. -/
theorem glFmt2bpp_of_glFindFormat_witness :
    mplayerImgFormat.WellFormed ∧
    (glFindFormat mplayerImgFormat 0x5247420F).supported = 1 ∧
    glFmt2bpp (glFindFormat mplayerImgFormat 0x5247420F).gl_format
        (glFindFormat mplayerImgFormat 0x5247420F).gl_type =
      ⌈((glFindFormat mplayerImgFormat 0x5247420F).bpp : ℚ) / 8⌉ :=
  ⟨by constructor <;> decide, by decide,
   (glFmt2bpp_of_glFindFormat mplayerImgFormat 0x5247420F).2.2
     (by constructor <;> decide) (by decide)⟩

/-! ## The weights of store_weights -/

/-- C26: for `0 ≤ x ≤ 1` the four weights `w0 .. w3` of `store_weights` are
non-negative and sum to 1, both denominators `w0 + w1` and `w2 + w3` are at
least 1/6, the stored blend factor `w0 + w1` (third component) lies in
`[1/6, 5/6]`, and `1 - (w0 + w1) = w2 + w3`. -/
theorem store_weights_partition (x : ℚ) (h0 : 0 ≤ x) (h1 : x ≤ 1) :
    store_weights x =
      [1 + x - spline_w1 x / (spline_w0 x + spline_w1 x),
       1 - x + spline_w3 x / (spline_w2 x + spline_w3 x),
       spline_w0 x + spline_w1 x, 0] ∧
    0 ≤ spline_w0 x ∧ 0 ≤ spline_w1 x ∧ 0 ≤ spline_w2 x ∧ 0 ≤ spline_w3 x ∧
    spline_w0 x + spline_w1 x + spline_w2 x + spline_w3 x = 1 ∧
    1 / 6 ≤ spline_w0 x + spline_w1 x ∧ 1 / 6 ≤ spline_w2 x + spline_w3 x ∧
    spline_w0 x + spline_w1 x ≤ 5 / 6 ∧
    1 - (spline_w0 x + spline_w1 x) = spline_w2 x + spline_w3 x := by
  have hx : 0 ≤ 1 - x := by linarith
  have hxx : 0 ≤ x * x := mul_nonneg h0 h0
  have hx1 : 0 ≤ x * (1 - x) := mul_nonneg h0 hx
  have hx3 : 0 ≤ x * x * x := mul_nonneg hxx h0
  have hy3 : 0 ≤ (1 - x) * (1 - x) * (1 - x) := mul_nonneg (mul_nonneg hx hx) hx
  have hxxy : 0 ≤ x * x * (1 - x) := mul_nonneg hxx hx
  have hxyy : 0 ≤ x * (1 - x) * (1 - x) := mul_nonneg hx1 hx
  refine ⟨rfl, ?_, ?_, ?_, ?_, ?_, ?_, ?_, ?_, ?_⟩
  · unfold spline_w0; nlinarith
  · unfold spline_w1; nlinarith
  · unfold spline_w2; nlinarith
  · unfold spline_w3; nlinarith
  · unfold spline_w0 spline_w1 spline_w2 spline_w3; ring
  · unfold spline_w0 spline_w1; nlinarith
  · unfold spline_w2 spline_w3; nlinarith
  · unfold spline_w0 spline_w1; nlinarith
  · unfold spline_w0 spline_w1 spline_w2 spline_w3; ring

/-- The theorem `store_weights_partition` applies at `x = 1/2`. -/
theorem store_weights_partition_witness :
    (0 : ℚ) ≤ 1 / 2 ∧ (1 / 2 : ℚ) ≤ 1 ∧
    spline_w0 (1 / 2) + spline_w1 (1 / 2) + spline_w2 (1 / 2) +
      spline_w3 (1 / 2) = 1 ∧
    1 / 6 ≤ spline_w0 (1 / 2) + spline_w1 (1 / 2) ∧
    spline_w0 (1 / 2) + spline_w1 (1 / 2) ≤ 5 / 6 :=
  have key := store_weights_partition (1 / 2) (by norm_num) (by norm_num)
  ⟨by norm_num, by norm_num, key.2.2.2.2.2.1, key.2.2.2.2.2.2.1,
   key.2.2.2.2.2.2.2.2.1⟩

end GLCommon
